import Mathlib

/-!
Shallow embedding of vtkOpenGLImageSliceMapper

The definitions below follow `Rendering/OpenGL2/vtkOpenGLImageSliceMapper.cxx`.
C++ `int` values are unbounded integers here: every theorem is about runs in
which no signed arithmetic overflows (in C++ such an overflow has no defined
behaviour at all).  Calls into the rendering backend are recorded as data (a call
tree, a list of events) instead of being executed.
-/

namespace vtkOpenGLImageSliceMapper

/-! ## Extents -/

/-- The C array `int extent[6]`: lower and upper bound (both inclusive) of each
of the three axes. -/
structure Extent where
  v0 : Int
  v1 : Int
  v2 : Int
  v3 : Int
  v4 : Int
  v5 : Int
deriving DecidableEq, Repr

/-- Read `extent[n]`.  Indices above 5 are outside the array; they are never
read when the axis indices are below 3. -/
def Extent.get (e : Extent) (n : Nat) : Int :=
  match n with
  | 0 => e.v0
  | 1 => e.v1
  | 2 => e.v2
  | 3 => e.v3
  | 4 => e.v4
  | 5 => e.v5
  | _ => 0

/-- Write `extent[n] = x`. -/
def Extent.set (e : Extent) (n : Nat) (x : Int) : Extent :=
  match n with
  | 0 => { e with v0 := x }
  | 1 => { e with v1 := x }
  | 2 => { e with v2 := x }
  | 3 => { e with v3 := x }
  | 4 => { e with v4 := x }
  | 5 => { e with v5 := x }
  | _ => e

/-- The data index `(i, j, k)` lies inside the extent. -/
def Extent.Contains (e : Extent) (i j k : Int) : Prop :=
  e.v0 ≤ i ∧ i ≤ e.v1 ∧ e.v2 ≤ j ∧ j ≤ e.v3 ∧ e.v4 ≤ k ∧ k ≤ e.v5

instance (e : Extent) (i j k : Int) : Decidable (e.Contains i j k) := by
  unfold Extent.Contains; infer_instance

/-- Two extents share no data index. -/
def Extent.Disjoint (a b : Extent) : Prop :=
  ∀ i j k : Int, ¬ (a.Contains i j k ∧ b.Contains i j k)

/-- Number of samples of the extent along axis `a`: `extent[2a+1] - extent[2a] + 1`. -/
def Extent.size (e : Extent) (a : Nat) : Int :=
  e.get (a * 2 + 1) - e.get (a * 2) + 1

/-- Modelled from the spec: `vtkImageSliceMapper::GetDimensionIndices`, which is
called by the mapper but defined in the base class, outside the sources at hand.
The spec: "for orientation ∈ {0,1,2}, the (xdim, ydim) pair returned always
excludes the orientation axis and the two returned values are distinct".  The
pair `(xdim, ydim)` is therefore a parameter of the model, constrained by this
predicate. -/
def DimensionIndices (orientation : Int) (xdim ydim : Nat) : Prop :=
  (orientation = 0 ∨ orientation = 1 ∨ orientation = 2) ∧
    xdim < 3 ∧ ydim < 3 ∧ xdim ≠ ydim ∧
    (xdim : Int) ≠ orientation ∧ (ydim : Int) ≠ orientation

instance (o : Int) (x y : Nat) : Decidable (DimensionIndices o x y) := by
  unfold DimensionIndices; infer_instance

/-! ## Texture size policy -/

/-- Outputs of `ComputeTextureSize` (lines 582-595): the two axis indices and the
arrays `imageSize[2]`, `textureSize[2]`. -/
structure TextureDims where
  xdim : Nat
  ydim : Nat
  imageSize : Int × Int
  textureSize : Int × Int
deriving DecidableEq, Repr

/-- Model of `ComputeTextureSize`; `dims` is what `GetDimensionIndices(this->Orientation, ..)`
returns. -/
def ComputeTextureSize (dims : Nat × Nat) (extent : Extent) : TextureDims :=
  let xdim := dims.1
  let ydim := dims.2
  let imageSize0 := extent.get (xdim * 2 + 1) - extent.get (xdim * 2) + 1
  let imageSize1 := extent.get (ydim * 2 + 1) - extent.get (ydim * 2) + 1
  { xdim := xdim, ydim := ydim,
    imageSize := (imageSize0, imageSize1),
    textureSize := (imageSize0, imageSize1) }

/-- Model of `TextureSizeOK` (lines 599-609); `maxSize` is the value the OpenGL state
reports for `GL_MAX_TEXTURE_SIZE`. -/
def TextureSizeOK (size : Int × Int) (maxSize : Int) : Bool :=
  decide (size.1 ≤ maxSize) && decide (size.2 ≤ maxSize)

/-! ## Recursive partitioner -/

/-- What one activation of `RecursiveRenderTexturedPolygon` does: it calls
`RenderTexturedPolygon` (line 171), or it calls itself twice (lines 203 and 207),
or it takes neither branch of the `if`/`else if` and returns without any call. -/
inductive CallTree where
  | render (extent : Extent) (recursive : Bool) : CallTree
  | split (first second : CallTree) : CallTree
  | nothing (extent : Extent) : CallTree
deriving DecidableEq, Repr

/-- The axis that lines 189-195 choose: `ydim`, unless `textureSize[0] > textureSize[1]`. -/
def splitIdx (td : TextureDims) : Nat :=
  if td.textureSize.1 > td.textureSize.2 then td.xdim else td.ydim

/-- The value of `tsize` after line 198 (`tsize /= 2`, C++ truncating division). -/
def splitTsize (td : TextureDims) : Int :=
  Int.tdiv (if td.textureSize.1 > td.textureSize.2 then td.textureSize.1
    else td.textureSize.2) 2

/-- The array `subExtent` at the first recursive call (lines 181-186, 201-202). -/
def firstSubExtent (extent : Extent) (idx : Nat) (tsize : Int) : Extent :=
  let subExtent := extent
  let subExtent := subExtent.set (idx * 2) (extent.get (idx * 2))
  subExtent.set (idx * 2 + 1) (extent.get (idx * 2) + tsize - 1)

/-- The array `subExtent` at the second recursive call (lines 205-206), computed
from its value at the first call. -/
def secondSubExtent (extent : Extent) (idx : Nat) (tsize : Int) : Extent :=
  let subExtent := firstSubExtent extent idx tsize
  let subExtent := subExtent.set (idx * 2) (subExtent.get (idx * 2) + tsize)
  subExtent.set (idx * 2 + 1) (extent.get (idx * 2 + 1))

/-- Model of `RecursiveRenderTexturedPolygon` (lines 157-209) with an explicit bound on the
nesting of calls: `none` means the bound was reached. -/
def recursiveRenderFuel (dims : Nat × Nat) (maxSize : Int) :
    Nat → Extent → Bool → Option CallTree
  | 0, _, _ => none
  | fuel + 1, extent, recursive =>
    let td := ComputeTextureSize dims extent
    if TextureSizeOK td.textureSize maxSize then
      some (CallTree.render extent recursive)
    else if td.textureSize.1 > 256 ∨ td.textureSize.2 > 256 then
      let idx := splitIdx td
      let tsize := splitTsize td
      match recursiveRenderFuel dims maxSize fuel (firstSubExtent extent idx tsize) true with
      | none => none
      | some first =>
        match recursiveRenderFuel dims maxSize fuel
            (secondSubExtent extent idx tsize) true with
        | none => none
        | some second => some (CallTree.split first second)
    else
      some (CallTree.nothing extent)

/-- A nesting bound that is always enough: the two in-plane sizes, negative ones
counted as zero, plus one. -/
def renderFuel (dims : Nat × Nat) (extent : Extent) : Nat :=
  (extent.size dims.1).toNat + (extent.size dims.2).toNat + 1

/-- Model of `RecursiveRenderTexturedPolygon` as a total function: the call tree it
produces. -/
def RecursiveRenderTexturedPolygon (dims : Nat × Nat) (maxSize : Int)
    (extent : Extent) (recursive : Bool) : CallTree :=
  (recursiveRenderFuel dims maxSize (renderFuel dims extent) extent recursive).getD
    (CallTree.nothing extent)

/-- The calls to `RenderTexturedPolygon`, in the order they are made. -/
def CallTree.calls : CallTree → List (Extent × Bool)
  | CallTree.render extent recursive => [(extent, recursive)]
  | CallTree.split first second => first.calls ++ second.calls
  | CallTree.nothing _ => []

/-- The extents handed to `RenderTexturedPolygon`. -/
def CallTree.leaves (t : CallTree) : List Extent :=
  t.calls.map Prod.fst

/-- The extents that neither fit nor were split, so that nothing was rendered
for them. -/
def CallTree.dropped : CallTree → List Extent
  | CallTree.render _ _ => []
  | CallTree.split first second => first.dropped ++ second.dropped
  | CallTree.nothing extent => [extent]

/-- The rendered and the dropped extents of one call: sizes, disjointness and
coverage, all at once. -/
def PartitionOf (dims : Nat × Nat) (maxSize : Int) (e : Extent) (t : CallTree) : Prop :=
  (∀ l ∈ t.leaves, l.size dims.1 ≤ maxSize ∧ l.size dims.2 ≤ maxSize) ∧
  (∀ d ∈ t.dropped, d.size dims.1 ≤ 256 ∧ d.size dims.2 ≤ 256 ∧
    (maxSize < d.size dims.1 ∨ maxSize < d.size dims.2)) ∧
  (t.leaves ++ t.dropped).Pairwise Extent.Disjoint ∧
  (∀ i j k, e.Contains i j k ↔ ∃ l ∈ t.leaves ++ t.dropped, l.Contains i j k)

/-! ## Cache / invalidation tracker -/

/-- A point of `vtkPoints`, in exact arithmetic. -/
abbrev Point3 := ℚ × ℚ × ℚ

/-- What the mapper reads from a `vtkOpenGLRenderWindow`: its identity (the
pointer value) and `GetContextCreationTime()`. -/
structure RenderWindowInfo where
  id : Nat
  contextCreationTime : Nat
deriving DecidableEq, Repr

/-- What the mapper reads from a `vtkImageProperty`: `GetMTime()`, the
modification time of `GetLookupTable()` (`none` for a null table), and whether
`GetInterpolationType()` is `VTK_NEAREST_INTERPOLATION`. -/
structure ImageProperty where
  mtime : Nat
  lookupTableMTime : Option Nat
  nearestInterpolation : Bool
deriving DecidableEq, Repr

/-- The fields of the mapper that `RenderTexturedPolygon` reads or writes.
`globalTime` is the value of the process-wide modification counter from which
`vtkTimeStamp::Modified()` draws the next time stamp; stamps drawn after
`LoadTime.Modified()` are not tracked, since only `LoadTime` is compared. -/
structure Mapper where
  globalTime : Nat
  LoadTime : Nat
  RenderWindow : Option Nat
  TextureSize : Int × Int
  TextureBytesPerPixel : Int
  LastOrientation : Int
  LastSliceNumber : Int
  Orientation : Int
  SliceNumber : Int
  PassColorData : Bool
  ExactPixelMatch : Bool
  SliceFacesCamera : Bool
  Background : Bool
  Points : Option (List Point3)
deriving DecidableEq, Repr

/-- Value of `VTK_INT_MAX` for a 32-bit `int`. -/
def VTK_INT_MAX : Int := 2147483647

/-- The cache fields as the constructor leaves them (lines 125-131); a
`vtkTimeStamp` starts at 0.  The remaining fields belong to the base class and
are set by the caller. -/
def Mapper.fresh (globalTime : Nat) (orientation sliceNumber : Int)
    (passColorData exactPixelMatch sliceFacesCamera background : Bool)
    (points : Option (List Point3)) : Mapper :=
  { globalTime := globalTime
    LoadTime := 0
    RenderWindow := none
    TextureSize := (0, 0)
    TextureBytesPerPixel := 1
    LastOrientation := -1
    LastSliceNumber := VTK_INT_MAX
    Orientation := orientation
    SliceNumber := sliceNumber
    PassColorData := passColorData
    ExactPixelMatch := exactPixelMatch
    SliceFacesCamera := sliceFacesCamera
    Background := background
    Points := points }

/-- What surrounds one call of `RenderTexturedPolygon`: the value of
`this->Superclass::GetMTime()`, of `input->GetMTime()`, the sizes
`(xsize, ysize, bytesPerPixel)` that `MakeTextureData` reports for an extent
(`MakeTextureData` belongs to the base class), and the number of time stamps that
the objects touched by a reload (the texture and its image data, lines 282-303)
draw from the modification counter before `LoadTime.Modified()` draws its own. -/
structure RenderEnv where
  mapperMTime : Nat
  inputMTime : Nat
  makeTextureData : Extent → Int × Int × Int
  reloadStamps : Nat

/-- The calls `RenderTexturedPolygon` makes that matter here. -/
inductive Event where
  | loadTexture (extent : Extent) (reuseTexture : Bool) (xsize ysize bytesPerPixel : Int)
      (interpolate : Bool) : Event
  | renderPolygon (points : Option (List Point3)) (extent : Extent) : Event
  | renderBackground (points : Option (List Point3)) (extent : Extent) : Event
deriving DecidableEq, Repr

/-- An event is a texture reload. -/
def Event.isLoad : Event → Bool
  | Event.loadTexture _ _ _ _ _ _ => true
  | _ => false

/-- Lines 244-260: the modification time of the property, including the lookup
table unless color data is passed through. -/
def propertyMTime (property : Option ImageProperty) (passColorData : Bool) : Nat :=
  match property with
  | none => 0
  | some p =>
    if !passColorData then
      match p.lookupTableMTime with
      | some mtime => if mtime > p.mtime then mtime else p.mtime
      | none => p.mtime
    else p.mtime

/-- Lines 263-264: the condition of the reload branch. -/
def needsReload (env : RenderEnv) (m : Mapper) (property : Option ImageProperty)
    (recursive : Bool) : Bool :=
  let loadTime := m.LoadTime
  let orientationChanged := decide (m.Orientation ≠ m.LastOrientation)
  let sliceChanged := decide (m.SliceNumber ≠ m.LastSliceNumber)
  decide (env.mapperMTime > loadTime) || decide (propertyMTime property m.PassColorData > loadTime) ||
    decide (env.inputMTime > loadTime) || orientationChanged || sliceChanged || recursive

/-- Line 225: `renWin != this->RenderWindow || renWin->GetContextCreationTime() > loadTime`.
When the pointers are equal the right-hand side is evaluated, and it dereferences
`renWin`: the result is `none` for a null `renWin`. -/
def contextChanged (m : Mapper) (renWin : Option RenderWindowInfo) : Option Bool :=
  if renWin.map (fun w => w.id) ≠ m.RenderWindow then some true
  else
    match renWin with
    | none => none
    | some w => some (decide (w.contextCreationTime > m.LoadTime))

/-- Model of `RenderTexturedPolygon` (lines 213-332).  `renWin` is `ren->GetRenderWindow()`.
The result is `none` when the code dereferences a null pointer. -/
def RenderTexturedPolygon (env : RenderEnv) (m : Mapper) (renWin : Option RenderWindowInfo)
    (property : Option ImageProperty) (extent : Extent) (recursive : Bool) :
    Option (Mapper × List Event) :=
  -- lines 216-229
  match contextChanged m renWin with
  | none => none
  | some changed =>
    let m1 := if changed then { m with RenderWindow := renWin.map (fun w => w.id) } else m
    let reuseTexture := !changed
    -- lines 237-264
    let reload := needsReload env m property recursive
    let m2 := { m1 with LastOrientation := m.Orientation, LastSliceNumber := m.SliceNumber }
    -- lines 265-307
    let loaded : Option (Mapper × List Event) :=
      if reload then
        let (xsize, ysize, bytesPerPixel) := env.makeTextureData extent
        let m3 := { m2 with TextureSize := (xsize, ysize), TextureBytesPerPixel := bytesPerPixel }
        match property with
        | none => none
        | some p =>
          let interpolate := !(p.nearestInterpolation && !m.ExactPixelMatch)
          some ({ m3 with globalTime := m3.globalTime + env.reloadStamps + 1,
                          LoadTime := m3.globalTime + env.reloadStamps + 1 },
            [Event.loadTexture extent reuseTexture xsize ysize bytesPerPixel interpolate])
      else some (m2, [])
    match loaded with
    | none => none
    | some (m4, evs) =>
      -- lines 309-315
      let points := if m.ExactPixelMatch && m.SliceFacesCamera then none else m.Points
      let evs := evs ++ [Event.renderPolygon points extent]
      -- lines 317-329
      if m.Background then
        match property with
        | none => none
        | some _ => some (m4, evs ++ [Event.renderBackground points extent])
      else some (m4, evs)

/-- Run the `RenderTexturedPolygon` calls of a call tree one after the other,
each on the mapper state the previous one left. -/
def renderCalls (env : RenderEnv) (renWin : Option RenderWindowInfo)
    (property : Option ImageProperty) :
    Mapper → List (Extent × Bool) → Option (Mapper × List Event)
  | m, [] => some (m, [])
  | m, (extent, recursive) :: rest =>
    match RenderTexturedPolygon env m renWin property extent recursive with
    | none => none
    | some (m1, evs) =>
      match renderCalls env renWin property m1 rest with
      | none => none
      | some (m2, evs2) => some (m2, evs ++ evs2)

/-- Model of `RecursiveRenderTexturedPolygon` with the mapper state threaded through its
calls to `RenderTexturedPolygon`.  Every activation starts with `TextureSizeOK`,
which dereferences the render window (line 602): with a null render window the
very first activation fails. -/
def RecursiveRender (env : RenderEnv) (dims : Nat × Nat) (maxSize : Int) (m : Mapper)
    (renWin : Option RenderWindowInfo) (property : Option ImageProperty)
    (extent : Extent) (recursive : Bool) : Option (Mapper × List Event) :=
  match renWin with
  | none => none
  | some _ =>
    renderCalls env renWin property m
      (RecursiveRenderTexturedPolygon dims maxSize extent recursive).calls

/-- Number of texture reloads among the events. -/
def reloadCount (evs : List Event) : Nat :=
  (evs.filter Event.isLoad).length

/-! ## Polygon geometry builder -/

/-- Read component `n` of a `double[3]` array. -/
def Point3.get (p : Point3) (n : Nat) : ℚ :=
  match n with
  | 0 => p.1
  | 1 => p.2.1
  | _ => p.2.2

/-- The polygon buffer of an actor: `poly->GetPoints()`, the triangles of
`poly->GetPolys()` (three point ids per cell) and the texture coordinates
`poly->GetPointData()->GetTCoords()`. -/
structure PolyData where
  points : List Point3
  tris : List (Int × Int × Int)
  tcoords : List (ℚ × ℚ)
deriving DecidableEq, Repr

/-- Value of `tris->GetNumberOfConnectivityIds()` for a cell array that holds triangles only. -/
def PolyData.numberOfConnectivityIds (poly : PolyData) : Int :=
  3 * (poly.tris.length : Int)

/-- The three `InsertCellPoint` arguments of lines 361-363 for loop index `i`. -/
def triangleCell (numTris i : Int) : Int × Int × Int :=
  (numTris + 1 - Int.tdiv (i + 1) 2, Int.tdiv i 2,
    if Int.tmod i 2 = 0 then numTris - Int.tdiv i 2 else Int.tdiv i 2 + 1)

/-- The loop of lines 358-364: `for (i = 0; i < numTris; i++)`. -/
def buildTris (numTris : Int) : List (Int × Int × Int) :=
  (List.range numTris.toNat).map (fun (i : Nat) => triangleCell numTris (i : Int))

/-- Read `this->TextureSize[n]`.  The array has two elements; `oob` stands for
whatever a read past its end yields. -/
def textureSizeAt (textureSize : Int × Int) (oob : Int) (n : Nat) : Int :=
  match n with
  | 0 => textureSize.1
  | 1 => textureSize.2
  | _ => oob

/-- What `RenderPolygon` reads besides its arguments: the in-plane axes that
`GetDimensionIndices(this->Orientation, ..)` returns, `TextureSize`,
`DataSpacing`, `DataOrigin`, the map `coord ↦ Invert(DataDirection) * coord`
(`vtkMatrix3x3::Invert` followed by `MultiplyPoint`), and the four points and
four texture coordinates that `MakeTextureGeometry` computes for an extent. -/
structure GeometryEnv where
  dims : Nat × Nat
  TextureSize : Int × Int
  oob : Int
  DataSpacing : Point3
  DataOrigin : Point3
  invDirection : Point3 → Point3
  makeTextureGeometry : Extent → List Point3 × List (ℚ × ℚ)

/-- Lines 420-424: the texture coordinate of one polygon point. -/
def polygonTCoord (g : GeometryEnv) (extent : Extent) (point : Point3) : ℚ × ℚ :=
  let xdim := g.dims.1
  let ydim := g.dims.2
  let origin := g.DataOrigin
  let spacing := g.DataSpacing
  let xshift := -((1 / 2 : ℚ) - (extent.get (2 * xdim) : ℚ)) * spacing.get xdim
  let xscale := (textureSizeAt g.TextureSize g.oob xdim : ℚ) * spacing.get xdim
  let yshift := -((1 / 2 : ℚ) - (extent.get (2 * ydim) : ℚ)) * spacing.get ydim
  let yscale := (textureSizeAt g.TextureSize g.oob ydim : ℚ) * spacing.get ydim
  let coord : Point3 := (point.1 - origin.1, point.2.1 - origin.2.1, point.2.2 - origin.2.2)
  let coord := g.invDirection coord
  ((coord.get 0 - xshift) / xscale, (coord.get 1 - yshift) / yscale)

/-- Model of `RenderPolygon` (lines 336-450) on the polygon buffer of the actor.
`textured` is `actor->GetTexture() != nullptr`.  The second component tells
whether `actor->GetMapper()->Render` was reached. -/
def RenderPolygon (g : GeometryEnv) (poly : PolyData) (textured : Bool)
    (points : Option (List Point3)) (extent : Extent) : PolyData × Bool :=
  -- lines 347-366
  let numTris : Int :=
    match points with
    | none => 2
    | some ps => (ps.length : Int) - 2
  let poly1 :=
    if poly.numberOfConnectivityIds ≠ 3 * numTris then { poly with tris := buildTris numTris }
    else poly
  -- lines 368-436
  match points with
  | none =>
    let (coords, tcoords) := g.makeTextureGeometry extent
    ({ poly1 with points := coords, tcoords := if textured then tcoords else poly1.tcoords },
      true)
  | some ps =>
    if ps.length ≠ 0 then
      ({ poly1 with
          points := ps,
          tcoords := if textured then ps.map (polygonTCoord g extent) else poly1.tcoords },
        true)
    else (poly1, false)

/-- Both point ids `u` and `v` are corners of the triangle: for `u ≠ v` the segment
between them is one of its three edges. -/
def hasEdge (t : Int × Int × Int) (u v : Int) : Prop :=
  (u = t.1 ∨ u = t.2.1 ∨ u = t.2.2) ∧ (v = t.1 ∨ v = t.2.1 ∨ v = t.2.2)

instance (t : Int × Int × Int) (u v : Int) : Decidable (hasEdge t u v) := by
  unfold hasEdge; infer_instance

/-! ## Background geometry builder -/

/-- The polygon buffer of an actor over a field `K` of exact numbers standing for
`double`: points, triangles (three point ids per cell), texture coordinates. -/
structure PolyBuffer (K : Type) where
  points : List (K × K × K)
  tris : List (Int × Int × Int)
  tcoords : List (K × K)

/-- Read element `i` of a C array of doubles. -/
def arrayGet {K : Type} [Zero K] (a : List K) (i : Nat) : K :=
  a.getD i 0

/-- Read component `a` of a point. -/
def coordAt {K : Type} (p : K × K × K) (a : Nat) : K :=
  match a with
  | 0 => p.1
  | 1 => p.2.1
  | _ => p.2.2

/-- Value of `borderThickness` (line 464): `1e6`. -/
def borderThickness (K : Type) [Field K] : K := 1000000

/-- Model of `polyPoints->SetNumberOfPoints(n)`: the first `n` points are kept, missing
ones are created (their values are overwritten before they are read). -/
def setNumberOfPoints {K : Type} [Zero K] (n : Nat) (pts : List (K × K × K)) :
    List (K × K × K) :=
  pts.take n ++ List.replicate (n - pts.length) (0, 0, 0)

/-- The cells of lines 483-493: two triangles for each of the four sides. -/
def backgroundQuadTris : List (Int × Int × Int) :=
  [0, 1, 2, 3].flatMap (fun (side : Int) =>
    [(side, side + 5, side + 1), (side + 1, side + 5, side + 6)])

/-- One pass of the loop of lines 495-507 on the arrays `coords[15]` and
`polyPoints`. -/
def backgroundQuadSide {K : Type} [LinearOrderedField K] (xdim ydim : Nat) (center : List K)
    (st : List K × List (K × K × K)) (side : Nat) : List K × List (K × K × K) :=
  let coords := st.1
  let pts := st.2.set side
    (arrayGet coords (3 * side), arrayGet coords (3 * side + 1), arrayGet coords (3 * side + 2))
  let dx := arrayGet coords (3 * side + xdim) - arrayGet center xdim
  let sx : K := if dx ≥ 0 then 1 else -1
  let dy := arrayGet coords (3 * side + ydim) - arrayGet center ydim
  let sy : K := if dy ≥ 0 then 1 else -1
  let coords := coords.set (3 * side + xdim)
    (arrayGet coords (3 * side + xdim) + borderThickness K * sx)
  let coords := coords.set (3 * side + ydim)
    (arrayGet coords (3 * side + ydim) + borderThickness K * sy)
  let pts := pts.set (side + 5)
    (arrayGet coords (3 * side), arrayGet coords (3 * side + 1), arrayGet coords (3 * side + 2))
  (coords, pts)

/-- The cells of lines 525-535: two triangles for each of the `ncoords` edges. -/
def backgroundPolygonTris (ncoords : Nat) : List (Int × Int × Int) :=
  (List.range ncoords).flatMap (fun (i : Nat) =>
    [((i : Int) * 2, (i : Int) * 2 + 1, (i : Int) * 2 + 2),
      ((i : Int) * 2 + 2, (i : Int) * 2 + 1, (i : Int) * 2 + 3)])

/-- Lines 548-556: the factor `t` of the border offset.  Where the selected divisor
is zero the division of the code yields an infinity or a NaN and the division of
the field yields 0: what is stated about `t` is stated for a divisor that is not
zero. -/
def miterT {K : Type} [LinearOrderedField K] (dx0 dy0 dx1 dy1 : K) : K :=
  if |dx0 + dx1| > |dy0 + dy1| then (dy1 - dy0) / (dx0 + dx1)
  else (dx0 - dx1) / (dy0 + dy1)

/-- The variables of the loop of lines 537-566: `coord`, `dx0`, `dy0` and the
points of the actor. -/
structure BorderState (K : Type) where
  coord : K × K × K
  dx0 : K
  dy0 : K
  pts : List (K × K × K)

/-- One pass of the loop of lines 537-566.  `sqrt` stands for the C function of
that name. -/
def borderStep {K : Type} [LinearOrderedField K] (sqrt : K → K) (points : List (K × K × K))
    (st : BorderState K) (i : Nat) : BorderState K :=
  let coord := st.coord
  let pts := st.pts.set (i * 2) coord
  let coord1 := points.getD ((i + 1) % points.length) (0, 0, 0)
  let dx1 := coord1.1 - coord.1
  let dy1 := coord1.2.1 - coord.2.1
  let r := sqrt (dx1 * dx1 + dy1 * dy1)
  let dx1 := dx1 / r
  let dy1 := dy1 / r
  let t := miterT st.dx0 st.dy0 dx1 dy1
  let coord : K × K × K :=
    (coord.1 + (t * st.dx0 + st.dy0) * borderThickness K,
      coord.2.1 + (t * st.dy0 - st.dx0) * borderThickness K, coord.2.2)
  let pts := pts.set (i * 2 + 1) coord
  { coord := (coord1.1, coord1.2.1, coord.2.2), dx0 := dx1, dy0 := dy1, pts := pts }

/-- The loop variables before the first pass (lines 511-523). -/
def borderInit {K : Type} [LinearOrderedField K] (sqrt : K → K) (points : List (K × K × K))
    (polyPoints : List (K × K × K)) : BorderState K :=
  let ncoords := points.length
  let coord1 := points.getD (ncoords - 1) (0, 0, 0)
  let coord := points.getD 0 (0, 0, 0)
  let dx0 := coord.1 - coord1.1
  let dy0 := coord.2.1 - coord1.2.1
  let r := sqrt (dx0 * dx0 + dy0 * dy0)
  { coord := coord, dx0 := dx0 / r, dy0 := dy0 / r,
    pts := setNumberOfPoints (ncoords * 2 + 2) polyPoints }

/-- Model of `RenderBackground` (lines 455-579) on the polygon buffer of the actor.
`coords12` holds the twelve coordinates that `MakeTextureGeometry` computes for the
extent, `(xdim, ydim)` is what `GetDimensionIndices(this->Orientation, ..)` returns,
`sqrt` stands for the C function.  The second component tells whether
`actor->GetMapper()->Render` was reached. -/
def RenderBackground {K : Type} [LinearOrderedField K] (sqrt : K → K) (dims : Nat × Nat)
    (coords12 : List K) (poly : PolyBuffer K) (points : Option (List (K × K × K))) :
    PolyBuffer K × Bool :=
  let xdim := dims.1
  let ydim := dims.2
  match points with
  | none =>
    -- lines 470-478
    let coords := coords12 ++ [arrayGet coords12 0, arrayGet coords12 1, arrayGet coords12 2]
    let center : List K :=
      [(1 / 4 : K) * (arrayGet coords 0 + arrayGet coords 3 + arrayGet coords 6 + arrayGet coords 9),
        (1 / 4 : K) * (arrayGet coords 1 + arrayGet coords 4 + arrayGet coords 7 + arrayGet coords 10),
        (1 / 4 : K) * (arrayGet coords 2 + arrayGet coords 5 + arrayGet coords 8 + arrayGet coords 11)]
    -- lines 480-507
    let st := [0, 1, 2, 3, 4].foldl (backgroundQuadSide xdim ydim center)
      (coords, setNumberOfPoints 10 poly.points)
    ({ poly with points := st.2, tris := backgroundQuadTris }, true)
  | some ps =>
    if ps.length ≠ 0 then
      -- lines 511-566
      let st := (List.range (ps.length + 1)).foldl (borderStep sqrt ps) (borderInit sqrt ps poly.points)
      ({ poly with points := st.pts, tris := backgroundPolygonTris ps.length }, true)
    else (poly, false)

/-- Squared distance of two points. -/
def distSq {K : Type} [Field K] (a b : K × K × K) : K :=
  (a.1 - b.1) ^ 2 + (a.2.1 - b.2.1) ^ 2 + (a.2.2 - b.2.2) ^ 2

/-- The array `coords[12]` that holds four points. -/
def quadCoords {K : Type} (p0 p1 p2 p3 : K × K × K) : List K :=
  [p0.1, p0.2.1, p0.2.2, p1.1, p1.2.1, p1.2.2, p2.1, p2.2.1, p2.2.2, p3.1, p3.2.1, p3.2.2]

/-- The centroid of four points. -/
def quadCenter {K : Type} [Field K] (p0 p1 p2 p3 : K × K × K) : K × K × K :=
  ((1 / 4 : K) * (p0.1 + p1.1 + p2.1 + p3.1), (1 / 4 : K) * (p0.2.1 + p1.2.1 + p2.2.1 + p3.2.1),
    (1 / 4 : K) * (p0.2.2 + p1.2.2 + p2.2.2 + p3.2.2))

/-- A point moved by the border thickness along the axes `xdim` and `ydim`, on each
axis away from `center` (towards larger values when level with it). -/
def quadOffset {K : Type} [LinearOrderedField K] (xdim ydim : Nat) (center p : K × K × K) :
    K × K × K :=
  ((if 0 = xdim ∨ 0 = ydim then
      coordAt p 0 + borderThickness K * (if coordAt p 0 - coordAt center 0 ≥ 0 then 1 else -1)
    else coordAt p 0),
   (if 1 = xdim ∨ 1 = ydim then
      coordAt p 1 + borderThickness K * (if coordAt p 1 - coordAt center 1 ≥ 0 then 1 else -1)
    else coordAt p 1),
   (if 2 = xdim ∨ 2 = ydim then
      coordAt p 2 + borderThickness K * (if coordAt p 2 - coordAt center 2 ≥ 0 then 1 else -1)
    else coordAt p 2))

/-- Input vertex `i mod N` of a polygon of `N` points. -/
def polygonVertex {K : Type} [Zero K] (points : List (K × K × K)) (i : Nat) : K × K × K :=
  points.getD (i % points.length) (0, 0, 0)

/-- The direction of the edge from `a` to `b` in the x-y plane, divided by what
`sqrt` returns for its squared length. -/
def edgeDir {K : Type} [Field K] (sqrt : K → K) (a b : K × K × K) : K × K :=
  ((b.1 - a.1) / sqrt ((b.1 - a.1) * (b.1 - a.1) + (b.2.1 - a.2.1) * (b.2.1 - a.2.1)),
    (b.2.1 - a.2.1) / sqrt ((b.1 - a.1) * (b.1 - a.1) + (b.2.1 - a.2.1) * (b.2.1 - a.2.1)))

/-- The point with the x and y of input vertex `i mod N` and the z of input vertex 0. -/
def ringSource {K : Type} [Zero K] (points : List (K × K × K)) (i : Nat) : K × K × K :=
  ((polygonVertex points i).1, (polygonVertex points i).2.1, (points.getD 0 (0, 0, 0)).2.2)

/-- The point `ringSource points i` moved by the border thickness along the miter
direction of the edge that arrives at vertex `i` and the edge that leaves it. -/
def ringOffset {K : Type} [LinearOrderedField K] (sqrt : K → K) (points : List (K × K × K))
    (i : Nat) : K × K × K :=
  let u0 := edgeDir sqrt (polygonVertex points (if i = 0 then points.length - 1 else i - 1))
    (polygonVertex points i)
  let u1 := edgeDir sqrt (polygonVertex points i) (polygonVertex points (i + 1))
  let t := miterT u0.1 u0.2 u1.1 u1.2
  ((ringSource points i).1 + (t * u0.1 + u0.2) * borderThickness K,
    (ringSource points i).2.1 + (t * u0.2 - u0.1) * borderThickness K,
    (ringSource points i).2.2)

/-- Squared length of the edge from `a` to `b` in the x-y plane. -/
def edgeLenSq {K : Type} [Field K] (a b : K × K × K) : K :=
  (b.1 - a.1) * (b.1 - a.1) + (b.2.1 - a.2.1) * (b.2.1 - a.2.1)

/-- Cross product, in the x-y plane, of the edge from `a` to `b` with the edge from
`b` to `c`: zero when the two edges are collinear. -/
def edgeCross {K : Type} [Field K] (a b c : K × K × K) : K :=
  (b.1 - a.1) * (c.2.1 - b.2.1) - (b.2.1 - a.2.1) * (c.1 - b.1)

/-- The centroid of the vertices of a polygon. -/
def polygonCentroid {K : Type} [Field K] (points : List (K × K × K)) : K × K × K :=
  ((points.map (fun p => p.1)).sum / (points.length : K),
    (points.map (fun p => p.2.1)).sum / (points.length : K),
    (points.map (fun p => p.2.2)).sum / (points.length : K))

end vtkOpenGLImageSliceMapper

/-!
Shallow embedding of vtkPlotSurface

The definitions below follow `Charts/Core/vtkPlotSurface.cxx`.  `float` values are
exact rationals; the table is the function `(row, column) ↦ GetValue(row, column).ToFloat()`,
and the lookup table is the function `MapValue`.
-/

namespace vtkPlotSurface

/-- The fields of `vtkPlotSurface` that `SetInputData` and `GenerateSurface` write:
`Surface` is the float array behind `this->Surface` (three floats per vertex),
`Colors` holds one tuple for each `InsertNextTypedTuple`. -/
structure PlotSurface where
  NumberOfRows : Int
  NumberOfColumns : Int
  NumberOfVertices : Int
  ColorComponents : Int
  XMinimum : ℚ
  XMaximum : ℚ
  YMinimum : ℚ
  YMaximum : ℚ
  Surface : List ℚ
  Colors : List (Nat × Nat × Nat)

/-- Model of `ColumnToX` (lines 278-282). -/
def ColumnToX (s : PlotSurface) (columnIndex : Int) : ℚ :=
  let newRange := s.XMaximum - s.XMinimum
  (columnIndex : ℚ) * (newRange / (s.NumberOfColumns : ℚ)) + s.XMinimum

/-- Model of `RowToY` (lines 285-289). -/
def RowToY (s : PlotSurface) (rowIndex : Int) : ℚ :=
  let newRange := s.YMaximum - s.YMinimum
  (rowIndex : ℚ) * (newRange / (s.NumberOfRows : ℚ)) + s.YMinimum

/-- The local state of `GenerateSurface`: the array `data`, the index `pos`, and
the colors inserted so far. -/
structure SurfaceState where
  data : List ℚ
  pos : Nat
  colors : List (Nat × Nat × Nat)

/-- Model of `InsertSurfaceVertex` (lines 220-231). -/
def InsertSurfaceVertex (s : PlotSurface) (mapValue : ℚ → Nat × Nat × Nat)
    (st : SurfaceState) (value : ℚ) (i j : Int) : SurfaceState :=
  let data := st.data.set st.pos (ColumnToX s j)
  let pos := st.pos + 1
  let data := data.set pos (RowToY s i)
  let pos := pos + 1
  let data := data.set pos value
  let pos := pos + 1
  let rgb := mapValue (data.getD (pos - 1) 0)
  { data := data, pos := pos, colors := st.colors ++ [rgb] }

/-- The body of the inner loop of `GenerateSurface` (lines 198-215): the six
vertices of the grid cell `(i, j)`. -/
def surfaceCell (s : PlotSurface) (table : Int → Int → ℚ) (mapValue : ℚ → Nat × Nat × Nat)
    (i : Int) (st : SurfaceState) (j : Nat) : SurfaceState :=
  let value1 := table i j
  let value2 := table i (j + 1)
  let value3 := table (i + 1) (j + 1)
  let value4 := table (i + 1) j
  -- bottom right triangle
  let st := InsertSurfaceVertex s mapValue st value1 i j
  let st := InsertSurfaceVertex s mapValue st value2 i (j + 1)
  let st := InsertSurfaceVertex s mapValue st value3 (i + 1) (j + 1)
  -- upper left triangle
  let st := InsertSurfaceVertex s mapValue st value1 i j
  let st := InsertSurfaceVertex s mapValue st value3 (i + 1) (j + 1)
  InsertSurfaceVertex s mapValue st value4 (i + 1) j

/-- Model of `Surface->SetNumberOfPoints(n)` on the float array: `3 * n` floats, the
old ones kept as far as they go. -/
def resizeFloats (n : Nat) (data : List ℚ) : List ℚ :=
  data.take n ++ List.replicate (n - data.length) 0

/-- Model of `GenerateSurface` (lines 186-217).  `table i j` is
`InputTable->GetValue(i, j).ToFloat()`, `mapValue` is `LookupTable->MapValue`; the
`int` counters `i`, `j` and `pos` are natural numbers (no overflow), `float` is `ℚ`. -/
def GenerateSurface (s : PlotSurface) (table : Int → Int → ℚ)
    (mapValue : ℚ → Nat × Nat × Nat) : PlotSurface :=
  let data := resizeFloats (3 * s.NumberOfVertices.toNat) s.Surface
  let st := (List.range (s.NumberOfRows - 1).toNat).foldl
    (fun (st : SurfaceState) (i : Nat) =>
      (List.range (s.NumberOfColumns - 1).toNat).foldl
        (surfaceCell s table mapValue (i : Int)) st)
    { data := data, pos := 0, colors := [] }
  { s with Surface := st.data, Colors := st.colors }

/-- Model of `SetInputData` (lines 91-157), as far as the surface is concerned: the
grid points of `this->Points`, the data bounds and the range of the lookup table
are left out.  `rows` and `columns` are `input->GetNumberOfRows()` and
`input->GetNumberOfColumns()`. -/
def SetInputData (s : PlotSurface) (rows columns : Int) (table : Int → Int → ℚ)
    (mapValue : ℚ → Nat × Nat × Nat) : PlotSurface :=
  let s := { s with
    NumberOfRows := rows
    NumberOfColumns := columns
    NumberOfVertices := (rows - 1) * (columns - 1) * 6 }
  let s := if s.XMinimum = 0 ∧ s.XMaximum = 0 then
    { s with XMaximum := (s.NumberOfColumns : ℚ) - 1 } else s
  let s := if s.YMinimum = 0 ∧ s.YMaximum = 0 then
    { s with YMaximum := (s.NumberOfRows : ℚ) - 1 } else s
  let s := { s with ColorComponents := 3 }
  GenerateSurface s table mapValue

/-- The position and value the specification gives for the vertex at grid position
`(row, column)`: `(ColumnToX(column), RowToY(row), table value)`. -/
def expectedVertex (s : PlotSurface) (table : Int → Int → ℚ) (row column : Int) : List ℚ :=
  [ColumnToX s column, RowToY s row, table row column]

/-- The grid positions of the six vertices the specification gives for cell `(i, j)`. -/
def expectedCorners (i j : Int) : List (Int × Int) :=
  [(i, j), (i, j + 1), (i + 1, j + 1), (i, j), (i + 1, j + 1), (i + 1, j)]

/-- The eighteen floats the specification gives for cell `(i, j)`: its six vertices. -/
def expectedCellFloats (s : PlotSurface) (table : Int → Int → ℚ) (i j : Int) : List ℚ :=
  (expectedCorners i j).flatMap (fun rc => expectedVertex s table rc.1 rc.2)

/-- The six colors the specification gives for cell `(i, j)`: one for each vertex. -/
def expectedCellColors (table : Int → Int → ℚ) (mapValue : ℚ → Nat × Nat × Nat)
    (i j : Int) : List (Nat × Nat × Nat) :=
  (expectedCorners i j).map (fun rc => mapValue (table rc.1 rc.2))

/-- The float array the specification gives: the cells of a grid of `cellRows` by
`cellColumns` cells in row-major order. -/
def expectedSurface (s : PlotSurface) (table : Int → Int → ℚ) (cellRows cellColumns : Nat) :
    List ℚ :=
  (List.range cellRows).flatMap (fun (i : Nat) =>
    (List.range cellColumns).flatMap (fun (j : Nat) =>
      expectedCellFloats s table (i : Int) (j : Int)))

/-- The colors the specification gives, in the same order. -/
def expectedColors (table : Int → Int → ℚ) (mapValue : ℚ → Nat × Nat × Nat)
    (cellRows cellColumns : Nat) : List (Nat × Nat × Nat) :=
  (List.range cellRows).flatMap (fun (i : Nat) =>
    (List.range cellColumns).flatMap (fun (j : Nat) =>
      expectedCellColors table mapValue (i : Int) (j : Int)))

end vtkPlotSurface

namespace vtkOpenGLImageSliceMapper

/-! ## Array accesses -/

theorem Extent.get_set (e : Extent) (n m : Nat) (x : Int) (hn : n < 6) :
    (e.set n x).get m = if m = n then x else e.get m := by
  interval_cases n <;> rcases m with _|_|_|_|_|_|m <;> simp [Extent.get, Extent.set]

theorem firstSubExtent_get (e : Extent) (idx m : Nat) (t : Int) (h : idx < 3) :
    (firstSubExtent e idx t).get m =
      if m = idx * 2 + 1 then e.get (idx * 2) + t - 1 else e.get m := by
  unfold firstSubExtent
  simp only [Extent.get_set _ _ _ _ (show idx * 2 + 1 < 6 by omega),
    Extent.get_set _ _ _ _ (show idx * 2 < 6 by omega)]
  split_ifs <;> simp_all

theorem secondSubExtent_get (e : Extent) (idx m : Nat) (t : Int) (h : idx < 3) :
    (secondSubExtent e idx t).get m =
      if m = idx * 2 then e.get (idx * 2) + t else e.get m := by
  unfold secondSubExtent
  simp only [Extent.get_set _ _ _ _ (show idx * 2 + 1 < 6 by omega),
    Extent.get_set _ _ _ _ (show idx * 2 < 6 by omega), firstSubExtent_get _ _ _ _ h]
  split_ifs <;> first | rfl | omega | simp_all

theorem firstSubExtent_size (e : Extent) (idx a : Nat) (t : Int) (h : idx < 3) :
    (firstSubExtent e idx t).size a = if a = idx then t else e.size a := by
  unfold Extent.size
  rw [firstSubExtent_get _ _ _ _ h, firstSubExtent_get _ _ _ _ h]
  split_ifs <;> first | omega | (subst_vars; omega)

theorem secondSubExtent_size (e : Extent) (idx a : Nat) (t : Int) (h : idx < 3) :
    (secondSubExtent e idx t).size a = if a = idx then e.size idx - t else e.size a := by
  unfold Extent.size
  rw [secondSubExtent_get _ _ _ _ h, secondSubExtent_get _ _ _ _ h]
  split_ifs <;> first | omega | (subst_vars; omega)

/-- The two halves of a split cover the extent and do not overlap, as soon as the
cut lies inside the extent. -/
theorem split_contains (e : Extent) (idx : Nat) (t : Int) (h : idx < 3)
    (h0 : 0 ≤ t) (h1 : t ≤ e.size idx) (i j k : Int) :
    e.Contains i j k ↔
      ((firstSubExtent e idx t).Contains i j k ∨ (secondSubExtent e idx t).Contains i j k) := by
  unfold Extent.size at h1
  interval_cases idx <;>
    simp only [firstSubExtent, secondSubExtent, Extent.set, Extent.get, Extent.Contains] at h1 ⊢ <;>
    omega

theorem split_disjoint (e : Extent) (idx : Nat) (t : Int) (h : idx < 3) :
    (firstSubExtent e idx t).Disjoint (secondSubExtent e idx t) := by
  intro i j k
  interval_cases idx <;>
    simp only [firstSubExtent, secondSubExtent, Extent.set, Extent.get, Extent.Contains] <;>
    omega

/-! ## The partitioner: one step -/

theorem ComputeTextureSize_textureSize (dims : Nat × Nat) (e : Extent) :
    (ComputeTextureSize dims e).textureSize = (e.size dims.1, e.size dims.2) := rfl

theorem ComputeTextureSize_dims (dims : Nat × Nat) (e : Extent) :
    (ComputeTextureSize dims e).xdim = dims.1 ∧ (ComputeTextureSize dims e).ydim = dims.2 :=
  ⟨rfl, rfl⟩

/-- The axis chosen for a split is the longer one, it is longer than 256, and the
truncating division is the floor of half its size. -/
theorem split_axis (dims : Nat × Nat) (e : Extent)
    (h : 256 < e.size dims.1 ∨ 256 < e.size dims.2) :
    256 < e.size (splitIdx (ComputeTextureSize dims e)) ∧
    splitTsize (ComputeTextureSize dims e) = e.size (splitIdx (ComputeTextureSize dims e)) / 2 ∧
    ((splitIdx (ComputeTextureSize dims e) = dims.1 ∧ e.size dims.2 < e.size dims.1) ∨
      (splitIdx (ComputeTextureSize dims e) = dims.2 ∧ e.size dims.1 ≤ e.size dims.2)) := by
  unfold splitIdx splitTsize
  rw [ComputeTextureSize_textureSize]
  simp only [(ComputeTextureSize_dims dims e).1, (ComputeTextureSize_dims dims e).2]
  by_cases hc : e.size dims.1 > e.size dims.2
  · rw [if_pos hc, if_pos hc]
    exact ⟨by omega, Int.tdiv_eq_ediv (by omega) (by decide), Or.inl ⟨rfl, hc⟩⟩
  · rw [if_neg hc, if_neg hc]
    exact ⟨by omega, Int.tdiv_eq_ediv (by omega) (by decide), Or.inr ⟨rfl, by omega⟩⟩

/-- Both halves of a split need strictly less fuel than the extent split. -/
theorem renderFuel_split (dims : Nat × Nat) (e : Extent)
    (hx : dims.1 < 3) (hy : dims.2 < 3) (hxy : dims.1 ≠ dims.2)
    (h : 256 < e.size dims.1 ∨ 256 < e.size dims.2) :
    renderFuel dims (firstSubExtent e (splitIdx (ComputeTextureSize dims e))
        (splitTsize (ComputeTextureSize dims e))) < renderFuel dims e ∧
    renderFuel dims (secondSubExtent e (splitIdx (ComputeTextureSize dims e))
        (splitTsize (ComputeTextureSize dims e))) < renderFuel dims e := by
  obtain ⟨hbig, ht, hidx⟩ := split_axis dims e h
  unfold renderFuel
  rcases hidx with ⟨hi, _⟩ | ⟨hi, _⟩
  · have h3 : splitIdx (ComputeTextureSize dims e) < 3 := hi ▸ hx
    rw [firstSubExtent_size _ _ _ _ h3, firstSubExtent_size _ _ _ _ h3,
      secondSubExtent_size _ _ _ _ h3, secondSubExtent_size _ _ _ _ h3, ht]
    rw [hi] at hbig ⊢
    simp only [if_true, if_neg (Ne.symm hxy)]
    omega
  · have h3 : splitIdx (ComputeTextureSize dims e) < 3 := hi ▸ hy
    rw [firstSubExtent_size _ _ _ _ h3, firstSubExtent_size _ _ _ _ h3,
      secondSubExtent_size _ _ _ _ h3, secondSubExtent_size _ _ _ _ h3, ht]
    rw [hi] at hbig ⊢
    simp only [if_true, if_neg hxy]
    omega

/-! ## The partitioner: fuel -/

/-- More fuel never changes a result. -/
theorem recursiveRenderFuel_succ (dims : Nat × Nat) (maxSize : Int) :
    ∀ (n : Nat) (e : Extent) (r : Bool) (t : CallTree),
      recursiveRenderFuel dims maxSize n e r = some t →
      recursiveRenderFuel dims maxSize (n + 1) e r = some t := by
  intro n
  induction n with
  | zero => intro e r t h; simp [recursiveRenderFuel] at h
  | succ n ih =>
    intro e r t h
    rw [recursiveRenderFuel] at h ⊢
    by_cases hfit : TextureSizeOK (ComputeTextureSize dims e).textureSize maxSize = true
    · simpa [hfit] using h
    · by_cases hbig : (ComputeTextureSize dims e).textureSize.1 > 256 ∨
          (ComputeTextureSize dims e).textureSize.2 > 256
      · simp only [hfit, hbig, if_true] at h ⊢
        cases h1 : recursiveRenderFuel dims maxSize n
            (firstSubExtent e (splitIdx (ComputeTextureSize dims e))
              (splitTsize (ComputeTextureSize dims e))) true with
        | none => simp [h1] at h
        | some a =>
          cases h2 : recursiveRenderFuel dims maxSize n
              (secondSubExtent e (splitIdx (ComputeTextureSize dims e))
                (splitTsize (ComputeTextureSize dims e))) true with
          | none => simp [h1, h2] at h
          | some b =>
            simp only [h1, h2] at h
            simp only [ih _ _ _ h1, ih _ _ _ h2]
            exact h
      · simpa [hfit, hbig] using h

theorem recursiveRenderFuel_mono (dims : Nat × Nat) (maxSize : Int) (n m : Nat)
    (e : Extent) (r : Bool) (t : CallTree) (hnm : n ≤ m)
    (h : recursiveRenderFuel dims maxSize n e r = some t) :
    recursiveRenderFuel dims maxSize m e r = some t := by
  induction hnm with
  | refl => exact h
  | step _ ih => exact recursiveRenderFuel_succ dims maxSize _ e r t ih

/-- With `renderFuel` or more, the procedure returns. -/
theorem recursiveRenderFuel_total (dims : Nat × Nat) (maxSize : Int)
    (hx : dims.1 < 3) (hy : dims.2 < 3) (hxy : dims.1 ≠ dims.2) :
    ∀ (n : Nat) (e : Extent) (r : Bool), renderFuel dims e ≤ n →
      ∃ t, recursiveRenderFuel dims maxSize n e r = some t := by
  intro n
  induction n with
  | zero => intro e r h; unfold renderFuel at h; omega
  | succ n ih =>
    intro e r h
    rw [recursiveRenderFuel]
    by_cases hfit : TextureSizeOK (ComputeTextureSize dims e).textureSize maxSize = true
    · exact ⟨CallTree.render e r, by simp [hfit]⟩
    · by_cases hbig : (ComputeTextureSize dims e).textureSize.1 > 256 ∨
          (ComputeTextureSize dims e).textureSize.2 > 256
      · have hlt := renderFuel_split dims e hx hy hxy hbig
        obtain ⟨a, ha⟩ := ih (firstSubExtent e (splitIdx (ComputeTextureSize dims e))
          (splitTsize (ComputeTextureSize dims e))) true (by omega)
        obtain ⟨b, hb⟩ := ih (secondSubExtent e (splitIdx (ComputeTextureSize dims e))
          (splitTsize (ComputeTextureSize dims e))) true (by omega)
        exact ⟨CallTree.split a b, by simp [hfit, hbig, ha, hb]⟩
      · exact ⟨CallTree.nothing e, by simp [hfit, hbig]⟩

theorem recursiveRenderFuel_eq (dims : Nat × Nat) (maxSize : Int)
    (hx : dims.1 < 3) (hy : dims.2 < 3) (hxy : dims.1 ≠ dims.2)
    (n : Nat) (e : Extent) (r : Bool) (h : renderFuel dims e ≤ n) :
    recursiveRenderFuel dims maxSize n e r =
      some (RecursiveRenderTexturedPolygon dims maxSize e r) := by
  obtain ⟨t, ht⟩ := recursiveRenderFuel_total dims maxSize hx hy hxy _ e r (le_refl _)
  have : RecursiveRenderTexturedPolygon dims maxSize e r = t := by
    unfold RecursiveRenderTexturedPolygon; rw [ht]; rfl
  rw [this]
  exact recursiveRenderFuel_mono dims maxSize _ n e r t h ht

/-- The recursion equation of `RecursiveRenderTexturedPolygon`, as in the source. -/
theorem RecursiveRenderTexturedPolygon_eq (dims : Nat × Nat) (maxSize : Int)
    (hx : dims.1 < 3) (hy : dims.2 < 3) (hxy : dims.1 ≠ dims.2) (e : Extent) (r : Bool) :
    RecursiveRenderTexturedPolygon dims maxSize e r =
      if TextureSizeOK (ComputeTextureSize dims e).textureSize maxSize then
        CallTree.render e r
      else if (ComputeTextureSize dims e).textureSize.1 > 256 ∨
          (ComputeTextureSize dims e).textureSize.2 > 256 then
        CallTree.split
          (RecursiveRenderTexturedPolygon dims maxSize
            (firstSubExtent e (splitIdx (ComputeTextureSize dims e))
              (splitTsize (ComputeTextureSize dims e))) true)
          (RecursiveRenderTexturedPolygon dims maxSize
            (secondSubExtent e (splitIdx (ComputeTextureSize dims e))
              (splitTsize (ComputeTextureSize dims e))) true)
      else CallTree.nothing e := by
  have h := recursiveRenderFuel_eq dims maxSize hx hy hxy _ e r (le_refl _)
  have hfuel : renderFuel dims e = (renderFuel dims e - 1) + 1 := by unfold renderFuel; omega
  rw [hfuel, recursiveRenderFuel] at h
  by_cases hfit : TextureSizeOK (ComputeTextureSize dims e).textureSize maxSize = true
  · simp only [hfit, if_true] at h ⊢
    exact (Option.some.inj h).symm
  · by_cases hbig : (ComputeTextureSize dims e).textureSize.1 > 256 ∨
        (ComputeTextureSize dims e).textureSize.2 > 256
    · have hlt := renderFuel_split dims e hx hy hxy hbig
      simp only [hfit, hbig, if_true] at h ⊢
      rw [recursiveRenderFuel_eq dims maxSize hx hy hxy _ _ true (by omega),
        recursiveRenderFuel_eq dims maxSize hx hy hxy _ _ true (by omega)] at h
      exact (Option.some.inj h).symm
    · simp only [hfit, hbig, if_false] at h ⊢
      exact (Option.some.inj h).symm

/-- Induction along the calls of `RecursiveRenderTexturedPolygon`: a property that
holds for a rendered extent, for a dropped extent, and for a split whenever it
holds for the two halves, holds for every call. -/
theorem RecursiveRenderTexturedPolygon_induction (dims : Nat × Nat) (maxSize : Int)
    (hx : dims.1 < 3) (hy : dims.2 < 3) (hxy : dims.1 ≠ dims.2)
    (P : Extent → Bool → CallTree → Prop)
    (hrender : ∀ e r, e.size dims.1 ≤ maxSize → e.size dims.2 ≤ maxSize →
      P e r (CallTree.render e r))
    (hnothing : ∀ e r, (maxSize < e.size dims.1 ∨ maxSize < e.size dims.2) →
      e.size dims.1 ≤ 256 → e.size dims.2 ≤ 256 → P e r (CallTree.nothing e))
    (hsplit : ∀ e r t1 t2, (maxSize < e.size dims.1 ∨ maxSize < e.size dims.2) →
      (256 < e.size dims.1 ∨ 256 < e.size dims.2) →
      P (firstSubExtent e (splitIdx (ComputeTextureSize dims e))
          (splitTsize (ComputeTextureSize dims e))) true t1 →
      P (secondSubExtent e (splitIdx (ComputeTextureSize dims e))
          (splitTsize (ComputeTextureSize dims e))) true t2 →
      P e r (CallTree.split t1 t2))
    (e : Extent) (r : Bool) : P e r (RecursiveRenderTexturedPolygon dims maxSize e r) := by
  generalize hn : renderFuel dims e = n
  induction n using Nat.strong_induction_on generalizing e r with
  | _ n ih =>
    rw [RecursiveRenderTexturedPolygon_eq dims maxSize hx hy hxy]
    by_cases hfit : TextureSizeOK (ComputeTextureSize dims e).textureSize maxSize = true
    · rw [if_pos hfit]
      simp only [TextureSizeOK, ComputeTextureSize_textureSize, Bool.and_eq_true,
        decide_eq_true_eq] at hfit
      exact hrender e r hfit.1 hfit.2
    · rw [if_neg hfit]
      simp only [TextureSizeOK, ComputeTextureSize_textureSize, Bool.and_eq_true,
        decide_eq_true_eq, not_and_or, not_le] at hfit
      by_cases hbig : (ComputeTextureSize dims e).textureSize.1 > 256 ∨
          (ComputeTextureSize dims e).textureSize.2 > 256
      · rw [if_pos hbig]
        have hlt := renderFuel_split dims e hx hy hxy hbig
        exact hsplit e r _ _ hfit hbig
          (ih _ (by omega) _ true rfl) (ih _ (by omega) _ true rfl)
      · rw [if_neg hbig]
        simp only [ComputeTextureSize_textureSize, not_or, not_lt, gt_iff_lt] at hbig
        exact hnothing e r hfit hbig.1 hbig.2

/-! ## The partitioner: leaves, dropped extents, coverage -/

theorem CallTree.leaves_split (a b : CallTree) :
    (CallTree.split a b).leaves = a.leaves ++ b.leaves := by
  simp [CallTree.leaves, CallTree.calls]

theorem Extent.Disjoint.symm {a b : Extent} (h : a.Disjoint b) : b.Disjoint a :=
  fun i j k hab => h i j k ⟨hab.2, hab.1⟩

theorem partitionOf_split (dims : Nat × Nat) (maxSize : Int) (e e1 e2 : Extent)
    (t1 t2 : CallTree) (hdis : e1.Disjoint e2)
    (hcov : ∀ i j k, e.Contains i j k ↔ (e1.Contains i j k ∨ e2.Contains i j k))
    (h1 : PartitionOf dims maxSize e1 t1) (h2 : PartitionOf dims maxSize e2 t2) :
    PartitionOf dims maxSize e (CallTree.split t1 t2) := by
  obtain ⟨hl1, hd1, hp1, hc1⟩ := h1
  obtain ⟨hl2, hd2, hp2, hc2⟩ := h2
  have hcross : ∀ a ∈ t1.leaves ++ t1.dropped, ∀ b ∈ t2.leaves ++ t2.dropped,
      a.Disjoint b := by
    intro a ha b hb i j k hab
    exact hdis i j k ⟨(hc1 i j k).2 ⟨a, ha, hab.1⟩, (hc2 i j k).2 ⟨b, hb, hab.2⟩⟩
  rw [List.pairwise_append] at hp1 hp2
  refine ⟨?_, ?_, ?_, ?_⟩
  · intro l hl
    rw [CallTree.leaves_split, List.mem_append] at hl
    exact hl.elim (hl1 l) (hl2 l)
  · intro d hd
    simp only [CallTree.dropped, List.mem_append] at hd
    exact hd.elim (hd1 d) (hd2 d)
  · simp only [CallTree.leaves_split, CallTree.dropped, List.pairwise_append, List.mem_append]
    refine ⟨⟨hp1.1, hp2.1, ?_⟩, ⟨hp1.2.1, hp2.2.1, ?_⟩, ?_⟩
    · intro a ha b hb
      exact hcross a (List.mem_append.2 (Or.inl ha)) b (List.mem_append.2 (Or.inl hb))
    · intro a ha b hb
      exact hcross a (List.mem_append.2 (Or.inr ha)) b (List.mem_append.2 (Or.inr hb))
    · intro a ha b hb
      rcases ha with ha | ha <;> rcases hb with hb | hb
      · exact hp1.2.2 a ha b hb
      · exact hcross a (List.mem_append.2 (Or.inl ha)) b (List.mem_append.2 (Or.inr hb))
      · exact (hcross b (List.mem_append.2 (Or.inr hb)) a
          (List.mem_append.2 (Or.inl ha))).symm
      · exact hp2.2.2 a ha b hb
  · intro i j k
    rw [hcov, hc1, hc2]
    simp only [CallTree.leaves_split, CallTree.dropped, List.mem_append]
    constructor
    · rintro (⟨l, hl | hl, h⟩ | ⟨l, hl | hl, h⟩)
      · exact ⟨l, Or.inl (Or.inl hl), h⟩
      · exact ⟨l, Or.inr (Or.inl hl), h⟩
      · exact ⟨l, Or.inl (Or.inr hl), h⟩
      · exact ⟨l, Or.inr (Or.inr hl), h⟩
    · rintro ⟨l, (hl | hl) | (hl | hl), h⟩
      · exact Or.inl ⟨l, Or.inl hl, h⟩
      · exact Or.inr ⟨l, Or.inl hl, h⟩
      · exact Or.inl ⟨l, Or.inr hl, h⟩
      · exact Or.inr ⟨l, Or.inr hl, h⟩

theorem partitionOf_render (dims : Nat × Nat) (maxSize : Int)
    (hx : dims.1 < 3) (hy : dims.2 < 3) (hxy : dims.1 ≠ dims.2) (e : Extent) (r : Bool) :
    PartitionOf dims maxSize e (RecursiveRenderTexturedPolygon dims maxSize e r) := by
  refine RecursiveRenderTexturedPolygon_induction dims maxSize hx hy hxy
    (fun e _ t => PartitionOf dims maxSize e t) ?_ ?_ ?_ e r
  · intro e r h1 h2
    refine ⟨?_, ?_, ?_, ?_⟩ <;> simp [CallTree.leaves, CallTree.calls, CallTree.dropped, h1, h2]
  · intro e r h h1 h2
    refine ⟨?_, ?_, ?_, ?_⟩ <;> simp [CallTree.leaves, CallTree.calls, CallTree.dropped, h1, h2, h]
  · intro e r t1 t2 _ hbig ih1 ih2
    obtain ⟨hgt, ht, hidx⟩ := split_axis dims e hbig
    have h3 : splitIdx (ComputeTextureSize dims e) < 3 := by
      rcases hidx with ⟨hi, _⟩ | ⟨hi, _⟩ <;> rw [hi] <;> assumption
    exact partitionOf_split dims maxSize e _ _ t1 t2 (split_disjoint e _ _ h3)
      (split_contains e _ _ h3 (by rw [ht]; omega) (by rw [ht]; omega)) ih1 ih2

/-! ## Claims about the partitioner -/

/-- C1 (as stated, refuted): with a device maximum of 100, orientation 2 and the
200 x 200 extent `[0,199,0,199,0,0]`, which is non-empty on both in-plane axes,
`RecursiveRenderTexturedPolygon` passes no extent at all to
`RenderTexturedPolygon`, so the leaves do not cover the data index `(0,0,0)` of the
original extent. -/
theorem C1_leaves_do_not_cover :
    DimensionIndices 2 0 1 ∧
    0 < (Extent.mk 0 199 0 199 0 0).size 0 ∧ 0 < (Extent.mk 0 199 0 199 0 0).size 1 ∧
    (RecursiveRenderTexturedPolygon (0, 1) 100 (Extent.mk 0 199 0 199 0 0) false).leaves = [] ∧
    ¬ (∀ i j k : Int, (Extent.mk 0 199 0 199 0 0).Contains i j k ↔
        ∃ l ∈ (RecursiveRenderTexturedPolygon (0, 1) 100
          (Extent.mk 0 199 0 199 0 0) false).leaves, l.Contains i j k) := by
  have hl : (RecursiveRenderTexturedPolygon (0, 1) 100
      (Extent.mk 0 199 0 199 0 0) false).leaves = [] := by decide
  refine ⟨by decide, by decide, by decide, hl, ?_⟩
  intro h
  obtain ⟨l, hmem, _⟩ := (h 0 0 0).1 (by decide)
  rw [hl] at hmem
  exact List.not_mem_nil l hmem

/-- C1 (amended): for every orientation in {0,1,2}, every extent and every device
maximum, each extent passed to `RenderTexturedPolygon` has in-plane width and
height at most the device maximum; each extent that neither fits nor is split
(it is not rendered) has both sizes at most 256 and one above the device maximum;
the rendered and the dropped extents together are pairwise disjoint and their
union is the original extent. -/
theorem C1_rendered_and_dropped_partition (orientation : Int) (xdim ydim : Nat)
    (maxSize : Int) (extent : Extent) (recursive : Bool)
    (hdims : DimensionIndices orientation xdim ydim) :
    (∀ l ∈ (RecursiveRenderTexturedPolygon (xdim, ydim) maxSize extent recursive).leaves,
      l.size xdim ≤ maxSize ∧ l.size ydim ≤ maxSize) ∧
    (∀ d ∈ (RecursiveRenderTexturedPolygon (xdim, ydim) maxSize extent recursive).dropped,
      d.size xdim ≤ 256 ∧ d.size ydim ≤ 256 ∧
        (maxSize < d.size xdim ∨ maxSize < d.size ydim)) ∧
    ((RecursiveRenderTexturedPolygon (xdim, ydim) maxSize extent recursive).leaves ++
      (RecursiveRenderTexturedPolygon (xdim, ydim) maxSize extent recursive).dropped).Pairwise
        Extent.Disjoint ∧
    (∀ i j k : Int, extent.Contains i j k ↔
      ∃ l ∈ (RecursiveRenderTexturedPolygon (xdim, ydim) maxSize extent recursive).leaves ++
        (RecursiveRenderTexturedPolygon (xdim, ydim) maxSize extent recursive).dropped,
        l.Contains i j k) :=
  partitionOf_render (xdim, ydim) maxSize hdims.2.1 hdims.2.2.1 hdims.2.2.2.1 extent recursive

/-- Witness of C1 (amended): a 300 x 100 slice through axis 2 with device maximum 256. -/
theorem C1_rendered_and_dropped_partition_witness :
    DimensionIndices 2 0 1 ∧
    (∀ l ∈ (RecursiveRenderTexturedPolygon (0, 1) 256 (Extent.mk 0 299 0 99 5 5) false).leaves,
      l.size 0 ≤ 256 ∧ l.size 1 ≤ 256) ∧
    (∀ i j k : Int, (Extent.mk 0 299 0 99 5 5).Contains i j k ↔
      ∃ l ∈ (RecursiveRenderTexturedPolygon (0, 1) 256 (Extent.mk 0 299 0 99 5 5) false).leaves ++
        (RecursiveRenderTexturedPolygon (0, 1) 256 (Extent.mk 0 299 0 99 5 5) false).dropped,
        l.Contains i j k) :=
  ⟨by decide,
    (C1_rendered_and_dropped_partition 2 0 1 256 (Extent.mk 0 299 0 99 5 5) false
      (by decide)).1,
    (C1_rendered_and_dropped_partition 2 0 1 256 (Extent.mk 0 299 0 99 5 5) false
      (by decide)).2.2.2⟩

/-- C2 (as stated, refuted): the 200 x 200 extent `[0,199,0,199,0,0]` does not fit
a device maximum of 100 and has both in-plane sizes at most 256, yet
`RecursiveRenderTexturedPolygon` makes no call to `RenderTexturedPolygon`, instead
of exactly one call with the extent unchanged. -/
theorem C2_not_rendered_anyway :
    TextureSizeOK (ComputeTextureSize (0, 1) (Extent.mk 0 199 0 199 0 0)).textureSize 100
      = false ∧
    (Extent.mk 0 199 0 199 0 0).size 0 ≤ 256 ∧ (Extent.mk 0 199 0 199 0 0).size 1 ≤ 256 ∧
    (RecursiveRenderTexturedPolygon (0, 1) 100 (Extent.mk 0 199 0 199 0 0) false).calls = [] ∧
    (RecursiveRenderTexturedPolygon (0, 1) 100 (Extent.mk 0 199 0 199 0 0) false).calls ≠
      [(Extent.mk 0 199 0 199 0 0, false)] := by
  decide

/-- C2 (amended): for every extent whose texture size does not fit the device
maximum and whose two in-plane sizes are both at most 256,
`RecursiveRenderTexturedPolygon` returns without calling `RenderTexturedPolygon`
and without recursing: the extent is skipped, and nothing fails. -/
theorem C2_small_unfit_extent_is_skipped (dims : Nat × Nat) (maxSize : Int)
    (extent : Extent) (recursive : Bool)
    (hfit : TextureSizeOK (ComputeTextureSize dims extent).textureSize maxSize = false)
    (hw : extent.size dims.1 ≤ 256) (hh : extent.size dims.2 ≤ 256) :
    RecursiveRenderTexturedPolygon dims maxSize extent recursive = CallTree.nothing extent ∧
    (RecursiveRenderTexturedPolygon dims maxSize extent recursive).calls = [] := by
  have hbig : ¬ ((ComputeTextureSize dims extent).textureSize.1 > 256 ∨
      (ComputeTextureSize dims extent).textureSize.2 > 256) := by
    rw [ComputeTextureSize_textureSize]; simp only [gt_iff_lt]; omega
  have h : RecursiveRenderTexturedPolygon dims maxSize extent recursive =
      CallTree.nothing extent := by
    unfold RecursiveRenderTexturedPolygon renderFuel
    rw [recursiveRenderFuel]
    simp only [hfit, hbig, if_false, Bool.false_eq_true]
    rfl
  rw [h]
  exact ⟨rfl, rfl⟩

/-- Witness of C2 (amended): a 200 x 200 extent with device maximum 100. -/
theorem C2_small_unfit_extent_is_skipped_witness :
    RecursiveRenderTexturedPolygon (0, 1) 100 (Extent.mk 0 199 0 199 0 0) false =
      CallTree.nothing (Extent.mk 0 199 0 199 0 0) ∧
    (RecursiveRenderTexturedPolygon (0, 1) 100 (Extent.mk 0 199 0 199 0 0) false).calls = [] :=
  C2_small_unfit_extent_is_skipped (0, 1) 100 (Extent.mk 0 199 0 199 0 0) false
    (by decide) (by decide) (by decide)

/-- C3: `RecursiveRenderTexturedPolygon` terminates for every extent, every
orientation in {0,1,2} and every device maximum (no condition on its sign or size):
with a nesting bound of `renderFuel` or more the procedure returns, and always the
same call tree.  Whenever it splits (the texture does not fit and one size exceeds
256), the size along the split axis exceeds 256, both halves are non-empty along
that axis, each is strictly shorter than the region split, and each needs strictly
less fuel. -/
theorem C3_recursion_terminates (orientation : Int) (xdim ydim : Nat)
    (maxSize : Int) (extent : Extent) (recursive : Bool)
    (hdims : DimensionIndices orientation xdim ydim) :
    (∃ t : CallTree, ∀ fuel : Nat, renderFuel (xdim, ydim) extent ≤ fuel →
      recursiveRenderFuel (xdim, ydim) maxSize fuel extent recursive = some t) ∧
    (TextureSizeOK (ComputeTextureSize (xdim, ydim) extent).textureSize maxSize = false →
      ((ComputeTextureSize (xdim, ydim) extent).textureSize.1 > 256 ∨
        (ComputeTextureSize (xdim, ydim) extent).textureSize.2 > 256) →
      256 < extent.size (splitIdx (ComputeTextureSize (xdim, ydim) extent)) ∧
      0 < (firstSubExtent extent (splitIdx (ComputeTextureSize (xdim, ydim) extent))
        (splitTsize (ComputeTextureSize (xdim, ydim) extent))).size
          (splitIdx (ComputeTextureSize (xdim, ydim) extent)) ∧
      0 < (secondSubExtent extent (splitIdx (ComputeTextureSize (xdim, ydim) extent))
        (splitTsize (ComputeTextureSize (xdim, ydim) extent))).size
          (splitIdx (ComputeTextureSize (xdim, ydim) extent)) ∧
      (firstSubExtent extent (splitIdx (ComputeTextureSize (xdim, ydim) extent))
        (splitTsize (ComputeTextureSize (xdim, ydim) extent))).size
          (splitIdx (ComputeTextureSize (xdim, ydim) extent)) <
        extent.size (splitIdx (ComputeTextureSize (xdim, ydim) extent)) ∧
      (secondSubExtent extent (splitIdx (ComputeTextureSize (xdim, ydim) extent))
        (splitTsize (ComputeTextureSize (xdim, ydim) extent))).size
          (splitIdx (ComputeTextureSize (xdim, ydim) extent)) <
        extent.size (splitIdx (ComputeTextureSize (xdim, ydim) extent)) ∧
      renderFuel (xdim, ydim) (firstSubExtent extent
        (splitIdx (ComputeTextureSize (xdim, ydim) extent))
        (splitTsize (ComputeTextureSize (xdim, ydim) extent))) <
          renderFuel (xdim, ydim) extent ∧
      renderFuel (xdim, ydim) (secondSubExtent extent
        (splitIdx (ComputeTextureSize (xdim, ydim) extent))
        (splitTsize (ComputeTextureSize (xdim, ydim) extent))) <
          renderFuel (xdim, ydim) extent) := by
  obtain ⟨_, hx, hy, hxy, _, _⟩ := hdims
  refine ⟨⟨RecursiveRenderTexturedPolygon (xdim, ydim) maxSize extent recursive,
    fun fuel h => recursiveRenderFuel_eq (xdim, ydim) maxSize hx hy hxy fuel extent recursive h⟩,
    ?_⟩
  intro _ hbig
  obtain ⟨hgt, ht, hidx⟩ := split_axis (xdim, ydim) extent hbig
  have h3 : splitIdx (ComputeTextureSize (xdim, ydim) extent) < 3 := by
    rcases hidx with ⟨hi, _⟩ | ⟨hi, _⟩ <;> rw [hi] <;> assumption
  have hfuel := renderFuel_split (xdim, ydim) extent hx hy hxy hbig
  refine ⟨hgt, ?_, ?_, ?_, ?_, hfuel.1, hfuel.2⟩ <;>
    simp only [firstSubExtent_size _ _ _ _ h3, secondSubExtent_size _ _ _ _ h3, ht, if_true] <;>
    omega

/-- Witness of C3: the 1000 x 600 extent of a slice through axis 0, with a negative
device maximum.  It is split along axis 1 into two halves of 500 samples. -/
theorem C3_recursion_terminates_witness :
    DimensionIndices 0 1 2 ∧
    (∃ t : CallTree, ∀ fuel : Nat, renderFuel (1, 2) (Extent.mk 3 3 0 999 0 599) ≤ fuel →
      recursiveRenderFuel (1, 2) (-1) fuel (Extent.mk 3 3 0 999 0 599) false = some t) ∧
    (256 < (Extent.mk 3 3 0 999 0 599).size 1 ∧
      0 < (Extent.mk 3 3 0 499 0 599).size 1 ∧
      0 < (Extent.mk 3 3 500 999 0 599).size 1 ∧
      (Extent.mk 3 3 0 499 0 599).size 1 < (Extent.mk 3 3 0 999 0 599).size 1 ∧
      (Extent.mk 3 3 500 999 0 599).size 1 < (Extent.mk 3 3 0 999 0 599).size 1 ∧
      renderFuel (1, 2) (Extent.mk 3 3 0 499 0 599) <
        renderFuel (1, 2) (Extent.mk 3 3 0 999 0 599) ∧
      renderFuel (1, 2) (Extent.mk 3 3 500 999 0 599) <
        renderFuel (1, 2) (Extent.mk 3 3 0 999 0 599)) :=
  ⟨by decide,
    (C3_recursion_terminates 0 1 2 (-1) (Extent.mk 3 3 0 999 0 599) false (by decide)).1,
    (C3_recursion_terminates 0 1 2 (-1) (Extent.mk 3 3 0 999 0 599) false (by decide)).2
      (by decide) (by decide)⟩

/-! ## Depth of the recursion -/

/-- Below a split every call to `RenderTexturedPolygon` carries `recursive = true`. -/
theorem calls_recursive (dims : Nat × Nat) (maxSize : Int)
    (hx : dims.1 < 3) (hy : dims.2 < 3) (hxy : dims.1 ≠ dims.2) (e : Extent) (r : Bool) :
    ∀ c ∈ (RecursiveRenderTexturedPolygon dims maxSize e r).calls, c = (e, r) ∨ c.2 = true := by
  refine RecursiveRenderTexturedPolygon_induction dims maxSize hx hy hxy
    (fun e r t => ∀ c ∈ t.calls, c = (e, r) ∨ c.2 = true) ?_ ?_ ?_ e r
  · intro e r _ _ c hc
    simp only [CallTree.calls, List.mem_singleton] at hc
    exact Or.inl hc
  · intro e r _ _ _ c hc
    simp [CallTree.calls] at hc
  · intro e r t1 t2 _ _ ih1 ih2 c hc
    simp only [CallTree.calls, List.mem_append] at hc
    rcases hc with hc | hc
    · rcases ih1 c hc with h | h
      · right; rw [h]
      · exact Or.inr h
    · rcases ih2 c hc with h | h
      · right; rw [h]
      · exact Or.inr h

/-- C5: when the extent does not fit and an in-plane size exceeds 256, the call
splits along the axis `a` that is `xdim` if the width is strictly greater than the
height and `ydim` otherwise.  With `s` the size and `lo`, `hi` the bounds on that
axis, the first half is `[lo, lo + floor(s/2) - 1]` and the second is
`[lo + floor(s/2), hi]`; the four other entries of both halves are those of the
extent; both halves are recursed on, first then second, with `recursive = true`,
so that every `RenderTexturedPolygon` call made carries `recursive = true`. -/
theorem C5_split_longer_axis_at_midpoint (orientation : Int) (xdim ydim : Nat)
    (maxSize : Int) (extent : Extent) (recursive : Bool)
    (hdims : DimensionIndices orientation xdim ydim)
    (hfit : ¬ (extent.size xdim ≤ maxSize ∧ extent.size ydim ≤ maxSize))
    (hbig : 256 < extent.size xdim ∨ 256 < extent.size ydim) :
    ∃ (a : Nat) (first second : Extent),
      a = (if extent.size ydim < extent.size xdim then xdim else ydim) ∧
      RecursiveRenderTexturedPolygon (xdim, ydim) maxSize extent recursive =
        CallTree.split (RecursiveRenderTexturedPolygon (xdim, ydim) maxSize first true)
          (RecursiveRenderTexturedPolygon (xdim, ydim) maxSize second true) ∧
      first.get (2 * a) = extent.get (2 * a) ∧
      first.get (2 * a + 1) = extent.get (2 * a) + extent.size a / 2 - 1 ∧
      second.get (2 * a) = extent.get (2 * a) + extent.size a / 2 ∧
      second.get (2 * a + 1) = extent.get (2 * a + 1) ∧
      (∀ n : Nat, n ≠ 2 * a → n ≠ 2 * a + 1 →
        first.get n = extent.get n ∧ second.get n = extent.get n) ∧
      (∀ c ∈ (RecursiveRenderTexturedPolygon (xdim, ydim) maxSize extent recursive).calls,
        c.2 = true) := by
  obtain ⟨_, hx, hy, hxy, _, _⟩ := hdims
  have hfit' : ¬ TextureSizeOK (ComputeTextureSize (xdim, ydim) extent).textureSize maxSize
      = true := by
    simpa [TextureSizeOK, ComputeTextureSize_textureSize] using hfit
  have hbig' : (ComputeTextureSize (xdim, ydim) extent).textureSize.1 > 256 ∨
      (ComputeTextureSize (xdim, ydim) extent).textureSize.2 > 256 := hbig
  obtain ⟨hgt, ht, hidx⟩ := split_axis (xdim, ydim) extent hbig
  have ha : splitIdx (ComputeTextureSize (xdim, ydim) extent) =
      (if extent.size ydim < extent.size xdim then xdim else ydim) := by
    rcases hidx with ⟨hi, hlt⟩ | ⟨hi, hle⟩
    · rw [hi, if_pos hlt]
    · rw [hi, if_neg (not_lt.2 hle)]
  have h3 : splitIdx (ComputeTextureSize (xdim, ydim) extent) < 3 := by
    rcases hidx with ⟨hi, _⟩ | ⟨hi, _⟩ <;> rw [hi] <;> assumption
  have heq := RecursiveRenderTexturedPolygon_eq (xdim, ydim) maxSize hx hy hxy extent recursive
  rw [if_neg hfit', if_pos hbig'] at heq
  refine ⟨splitIdx (ComputeTextureSize (xdim, ydim) extent), _, _, ha, heq, ?_, ?_, ?_, ?_, ?_, ?_⟩
  · rw [firstSubExtent_get _ _ _ _ h3, if_neg (by omega)]
  · rw [firstSubExtent_get _ _ _ _ h3, if_pos (by omega), ht, Nat.mul_comm]
  · rw [secondSubExtent_get _ _ _ _ h3, if_pos (by omega), ht, Nat.mul_comm]
  · rw [secondSubExtent_get _ _ _ _ h3, if_neg (by omega)]
  · intro n h1 h2
    rw [firstSubExtent_get _ _ _ _ h3, secondSubExtent_get _ _ _ _ h3,
      if_neg (by omega), if_neg (by omega)]
    exact ⟨rfl, rfl⟩
  · intro c hc
    rw [heq] at hc
    simp only [CallTree.calls, List.mem_append] at hc
    rcases hc with hc | hc
    · rcases calls_recursive (xdim, ydim) maxSize hx hy hxy _ true c hc with h | h
      · rw [h]
      · exact h
    · rcases calls_recursive (xdim, ydim) maxSize hx hy hxy _ true c hc with h | h
      · rw [h]
      · exact h

/-- Witness of C5: a 300 x 301 slice through axis 1 (in-plane axes 0 and 2) with
device maximum 256 is cut along the row axis, at 7 + 150. -/
theorem C5_split_longer_axis_at_midpoint_witness :
    DimensionIndices 1 0 2 ∧
    ¬ ((Extent.mk 0 299 4 4 7 307).size 0 ≤ 256 ∧ (Extent.mk 0 299 4 4 7 307).size 2 ≤ 256) ∧
    (256 < (Extent.mk 0 299 4 4 7 307).size 0 ∨ 256 < (Extent.mk 0 299 4 4 7 307).size 2) ∧
    ∃ (a : Nat) (first second : Extent),
      a = (if (Extent.mk 0 299 4 4 7 307).size 2 < (Extent.mk 0 299 4 4 7 307).size 0
        then 0 else 2) ∧
      RecursiveRenderTexturedPolygon (0, 2) 256 (Extent.mk 0 299 4 4 7 307) false =
        CallTree.split (RecursiveRenderTexturedPolygon (0, 2) 256 first true)
          (RecursiveRenderTexturedPolygon (0, 2) 256 second true) ∧
      first.get (2 * a) = (Extent.mk 0 299 4 4 7 307).get (2 * a) ∧
      first.get (2 * a + 1) = (Extent.mk 0 299 4 4 7 307).get (2 * a) +
        (Extent.mk 0 299 4 4 7 307).size a / 2 - 1 ∧
      second.get (2 * a) = (Extent.mk 0 299 4 4 7 307).get (2 * a) +
        (Extent.mk 0 299 4 4 7 307).size a / 2 ∧
      second.get (2 * a + 1) = (Extent.mk 0 299 4 4 7 307).get (2 * a + 1) ∧
      (∀ n : Nat, n ≠ 2 * a → n ≠ 2 * a + 1 →
        first.get n = (Extent.mk 0 299 4 4 7 307).get n ∧
        second.get n = (Extent.mk 0 299 4 4 7 307).get n) ∧
      (∀ c ∈ (RecursiveRenderTexturedPolygon (0, 2) 256
          (Extent.mk 0 299 4 4 7 307) false).calls, c.2 = true) :=
  ⟨by decide, by decide, by decide,
    C5_split_longer_axis_at_midpoint 1 0 2 256 (Extent.mk 0 299 4 4 7 307) false
      (by decide) (by decide) (by decide)⟩

/-! ## Claims about the cache -/

theorem propertyMTime_gt (p : ImageProperty) (pass : Bool) (loadTime : Nat) :
    propertyMTime (some p) pass > loadTime ↔
      (p.mtime > loadTime ∨
        (pass = false ∧ ∃ t, p.lookupTableMTime = some t ∧ t > loadTime)) := by
  unfold propertyMTime
  cases pass <;> cases htab : p.lookupTableMTime with
  | none => simp [htab]
  | some t =>
    simp only [htab, Bool.not_false, Bool.not_true, if_true, Bool.false_eq_true, if_false,
      Option.some.injEq, exists_eq_left', true_and, false_and, or_false, Bool.true_eq_false]
    try (split_ifs <;> omega)

theorem needsReload_iff (env : RenderEnv) (m : Mapper) (p : ImageProperty) (recursive : Bool) :
    needsReload env m (some p) recursive = true ↔
      (env.mapperMTime > m.LoadTime ∨ p.mtime > m.LoadTime ∨
        (m.PassColorData = false ∧ ∃ t, p.lookupTableMTime = some t ∧ t > m.LoadTime) ∨
        env.inputMTime > m.LoadTime ∨ m.Orientation ≠ m.LastOrientation ∨
        m.SliceNumber ≠ m.LastSliceNumber ∨ recursive = true) := by
  unfold needsReload
  simp only [Bool.or_eq_true, decide_eq_true_eq, propertyMTime_gt]
  generalize (∃ t, p.lookupTableMTime = some t ∧ t > m.LoadTime) = Q
  tauto

theorem contextChanged_some (m : Mapper) (w : RenderWindowInfo) :
    contextChanged m (some w) =
      some (decide (some w.id ≠ m.RenderWindow ∨ w.contextCreationTime > m.LoadTime)) := by
  unfold contextChanged
  by_cases h : some w.id = m.RenderWindow <;> simp [h]

/-- C6: with a render window and a property at hand, `RenderTexturedPolygon`
reloads the texture whenever the mapper's modification time exceeds the last load
time, or the property's does (or, when color data is not passed through, its
lookup table's), or the input image's does, or `Orientation` differs from
`LastOrientation`, or `SliceNumber` from `LastSliceNumber`, or `recursive` is
true: the first thing it does is one reload for the extent given, `TextureSize`
and `TextureBytesPerPixel` become what `MakeTextureData` reports, and `LoadTime`
becomes the current time: a new value of the modification counter, above every
time stamp issued before the call. -/
theorem C6_reload_when_invalidated (env : RenderEnv) (m : Mapper) (w : RenderWindowInfo)
    (p : ImageProperty) (extent : Extent) (recursive : Bool)
    (h : env.mapperMTime > m.LoadTime ∨ p.mtime > m.LoadTime ∨
      (m.PassColorData = false ∧ ∃ t, p.lookupTableMTime = some t ∧ t > m.LoadTime) ∨
      env.inputMTime > m.LoadTime ∨ m.Orientation ≠ m.LastOrientation ∨
      m.SliceNumber ≠ m.LastSliceNumber ∨ recursive = true) :
    ∃ (m' : Mapper) (evs : List Event),
      RenderTexturedPolygon env m (some w) (some p) extent recursive = some (m', evs) ∧
      evs.head? = some (Event.loadTexture extent
        (!decide (some w.id ≠ m.RenderWindow ∨ w.contextCreationTime > m.LoadTime))
        (env.makeTextureData extent).1 (env.makeTextureData extent).2.1
        (env.makeTextureData extent).2.2 (!(p.nearestInterpolation && !m.ExactPixelMatch))) ∧
      reloadCount evs = 1 ∧
      m'.TextureSize = ((env.makeTextureData extent).1, (env.makeTextureData extent).2.1) ∧
      m'.TextureBytesPerPixel = (env.makeTextureData extent).2.2 ∧
      m'.LoadTime = m.globalTime + env.reloadStamps + 1 ∧ m'.globalTime = m'.LoadTime := by
  have hr := (needsReload_iff env m p recursive).2 h
  unfold RenderTexturedPolygon
  rw [contextChanged_some]
  generalize decide (some w.id ≠ m.RenderWindow ∨ w.contextCreationTime > m.LoadTime) = changed
  cases changed <;> cases hb : m.Background <;>
    simp only [hr, hb, if_true, Bool.false_eq_true, if_false] <;>
    exact ⟨_, _, rfl, rfl, rfl, rfl, rfl, rfl, rfl⟩

/-- Witness of C6: a call with `recursive = true` reloads although every time
stamp is older than the last load and neither orientation nor slice changed. -/
theorem C6_reload_when_invalidated_witness :
    ∃ (m' : Mapper) (evs : List Event),
      RenderTexturedPolygon
        { mapperMTime := 3, inputMTime := 4, makeTextureData := fun e => (e.size 0, e.size 1, 3),
          reloadStamps := 7 }
        { globalTime := 20, LoadTime := 10, RenderWindow := some 1, TextureSize := (4, 4),
          TextureBytesPerPixel := 1, LastOrientation := 2, LastSliceNumber := 5,
          Orientation := 2, SliceNumber := 5, PassColorData := false,
          ExactPixelMatch := false, SliceFacesCamera := false, Background := false,
          Points := none }
        (some { id := 1, contextCreationTime := 2 })
        (some { mtime := 5, lookupTableMTime := some 6, nearestInterpolation := true })
        (Extent.mk 0 9 0 19 5 5) true = some (m', evs) ∧
      evs.head? = some (Event.loadTexture (Extent.mk 0 9 0 19 5 5) true 10 20 3 false) ∧
      reloadCount evs = 1 ∧ m'.TextureSize = (10, 20) ∧ m'.TextureBytesPerPixel = 3 ∧
      m'.LoadTime = 20 + 7 + 1 ∧ m'.globalTime = m'.LoadTime :=
  C6_reload_when_invalidated
    { mapperMTime := 3, inputMTime := 4, makeTextureData := fun e => (e.size 0, e.size 1, 3),
          reloadStamps := 7 }
    { globalTime := 20, LoadTime := 10, RenderWindow := some 1, TextureSize := (4, 4),
      TextureBytesPerPixel := 1, LastOrientation := 2, LastSliceNumber := 5,
      Orientation := 2, SliceNumber := 5, PassColorData := false,
      ExactPixelMatch := false, SliceFacesCamera := false, Background := false,
      Points := none }
    { id := 1, contextCreationTime := 2 }
    { mtime := 5, lookupTableMTime := some 6, nearestInterpolation := true }
    (Extent.mk 0 9 0 19 5 5) true (by decide)

/-- What a call that reloads leaves behind. -/
theorem RenderTexturedPolygon_reload (env : RenderEnv) (m : Mapper) (w : RenderWindowInfo)
    (p : ImageProperty) (extent : Extent) (recursive : Bool)
    (hr : needsReload env m (some p) recursive = true) :
    ∃ (m' : Mapper) (evs : List Event),
      RenderTexturedPolygon env m (some w) (some p) extent recursive = some (m', evs) ∧
      reloadCount evs = 1 ∧ m'.LoadTime = m.globalTime + env.reloadStamps + 1 ∧
      m'.globalTime = m.globalTime + env.reloadStamps + 1 ∧
      m'.LastOrientation = m.Orientation ∧ m'.LastSliceNumber = m.SliceNumber ∧
      m'.Orientation = m.Orientation ∧ m'.SliceNumber = m.SliceNumber ∧
      m'.PassColorData = m.PassColorData := by
  unfold RenderTexturedPolygon
  rw [contextChanged_some]
  generalize decide (some w.id ≠ m.RenderWindow ∨ w.contextCreationTime > m.LoadTime) = changed
  cases changed <;> cases hb : m.Background <;>
    simp only [hr, hb, if_true, Bool.false_eq_true, if_false] <;>
    exact ⟨_, _, rfl, rfl, rfl, rfl, rfl, rfl, rfl, rfl, rfl⟩

/-- What a call that does not reload leaves behind: the cached texture is kept,
only the render window and the last orientation and slice are stored. -/
theorem RenderTexturedPolygon_keep (env : RenderEnv) (m : Mapper) (w : RenderWindowInfo)
    (p : ImageProperty) (extent : Extent) (recursive : Bool)
    (hr : needsReload env m (some p) recursive = false) :
    ∃ (m' : Mapper) (evs : List Event),
      RenderTexturedPolygon env m (some w) (some p) extent recursive = some (m', evs) ∧
      reloadCount evs = 0 ∧ m'.LoadTime = m.LoadTime ∧ m'.globalTime = m.globalTime ∧
      m'.TextureSize = m.TextureSize ∧ m'.TextureBytesPerPixel = m.TextureBytesPerPixel ∧
      m'.RenderWindow = some w.id := by
  unfold RenderTexturedPolygon
  rw [contextChanged_some]
  by_cases hc : some w.id ≠ m.RenderWindow ∨ w.contextCreationTime > m.LoadTime
  · rw [decide_eq_true hc]
    cases hb : m.Background <;>
      simp only [hr, hb, if_true, Bool.false_eq_true, if_false] <;>
      exact ⟨_, _, rfl, rfl, rfl, rfl, rfl, rfl, rfl⟩
  · rw [decide_eq_false hc]
    have hid : m.RenderWindow = some w.id := by
      by_contra hne
      exact hc (Or.inl (fun h => hne h.symm))
    cases hb : m.Background <;>
      simp only [hr, hb, if_true, Bool.false_eq_true, if_false] <;>
      exact ⟨_, _, rfl, rfl, rfl, rfl, rfl, rfl, hid⟩

/-- C7 (as stated, refuted): the stored render window is window 1 and nothing was
modified since the last load at time 10.  A call with another render window
(window 2), and a call with window 1 whose context was created at time 15, after
the last load, both leave the texture as it is: no reload, `LoadTime` still 10. -/
theorem C7_context_change_without_reload :
    (∃ (m' : Mapper) (evs : List Event),
      RenderTexturedPolygon
        { mapperMTime := 3, inputMTime := 4, makeTextureData := fun e => (e.size 0, e.size 1, 3),
          reloadStamps := 7 }
        { globalTime := 20, LoadTime := 10, RenderWindow := some 1, TextureSize := (4, 4),
          TextureBytesPerPixel := 1, LastOrientation := 2, LastSliceNumber := 5,
          Orientation := 2, SliceNumber := 5, PassColorData := false,
          ExactPixelMatch := false, SliceFacesCamera := false, Background := false,
          Points := none }
        (some { id := 2, contextCreationTime := 2 })
        (some { mtime := 5, lookupTableMTime := some 6, nearestInterpolation := true })
        (Extent.mk 0 9 0 19 5 5) false = some (m', evs) ∧
      reloadCount evs = 0 ∧ m'.LoadTime = 10 ∧ m'.TextureSize = (4, 4)) ∧
    (∃ (m' : Mapper) (evs : List Event),
      RenderTexturedPolygon
        { mapperMTime := 3, inputMTime := 4, makeTextureData := fun e => (e.size 0, e.size 1, 3),
          reloadStamps := 7 }
        { globalTime := 20, LoadTime := 10, RenderWindow := some 1, TextureSize := (4, 4),
          TextureBytesPerPixel := 1, LastOrientation := 2, LastSliceNumber := 5,
          Orientation := 2, SliceNumber := 5, PassColorData := false,
          ExactPixelMatch := false, SliceFacesCamera := false, Background := false,
          Points := none }
        (some { id := 1, contextCreationTime := 15 })
        (some { mtime := 5, lookupTableMTime := some 6, nearestInterpolation := true })
        (Extent.mk 0 9 0 19 5 5) false = some (m', evs) ∧
      reloadCount evs = 0 ∧ m'.LoadTime = 10 ∧ m'.TextureSize = (4, 4)) :=
  ⟨⟨_, _, rfl, by decide, rfl, rfl⟩, ⟨_, _, rfl, by decide, rfl, rfl⟩⟩

/-- C7 (amended): a change of rendering context by itself does not force a reload.
When the render window differs from the stored `RenderWindow`, or its context
was created after the last load, and no time stamp, orientation or slice number
changed and `recursive` is false, `RenderTexturedPolygon` only stores the new
render window: it reloads nothing and keeps `LoadTime`, `TextureSize` and
`TextureBytesPerPixel`.  The context change clears `reuseTexture`, which is
consulted only by a reload made for another reason: such a reload (here one
forced by `recursive = true`) rebuilds the texture data with
`reuseTexture = false`. -/
theorem C7_context_change_alone_keeps_texture (env : RenderEnv) (m : Mapper)
    (w : RenderWindowInfo) (p : ImageProperty) (extent : Extent)
    (hctx : some w.id ≠ m.RenderWindow ∨ w.contextCreationTime > m.LoadTime)
    (hm : env.mapperMTime ≤ m.LoadTime) (hp : p.mtime ≤ m.LoadTime)
    (ht : m.PassColorData = false → ∀ t, p.lookupTableMTime = some t → t ≤ m.LoadTime)
    (hi : env.inputMTime ≤ m.LoadTime) (ho : m.Orientation = m.LastOrientation)
    (hs : m.SliceNumber = m.LastSliceNumber) :
    (∃ (m' : Mapper) (evs : List Event),
      RenderTexturedPolygon env m (some w) (some p) extent false = some (m', evs) ∧
      reloadCount evs = 0 ∧ m'.LoadTime = m.LoadTime ∧ m'.globalTime = m.globalTime ∧
      m'.TextureSize = m.TextureSize ∧ m'.TextureBytesPerPixel = m.TextureBytesPerPixel ∧
      m'.RenderWindow = some w.id) ∧
    (∃ (m' : Mapper) (evs : List Event),
      RenderTexturedPolygon env m (some w) (some p) extent true = some (m', evs) ∧
      evs.head? = some (Event.loadTexture extent false
        (env.makeTextureData extent).1 (env.makeTextureData extent).2.1
        (env.makeTextureData extent).2.2 (!(p.nearestInterpolation && !m.ExactPixelMatch)))) := by
  constructor
  · apply RenderTexturedPolygon_keep
    rw [← Bool.not_eq_true, needsReload_iff]
    rintro (h | h | ⟨hpass, t, htab, h⟩ | h | h | h | h)
    · omega
    · omega
    · have := ht hpass t htab; omega
    · omega
    · exact h ho
    · exact h hs
    · exact Bool.false_ne_true h
  · have hr : needsReload env m (some p) true = true :=
      (needsReload_iff env m p true).2 (by simp)
    unfold RenderTexturedPolygon
    rw [contextChanged_some, decide_eq_true hctx]
    cases hb : m.Background <;>
      simp only [hr, hb, if_true, Bool.false_eq_true, if_false] <;>
      exact ⟨_, _, rfl, rfl⟩

/-- Witness of C7 (amended): the render window changes from window 1 to window 2
while nothing else changed. -/
theorem C7_context_change_alone_keeps_texture_witness :
    (∃ (m' : Mapper) (evs : List Event),
      RenderTexturedPolygon
        { mapperMTime := 3, inputMTime := 4, makeTextureData := fun e => (e.size 0, e.size 1, 3),
          reloadStamps := 7 }
        { globalTime := 20, LoadTime := 10, RenderWindow := some 1, TextureSize := (4, 4),
          TextureBytesPerPixel := 1, LastOrientation := 2, LastSliceNumber := 5,
          Orientation := 2, SliceNumber := 5, PassColorData := false,
          ExactPixelMatch := false, SliceFacesCamera := false, Background := true,
          Points := none }
        (some { id := 2, contextCreationTime := 2 })
        (some { mtime := 5, lookupTableMTime := some 6, nearestInterpolation := true })
        (Extent.mk 0 9 0 19 5 5) false = some (m', evs) ∧
      reloadCount evs = 0 ∧ m'.LoadTime = 10 ∧ m'.globalTime = 20 ∧
      m'.TextureSize = (4, 4) ∧ m'.TextureBytesPerPixel = 1 ∧ m'.RenderWindow = some 2) :=
  (C7_context_change_alone_keeps_texture
    { mapperMTime := 3, inputMTime := 4, makeTextureData := fun e => (e.size 0, e.size 1, 3),
          reloadStamps := 7 }
    { globalTime := 20, LoadTime := 10, RenderWindow := some 1, TextureSize := (4, 4),
      TextureBytesPerPixel := 1, LastOrientation := 2, LastSliceNumber := 5,
      Orientation := 2, SliceNumber := 5, PassColorData := false,
      ExactPixelMatch := false, SliceFacesCamera := false, Background := true,
      Points := none }
    { id := 2, contextCreationTime := 2 }
    { mtime := 5, lookupTableMTime := some 6, nearestInterpolation := true }
    (Extent.mk 0 9 0 19 5 5)
    (by decide) (by decide) (by decide) (by decide) (by decide) (by decide) (by decide)).1

/-- An extent that fits is rendered by one call, with the flag it came with. -/
theorem RecursiveRenderTexturedPolygon_fits (dims : Nat × Nat) (maxSize : Int)
    (extent : Extent) (recursive : Bool)
    (hfit : TextureSizeOK (ComputeTextureSize dims extent).textureSize maxSize = true) :
    RecursiveRenderTexturedPolygon dims maxSize extent recursive =
      CallTree.render extent recursive := by
  unfold RecursiveRenderTexturedPolygon renderFuel
  rw [recursiveRenderFuel]
  simp only [hfit, if_true]
  rfl

/-- C8 (as stated, refuted): a fresh mapper, a 300 x 100 display extent and a
device maximum of 256.  The extent is split in two, both halves are rendered with
`recursive = true`, and so the first render call reloads the texture twice and
the second, identical, render call reloads it twice again. -/
theorem C8_split_extent_reloads_every_time :
    (RecursiveRenderTexturedPolygon (0, 1) 256 (Extent.mk 0 299 0 99 5 5) false).calls =
      [(Extent.mk 0 149 0 99 5 5, true), (Extent.mk 150 299 0 99 5 5, true)] ∧
    (RecursiveRender
        { mapperMTime := 3, inputMTime := 4, makeTextureData := fun e => (e.size 0, e.size 1, 3),
          reloadStamps := 7 }
        (0, 1) 256 (Mapper.fresh 20 2 5 false false false false none)
        (some { id := 1, contextCreationTime := 2 })
        (some { mtime := 5, lookupTableMTime := some 6, nearestInterpolation := true })
        (Extent.mk 0 299 0 99 5 5) false).map (fun r => reloadCount r.2) = some 2 ∧
    ((RecursiveRender
        { mapperMTime := 3, inputMTime := 4, makeTextureData := fun e => (e.size 0, e.size 1, 3),
          reloadStamps := 7 }
        (0, 1) 256 (Mapper.fresh 20 2 5 false false false false none)
        (some { id := 1, contextCreationTime := 2 })
        (some { mtime := 5, lookupTableMTime := some 6, nearestInterpolation := true })
        (Extent.mk 0 299 0 99 5 5) false).bind (fun r =>
      RecursiveRender
        { mapperMTime := 3, inputMTime := 4, makeTextureData := fun e => (e.size 0, e.size 1, 3),
          reloadStamps := 7 }
        (0, 1) 256 r.1
        (some { id := 1, contextCreationTime := 2 })
        (some { mtime := 5, lookupTableMTime := some 6, nearestInterpolation := true })
        (Extent.mk 0 299 0 99 5 5) false)).map (fun r => reloadCount r.2) = some 2 := by
  decide

/-- C8 (amended): cache reload is idempotent for a display extent that fits the
device maximum.  Starting from a freshly constructed mapper, for every such
extent, every orientation in {0,1,2} and every slice number, when the
modification times of the mapper, the property, its lookup table and the input
are time stamps already issued (at most the current value of the modification
counter) and do not change between the calls, two consecutive calls of
`RecursiveRenderTexturedPolygon` with `recursive = false` and identical inputs
reload the texture exactly once in the first call and not at all in the second. -/
theorem C8_reload_idempotent_when_fits (env : RenderEnv) (orientation : Int)
    (xdim ydim : Nat) (maxSize : Int) (globalTime : Nat) (sliceNumber : Int)
    (passColorData exactPixelMatch sliceFacesCamera background : Bool)
    (points : Option (List Point3)) (w : RenderWindowInfo) (p : ImageProperty)
    (extent : Extent)
    (hdims : DimensionIndices orientation xdim ydim)
    (hfit : TextureSizeOK (ComputeTextureSize (xdim, ydim) extent).textureSize maxSize = true)
    (hm : env.mapperMTime ≤ globalTime) (hp : p.mtime ≤ globalTime)
    (ht : ∀ t, p.lookupTableMTime = some t → t ≤ globalTime)
    (hi : env.inputMTime ≤ globalTime) :
    ∃ (m1 m2 : Mapper) (evs1 evs2 : List Event),
      RecursiveRender env (xdim, ydim) maxSize
        (Mapper.fresh globalTime orientation sliceNumber passColorData exactPixelMatch
          sliceFacesCamera background points)
        (some w) (some p) extent false = some (m1, evs1) ∧
      RecursiveRender env (xdim, ydim) maxSize m1 (some w) (some p) extent false =
        some (m2, evs2) ∧
      reloadCount evs1 = 1 ∧ reloadCount evs2 = 0 := by
  have hcalls : (RecursiveRenderTexturedPolygon (xdim, ydim) maxSize extent false).calls =
      [(extent, false)] := by
    rw [RecursiveRenderTexturedPolygon_fits _ _ _ _ hfit]; rfl
  have hr1 : needsReload env (Mapper.fresh globalTime orientation sliceNumber passColorData
      exactPixelMatch sliceFacesCamera background points) (some p) false = true := by
    rw [needsReload_iff]
    right; right; right; right; left
    show orientation ≠ -1
    rcases hdims.1 with h | h | h <;> rw [h] <;> decide
  obtain ⟨m1, evs1, h1, hc1, hl1, hg1, hlo1, hls1, ho1, hs1, hpc1⟩ :=
    RenderTexturedPolygon_reload env _ w p extent false hr1
  have hr2 : needsReload env m1 (some p) false = false := by
    rw [← Bool.not_eq_true, needsReload_iff, hl1, hlo1, hls1, ho1, hs1]
    have hgt : (Mapper.fresh globalTime orientation sliceNumber passColorData
      exactPixelMatch sliceFacesCamera background points).globalTime = globalTime := rfl
    rw [hgt]
    rintro (h | h | ⟨_, t, htab, h⟩ | h | h | h | h)
    · omega
    · omega
    · have := ht t htab; omega
    · omega
    · exact h rfl
    · exact h rfl
    · exact Bool.false_ne_true h
  obtain ⟨m2, evs2, h2, hc2, _⟩ := RenderTexturedPolygon_keep env m1 w p extent false hr2
  refine ⟨m1, m2, evs1, evs2, ?_, ?_, hc1, hc2⟩
  · unfold RecursiveRender
    simp only [hcalls, renderCalls, h1, List.append_nil]
  · unfold RecursiveRender
    simp only [hcalls, renderCalls, h2, List.append_nil]

/-- Witness of C8 (amended): a fresh mapper and a 10 x 20 slice, device maximum 256. -/
theorem C8_reload_idempotent_when_fits_witness :
    ∃ (m1 m2 : Mapper) (evs1 evs2 : List Event),
      RecursiveRender
        { mapperMTime := 3, inputMTime := 4, makeTextureData := fun e => (e.size 0, e.size 1, 3),
          reloadStamps := 7 }
        (0, 1) 256 (Mapper.fresh 20 2 5 false false false true none)
        (some { id := 1, contextCreationTime := 2 })
        (some { mtime := 5, lookupTableMTime := some 6, nearestInterpolation := true })
        (Extent.mk 0 9 0 19 5 5) false = some (m1, evs1) ∧
      RecursiveRender
        { mapperMTime := 3, inputMTime := 4, makeTextureData := fun e => (e.size 0, e.size 1, 3),
          reloadStamps := 7 }
        (0, 1) 256 m1
        (some { id := 1, contextCreationTime := 2 })
        (some { mtime := 5, lookupTableMTime := some 6, nearestInterpolation := true })
        (Extent.mk 0 9 0 19 5 5) false = some (m2, evs2) ∧
      reloadCount evs1 = 1 ∧ reloadCount evs2 = 0 :=
  C8_reload_idempotent_when_fits
    { mapperMTime := 3, inputMTime := 4, makeTextureData := fun e => (e.size 0, e.size 1, 3),
          reloadStamps := 7 }
    2 0 1 256 20 5 false false false true none
    { id := 1, contextCreationTime := 2 }
    { mtime := 5, lookupTableMTime := some 6, nearestInterpolation := true }
    (Extent.mk 0 9 0 19 5 5)
    (by decide) (by decide) (by decide) (by decide) (by decide) (by decide)

/-! ## Claims about the polygon geometry -/

theorem buildTris_length (numTris : Int) : (buildTris numTris).length = numTris.toNat := by
  simp [buildTris]

/-- The cell array after `RenderPolygon`: rebuilt when its size is not `3 * numTris`,
kept otherwise. -/
theorem RenderPolygon_tris (g : GeometryEnv) (poly : PolyData) (textured : Bool)
    (points : Option (List Point3)) (extent : Extent) :
    (RenderPolygon g poly textured points extent).1.tris =
      if poly.numberOfConnectivityIds ≠ 3 * (match points with
          | none => (2 : Int)
          | some ps => (ps.length : Int) - 2) then
        buildTris (match points with
          | none => (2 : Int)
          | some ps => (ps.length : Int) - 2)
      else poly.tris := by
  unfold RenderPolygon
  cases points with
  | none => simp only []; split_ifs <;> rfl
  | some ps => simp only []; split_ifs <;> rfl

/-- After `RenderPolygon` the cell array holds `numTris` triangles, whether it was
rebuilt or kept. -/
theorem RenderPolygon_tris_length (g : GeometryEnv) (poly : PolyData) (textured : Bool)
    (points : Option (List Point3)) (extent : Extent) (numTris : Nat)
    (h : (match points with
      | none => (2 : Int)
      | some ps => (ps.length : Int) - 2) = (numTris : Int)) :
    (RenderPolygon g poly textured points extent).1.tris.length = numTris := by
  rw [RenderPolygon_tris, h]
  split_ifs with hne
  · simp [buildTris_length]
  · simp only [PolyData.numberOfConnectivityIds, ne_eq, not_not] at hne
    omega

/-- C9 (as stated, refuted): for a supplied polygon of 4 points, starting from the
empty cell array the constructor creates, `RenderPolygon` builds 2 triangles,
`(3,0,2)` and `(2,0,1)`, not `2 * (4 - 2) = 4`; for 3 points it builds the single
triangle `(2,0,1)`, not 2. -/
theorem C9_polygon_has_N_minus_2_triangles :
    (RenderPolygon
        { dims := (0, 1), TextureSize := (10, 10), oob := 0, DataSpacing := (1, 1, 1),
          DataOrigin := (0, 0, 0), invDirection := fun c => c,
          makeTextureGeometry := fun _ => ([], []) }
        { points := [], tris := [], tcoords := [] } true
        (some [(0, 0, 0), (1, 0, 0), (1, 1, 0), (0, 1, 0)]) (Extent.mk 0 9 0 9 5 5)).1.tris =
      [(3, 0, 2), (2, 0, 1)] ∧
    (RenderPolygon
        { dims := (0, 1), TextureSize := (10, 10), oob := 0, DataSpacing := (1, 1, 1),
          DataOrigin := (0, 0, 0), invDirection := fun c => c,
          makeTextureGeometry := fun _ => ([], []) }
        { points := [], tris := [], tcoords := [] } true
        (some [(0, 0, 0), (1, 0, 0), (1, 1, 0)]) (Extent.mk 0 9 0 9 5 5)).1.tris =
      [(2, 0, 1)] :=
  ⟨rfl, rfl⟩

/-- C9 (amended): the triangle connectivity that `RenderPolygon` leaves has exactly
2 triangles for the default 4-point quad (no polygon supplied) and exactly `N - 2`
triangles for a supplied polygon of `N >= 3` points, whatever the cell array held
before. -/
theorem C9_triangle_count (g : GeometryEnv) (poly : PolyData) (textured : Bool)
    (extent : Extent) :
    (RenderPolygon g poly textured none extent).1.tris.length = 2 ∧
    (∀ ps : List Point3, 3 ≤ ps.length →
      (RenderPolygon g poly textured (some ps) extent).1.tris.length = ps.length - 2) := by
  constructor
  · exact RenderPolygon_tris_length g poly textured none extent 2 rfl
  · intro ps hps
    apply RenderPolygon_tris_length g poly textured (some ps) extent (ps.length - 2)
    simp only
    omega

/-- Witness of C9 (amended): a square replaces a cell array that held one triangle. -/
theorem C9_triangle_count_witness :
    3 ≤ [((0 : ℚ), (0 : ℚ), (0 : ℚ)), (1, 0, 0), (1, 1, 0), (0, 1, 0)].length ∧
    (RenderPolygon
        { dims := (0, 1), TextureSize := (10, 10), oob := 0, DataSpacing := (1, 1, 1),
          DataOrigin := (0, 0, 0), invDirection := fun c => c,
          makeTextureGeometry := fun _ => ([], []) }
        { points := [], tris := [(2, 0, 1)], tcoords := [] } true
        (some [(0, 0, 0), (1, 0, 0), (1, 1, 0), (0, 1, 0)]) (Extent.mk 0 9 0 9 5 5)).1.tris.length
      = [((0 : ℚ), (0 : ℚ), (0 : ℚ)), (1, 0, 0), (1, 1, 0), (0, 1, 0)].length - 2 :=
  ⟨by decide,
    (C9_triangle_count
      { dims := (0, 1), TextureSize := (10, 10), oob := 0, DataSpacing := (1, 1, 1),
        DataOrigin := (0, 0, 0), invDirection := fun c => c,
        makeTextureGeometry := fun _ => ([], []) }
      { points := [], tris := [(2, 0, 1)], tcoords := [] } true (Extent.mk 0 9 0 9 5 5)).2
      [(0, 0, 0), (1, 0, 0), (1, 1, 0), (0, 1, 0)] (by decide)⟩

/-- Where the general-polygon path is right: when the in-plane axes are 0 and 1
(a slice through axis 2), `TextureSize` holds the image size of the extent, and
the polygon point lies at the continuous data index `(i, j)`, its texture
coordinate is `((i - (lo_x - 1/2)) / width, (j - (lo_y - 1/2)) / height)`:
0 on the low edges `lo - 1/2` and 1 on the high edges `hi + 1/2`. -/
theorem polygonTCoord_axes01 (g : GeometryEnv) (extent : Extent) (point : Point3)
    (i j k : ℚ) (hd : g.dims = (0, 1))
    (hts : g.TextureSize = (extent.size 0, extent.size 1))
    (hsx : g.DataSpacing.get 0 ≠ 0) (hsy : g.DataSpacing.get 1 ≠ 0)
    (hc : g.invDirection (point.1 - g.DataOrigin.1, point.2.1 - g.DataOrigin.2.1,
      point.2.2 - g.DataOrigin.2.2) = (i * g.DataSpacing.get 0, j * g.DataSpacing.get 1, k)) :
    polygonTCoord g extent point =
      ((i - ((extent.get 0 : ℚ) - 1 / 2)) / (extent.size 0 : ℚ),
        (j - ((extent.get 2 : ℚ) - 1 / 2)) / (extent.size 1 : ℚ)) := by
  unfold polygonTCoord
  simp only [hd, hts, hc, textureSizeAt, Point3.get]
  simp only [Point3.get] at hsx hsy
  refine Prod.ext ?_ ?_
  · show (i * g.DataSpacing.1 - -(1 / 2 - (extent.get (2 * 0) : ℚ)) * g.DataSpacing.1) /
      ((extent.size 0 : ℚ) * g.DataSpacing.1) = _
    rw [show i * g.DataSpacing.1 - -(1 / 2 - (extent.get (2 * 0) : ℚ)) * g.DataSpacing.1 =
      (i - ((extent.get 0 : ℚ) - 1 / 2)) * g.DataSpacing.1 by simp only [Nat.mul_zero]; ring]
    exact mul_div_mul_right _ _ hsx
  · show (j * g.DataSpacing.2.1 - -(1 / 2 - (extent.get (2 * 1) : ℚ)) * g.DataSpacing.2.1) /
      ((extent.size 1 : ℚ) * g.DataSpacing.2.1) = _
    rw [show j * g.DataSpacing.2.1 - -(1 / 2 - (extent.get (2 * 1) : ℚ)) * g.DataSpacing.2.1 =
      (j - ((extent.get 2 : ℚ) - 1 / 2)) * g.DataSpacing.2.1 by simp only [Nat.mul_one]; ring]
    exact mul_div_mul_right _ _ hsy

/-- C10 (the code at the failing input): a slice through axis 0 (in-plane axes 1
and 2), extent `[5,5,0,9,0,19]`, `TextureSize` holding the image size of the
extent, unit spacing, zero origin, identity direction.  The polygon is the
rectangle of the extent itself, corners at data indices `(5, -1/2, -1/2)`,
`(5, 19/2, -1/2)`, `(5, 19/2, 39/2)`, `(5, -1/2, 39/2)`, to which the default quad
gives the first texture coordinates 0, 1, 1, 0.  With `(xdim, ydim) = (1, 2)`
the general-polygon path gives all four corners the first texture coordinate
`11/40`, whatever the read of `TextureSize[2]` past the end of the array yields:
it divides `coord[0]`, the through-slice coordinate, by `TextureSize[1]`.  With
the axes in the other order, `(2, 1)`, the four first coordinates are again one
and the same number, computed from the out-of-bounds read. -/
theorem C10_general_polygon_disagrees_off_axis (oob : Int) :
    DimensionIndices 0 1 2 ∧
    (RenderPolygon
        { dims := (1, 2), TextureSize := (10, 20), oob := oob, DataSpacing := (1, 1, 1),
          DataOrigin := (0, 0, 0), invDirection := fun c => c,
          makeTextureGeometry := fun _ => ([], []) }
        { points := [], tris := [], tcoords := [] } true
        (some [(5, -1 / 2, -1 / 2), (5, 19 / 2, -1 / 2), (5, 19 / 2, 39 / 2), (5, -1 / 2, 39 / 2)])
        (Extent.mk 5 5 0 9 0 19)).1.tcoords.map Prod.fst =
      [11 / 40, 11 / 40, 11 / 40, 11 / 40] ∧
    DimensionIndices 0 2 1 ∧
    (RenderPolygon
        { dims := (2, 1), TextureSize := (20, 10), oob := oob, DataSpacing := (1, 1, 1),
          DataOrigin := (0, 0, 0), invDirection := fun c => c,
          makeTextureGeometry := fun _ => ([], []) }
        { points := [], tris := [], tcoords := [] } true
        (some [(5, -1 / 2, -1 / 2), (5, 19 / 2, -1 / 2), (5, 19 / 2, 39 / 2), (5, -1 / 2, 39 / 2)])
        (Extent.mk 5 5 0 9 0 19)).1.tcoords.map Prod.fst =
      [11 / 2 / (oob : ℚ), 11 / 2 / (oob : ℚ), 11 / 2 / (oob : ℚ), 11 / 2 / (oob : ℚ)] := by
  refine ⟨by decide, ?_, by decide, ?_⟩
  · simp [RenderPolygon, polygonTCoord, textureSizeAt, Point3.get, Extent.get]
    norm_num
  · simp [RenderPolygon, polygonTCoord, textureSizeAt, Point3.get, Extent.get]
    norm_num

/-! ## Device maxima of at least 256 -/

/-- C17: for every orientation in {0,1,2}, every extent and every device maximum
of at least 256, `RecursiveRenderTexturedPolygon` never reaches the case in which
a region neither fits nor is split (no extent is dropped); the extents passed to
`RenderTexturedPolygon` are pairwise disjoint, their union is exactly the
original extent, and each has both in-plane sizes at most the device maximum. -/
theorem C17_nothing_dropped_when_max_ge_256 (orientation : Int) (xdim ydim : Nat)
    (maxSize : Int) (extent : Extent) (recursive : Bool)
    (hdims : DimensionIndices orientation xdim ydim) (hmax : 256 ≤ maxSize) :
    (RecursiveRenderTexturedPolygon (xdim, ydim) maxSize extent recursive).dropped = [] ∧
    (RecursiveRenderTexturedPolygon (xdim, ydim) maxSize extent recursive).leaves.Pairwise
      Extent.Disjoint ∧
    (∀ i j k : Int, extent.Contains i j k ↔
      ∃ l ∈ (RecursiveRenderTexturedPolygon (xdim, ydim) maxSize extent recursive).leaves,
        l.Contains i j k) ∧
    (∀ l ∈ (RecursiveRenderTexturedPolygon (xdim, ydim) maxSize extent recursive).leaves,
      l.size xdim ≤ maxSize ∧ l.size ydim ≤ maxSize) := by
  obtain ⟨hl, hd, hp, hc⟩ :=
    partitionOf_render (xdim, ydim) maxSize hdims.2.1 hdims.2.2.1 hdims.2.2.2.1 extent recursive
  have hnone : (RecursiveRenderTexturedPolygon (xdim, ydim) maxSize extent recursive).dropped
      = [] := by
    apply List.eq_nil_iff_forall_not_mem.2
    intro d hmem
    obtain ⟨h1, h2, h3⟩ := hd d hmem
    simp only at h1 h2 h3
    omega
  rw [hnone, List.append_nil] at hp hc
  exact ⟨hnone, hp, hc, hl⟩

/-- Witness of C17: a 5000 x 3000 slice through axis 1 with device maximum 1024 is
cut into 32 pieces. -/
theorem C17_nothing_dropped_when_max_ge_256_witness :
    DimensionIndices 1 0 2 ∧ (256 : Int) ≤ 1024 ∧
    (RecursiveRenderTexturedPolygon (0, 2) 1024 (Extent.mk 0 4999 7 7 0 2999) false).leaves.length
      = 32 ∧
    (RecursiveRenderTexturedPolygon (0, 2) 1024 (Extent.mk 0 4999 7 7 0 2999) false).dropped
      = [] ∧
    (∀ i j k : Int, (Extent.mk 0 4999 7 7 0 2999).Contains i j k ↔
      ∃ l ∈ (RecursiveRenderTexturedPolygon (0, 2) 1024
          (Extent.mk 0 4999 7 7 0 2999) false).leaves,
        l.Contains i j k) :=
  ⟨by decide, by decide, by decide,
    (C17_nothing_dropped_when_max_ge_256 1 0 2 1024 (Extent.mk 0 4999 7 7 0 2999) false
      (by decide) (by decide)).1,
    (C17_nothing_dropped_when_max_ge_256 1 0 2 1024 (Extent.mk 0 4999 7 7 0 2999) false
      (by decide) (by decide)).2.2.1⟩

/-! ## Bounds of the `TextureSize` reads -/

/-- For a slice through axis 0 or 1 one of the two in-plane axes is axis 2, whatever
order `GetDimensionIndices` returns them in; for a slice through axis 2 both are
below 2. -/
theorem dimensionIndices_bounds (orientation : Int) (xdim ydim : Nat)
    (h : DimensionIndices orientation xdim ydim) :
    (orientation = 2 → xdim < 2 ∧ ydim < 2) ∧
    (orientation ≠ 2 → xdim = 2 ∨ ydim = 2) := by
  obtain ⟨ho, hx, hy, hxy, hxo, hyo⟩ := h
  constructor
  · intro h2
    rw [h2] at hxo hyo
    omega
  · intro h2
    rcases ho with h0 | h1 | h2'
    · rw [h0] at hxo hyo; omega
    · rw [h1] at hxo hyo; omega
    · exact absurd h2' h2

/-- C18 (the code at the failing input): for a slice through axis 0 the in-plane
axes are 1 and 2, and index 2 is outside the two-element `TextureSize` array.
With extent `[5,5,0,9,0,19]`, `TextureSize = (10, 20)`, unit spacing, zero origin
and identity direction, the second texture coordinate of the polygon point
`(5, 19/2, 39/2)` is `10 / TextureSize[2]`: it is computed from whatever the read
past the end of the array yields, not from a texture dimension. -/
theorem C18_texture_size_read_past_end (oob : Int) :
    DimensionIndices 0 1 2 ∧ ¬ ((2 : Nat) < 2) ∧
    textureSizeAt (10, 20) oob 2 = oob ∧
    (polygonTCoord
        { dims := (1, 2), TextureSize := (10, 20), oob := oob, DataSpacing := (1, 1, 1),
          DataOrigin := (0, 0, 0), invDirection := fun c => c,
          makeTextureGeometry := fun _ => ([], []) }
        (Extent.mk 5 5 0 9 0 19) (5, 19 / 2, 39 / 2)).2 = 10 / (oob : ℚ) := by
  refine ⟨by decide, by decide, rfl, ?_⟩
  simp [polygonTCoord, textureSizeAt, Point3.get, Extent.get]
  norm_num

/-! ## Null collaborators -/

/-- C14 (as stated, refuted): the stored render window is window 1 and nothing
changed since the last load at time 10.  Given a null image property,
`RenderTexturedPolygon` does not return early: it calls `RenderPolygon`, a draw.
Given a null property while a reload is due (`recursive = true`), or while the
background is enabled, it dereferences the null pointer.  Given a renderer whose
render window is null it still calls `RenderPolygon`, and
`RecursiveRenderTexturedPolygon` dereferences the null window in `TextureSizeOK`. -/
theorem C14_null_collaborator_not_checked :
    (RenderTexturedPolygon
        { mapperMTime := 3, inputMTime := 4, makeTextureData := fun e => (e.size 0, e.size 1, 3),
          reloadStamps := 7 }
        { globalTime := 20, LoadTime := 10, RenderWindow := some 1, TextureSize := (4, 4),
          TextureBytesPerPixel := 1, LastOrientation := 2, LastSliceNumber := 5,
          Orientation := 2, SliceNumber := 5, PassColorData := false,
          ExactPixelMatch := false, SliceFacesCamera := false, Background := false,
          Points := none }
        (some { id := 1, contextCreationTime := 2 }) none
        (Extent.mk 0 9 0 19 5 5) false).map (fun r => r.2) =
      some [Event.renderPolygon none (Extent.mk 0 9 0 19 5 5)] ∧
    RenderTexturedPolygon
        { mapperMTime := 3, inputMTime := 4, makeTextureData := fun e => (e.size 0, e.size 1, 3),
          reloadStamps := 7 }
        { globalTime := 20, LoadTime := 10, RenderWindow := some 1, TextureSize := (4, 4),
          TextureBytesPerPixel := 1, LastOrientation := 2, LastSliceNumber := 5,
          Orientation := 2, SliceNumber := 5, PassColorData := false,
          ExactPixelMatch := false, SliceFacesCamera := false, Background := false,
          Points := none }
        (some { id := 1, contextCreationTime := 2 }) none
        (Extent.mk 0 9 0 19 5 5) true = none ∧
    RenderTexturedPolygon
        { mapperMTime := 3, inputMTime := 4, makeTextureData := fun e => (e.size 0, e.size 1, 3),
          reloadStamps := 7 }
        { globalTime := 20, LoadTime := 10, RenderWindow := some 1, TextureSize := (4, 4),
          TextureBytesPerPixel := 1, LastOrientation := 2, LastSliceNumber := 5,
          Orientation := 2, SliceNumber := 5, PassColorData := false,
          ExactPixelMatch := false, SliceFacesCamera := false, Background := true,
          Points := none }
        (some { id := 1, contextCreationTime := 2 }) none
        (Extent.mk 0 9 0 19 5 5) false = none ∧
    (RenderTexturedPolygon
        { mapperMTime := 3, inputMTime := 4, makeTextureData := fun e => (e.size 0, e.size 1, 3),
          reloadStamps := 7 }
        { globalTime := 20, LoadTime := 10, RenderWindow := some 1, TextureSize := (4, 4),
          TextureBytesPerPixel := 1, LastOrientation := 2, LastSliceNumber := 5,
          Orientation := 2, SliceNumber := 5, PassColorData := false,
          ExactPixelMatch := false, SliceFacesCamera := false, Background := false,
          Points := none }
        none (some { mtime := 5, lookupTableMTime := some 6, nearestInterpolation := true })
        (Extent.mk 0 9 0 19 5 5) false).map (fun r => r.2) =
      some [Event.renderPolygon none (Extent.mk 0 9 0 19 5 5)] ∧
    RecursiveRender
        { mapperMTime := 3, inputMTime := 4, makeTextureData := fun e => (e.size 0, e.size 1, 3),
          reloadStamps := 7 }
        (0, 1) 256
        { globalTime := 20, LoadTime := 10, RenderWindow := some 1, TextureSize := (4, 4),
          TextureBytesPerPixel := 1, LastOrientation := 2, LastSliceNumber := 5,
          Orientation := 2, SliceNumber := 5, PassColorData := false,
          ExactPixelMatch := false, SliceFacesCamera := false, Background := false,
          Points := none }
        none (some { mtime := 5, lookupTableMTime := some 6, nearestInterpolation := true })
        (Extent.mk 0 9 0 19 5 5) false = none := by
  decide

/-- C14 (amended): a null image property does not make `RenderTexturedPolygon`
return early.  With a non-null render window, when no texture reload is due and
the background is disabled, the null property only counts as modification time 0
(lines 244-260 test it before use), the cached texture is kept, and
`RenderPolygon` is called for the extent exactly as for a non-null property, for
every extent and every such cache state. -/
theorem C14_null_property_still_draws (env : RenderEnv) (m : Mapper) (w : RenderWindowInfo)
    (extent : Extent) (recursive : Bool)
    (hr : needsReload env m none recursive = false) (hb : m.Background = false) :
    ∃ m' : Mapper,
      RenderTexturedPolygon env m (some w) none extent recursive =
        some (m', [Event.renderPolygon
          (if m.ExactPixelMatch && m.SliceFacesCamera then none else m.Points) extent]) ∧
      m'.LoadTime = m.LoadTime ∧ m'.TextureSize = m.TextureSize ∧
      m'.TextureBytesPerPixel = m.TextureBytesPerPixel ∧ m'.RenderWindow = some w.id := by
  unfold RenderTexturedPolygon
  rw [contextChanged_some]
  by_cases hc : some w.id ≠ m.RenderWindow ∨ w.contextCreationTime > m.LoadTime
  · rw [decide_eq_true hc]
    simp only [hr, hb, if_true, Bool.false_eq_true, if_false]
    exact ⟨_, rfl, rfl, rfl, rfl, rfl⟩
  · rw [decide_eq_false hc]
    have hid : m.RenderWindow = some w.id := by
      by_contra hne
      exact hc (Or.inl (fun h => hne h.symm))
    simp only [hr, hb, if_true, Bool.false_eq_true, if_false]
    exact ⟨_, rfl, rfl, rfl, rfl, hid⟩

/-- Witness of C14 (amended): a null property, nothing modified since the last load. -/
theorem C14_null_property_still_draws_witness :
    ∃ m' : Mapper,
      RenderTexturedPolygon
        { mapperMTime := 3, inputMTime := 4, makeTextureData := fun e => (e.size 0, e.size 1, 3),
          reloadStamps := 7 }
        { globalTime := 20, LoadTime := 10, RenderWindow := some 1, TextureSize := (4, 4),
          TextureBytesPerPixel := 1, LastOrientation := 2, LastSliceNumber := 5,
          Orientation := 2, SliceNumber := 5, PassColorData := false,
          ExactPixelMatch := false, SliceFacesCamera := false, Background := false,
          Points := none }
        (some { id := 1, contextCreationTime := 2 }) none (Extent.mk 0 9 0 19 5 5) false =
        some (m', [Event.renderPolygon
          (if false && false then none else none) (Extent.mk 0 9 0 19 5 5)]) ∧
      m'.LoadTime = 10 ∧ m'.TextureSize = (4, 4) ∧
      m'.TextureBytesPerPixel = 1 ∧ m'.RenderWindow = some 1 :=
  C14_null_property_still_draws
    { mapperMTime := 3, inputMTime := 4, makeTextureData := fun e => (e.size 0, e.size 1, 3),
      reloadStamps := 7 }
    { globalTime := 20, LoadTime := 10, RenderWindow := some 1, TextureSize := (4, 4),
      TextureBytesPerPixel := 1, LastOrientation := 2, LastSliceNumber := 5,
      Orientation := 2, SliceNumber := 5, PassColorData := false,
      ExactPixelMatch := false, SliceFacesCamera := false, Background := false,
      Points := none }
    { id := 1, contextCreationTime := 2 } (Extent.mk 0 9 0 19 5 5) false
    (by decide) (by decide)

/-! ## The triangle pattern -/

/-- For a loop index that is not negative the truncating operations of C++ are
floor division and remainder. -/
theorem triangleCell_eq (numTris i : Int) (hi : 0 ≤ i) :
    triangleCell numTris i =
      (numTris + 1 - (i + 1) / 2, i / 2, if i % 2 = 0 then numTris - i / 2 else i / 2 + 1) := by
  unfold triangleCell
  rw [Int.tdiv_eq_ediv (by omega) (by decide), Int.tdiv_eq_ediv hi (by decide),
    Int.tmod_eq_emod hi (by decide)]

theorem mem_buildTris (numTris : Int) (t : Int × Int × Int) :
    t ∈ buildTris numTris ↔ ∃ i : Nat, (i : Int) < numTris ∧ triangleCell numTris i = t := by
  unfold buildTris
  simp only [List.mem_map, List.mem_range]
  constructor
  · rintro ⟨i, hi, h⟩
    exact ⟨i, by omega, h⟩
  · rintro ⟨i, hi, h⟩
    exact ⟨i, by omega, h⟩

/-- Which triangle holds the polygon edge that starts at point `j`. -/
theorem triangle_edge_arith (N i j : Int) (hN : 3 ≤ N) (hi0 : 0 ≤ i) (hi : i < N - 2)
    (hj : j < N) :
    ((j = N - 2 + 1 - (i + 1) / 2 ∨ j = i / 2 ∨
        j = (if i % 2 = 0 then N - 2 - i / 2 else i / 2 + 1)) ∧
      ((if j + 1 = N then 0 else j + 1) = N - 2 + 1 - (i + 1) / 2 ∨
        (if j + 1 = N then 0 else j + 1) = i / 2 ∨
        (if j + 1 = N then 0 else j + 1) = (if i % 2 = 0 then N - 2 - i / 2 else i / 2 + 1))) ↔
      i = (if j + 1 = N then 0 else if 2 * j + 1 ≤ N - 3 then 2 * j + 1
        else if N - 1 ≤ 2 * j then 2 * (N - 2 - j) else N - 3) := by
  split_ifs <;> omega

theorem succ_mod_cast (N j : Nat) (hj : j < N) :
    (((j + 1) % N : Nat) : Int) = if (j : Int) + 1 = (N : Int) then 0 else (j : Int) + 1 := by
  by_cases h : j + 1 = N
  · rw [if_pos (by omega), h, Nat.mod_self]; rfl
  · rw [if_neg (by omega), Nat.mod_eq_of_lt (by omega)]; push_cast; rfl

/-- C16: the triangle pattern of `RenderPolygon` triangulates a polygon of any
number `N >= 3` of points.  With `numTris = N - 2`, triangle `i` is
`(numTris + 1 - (i+1)/2, i/2, numTris - i/2 if i is even else i/2 + 1)` with
integer division; every index of every triangle lies in `[0, N-1]`; the three
indices of a triangle are pairwise distinct; every polygon edge
`{j, (j+1) mod N}` belongs to exactly one triangle; and these `N - 2` triangles
are what `RenderPolygon` puts into a cell array of another size.  For `N = 4` the
triangles are `(3,0,2)` and `(2,0,1)`. -/
theorem C16_triangle_pattern_valid (N : Nat) (hN : 3 ≤ N) :
    (buildTris ((N : Int) - 2)).length = N - 2 ∧
    (∀ i : Nat, i < N - 2 →
      (buildTris ((N : Int) - 2)).get? i =
        some ((N : Int) - 2 + 1 - ((i : Int) + 1) / 2, (i : Int) / 2,
          if (i : Int) % 2 = 0 then (N : Int) - 2 - (i : Int) / 2 else (i : Int) / 2 + 1)) ∧
    (∀ t ∈ buildTris ((N : Int) - 2),
      (0 ≤ t.1 ∧ t.1 ≤ (N : Int) - 1) ∧ (0 ≤ t.2.1 ∧ t.2.1 ≤ (N : Int) - 1) ∧
      (0 ≤ t.2.2 ∧ t.2.2 ≤ (N : Int) - 1) ∧
      t.1 ≠ t.2.1 ∧ t.1 ≠ t.2.2 ∧ t.2.1 ≠ t.2.2) ∧
    (∀ j : Nat, j < N →
      ∃! i : Nat, i < N - 2 ∧
        hasEdge (triangleCell ((N : Int) - 2) (i : Int)) (j : Int) (((j + 1) % N : Nat) : Int)) ∧
    (∀ (g : GeometryEnv) (poly : PolyData) (textured : Bool) (ps : List Point3)
      (extent : Extent), ps.length = N → poly.tris.length ≠ N - 2 →
      (RenderPolygon g poly textured (some ps) extent).1.tris = buildTris ((N : Int) - 2)) ∧
    buildTris ((4 : Int) - 2) = [(3, 0, 2), (2, 0, 1)] := by
  refine ⟨?_, ?_, ?_, ?_, ?_, by decide⟩
  · rw [buildTris_length]; omega
  · intro i hi
    unfold buildTris
    rw [List.get?_eq_getElem?, List.getElem?_map, List.getElem?_range (by omega)]
    simp only [Option.map_some']
    rw [triangleCell_eq _ _ (by omega)]
  · intro t ht
    obtain ⟨i, hi, rfl⟩ := (mem_buildTris _ _).1 ht
    rw [triangleCell_eq _ _ (by omega)]
    simp only
    split_ifs <;> omega
  · intro j hj
    have harith := fun (i : Nat) (hi : i < N - 2) =>
      triangle_edge_arith (N : Int) (i : Int) (j : Int) (by omega) (by omega) (by omega) (by omega)
    have hrange : 0 ≤ (if (j : Int) + 1 = (N : Int) then 0
        else if 2 * (j : Int) + 1 ≤ (N : Int) - 3 then 2 * (j : Int) + 1
        else if (N : Int) - 1 ≤ 2 * (j : Int) then 2 * ((N : Int) - 2 - (j : Int))
        else (N : Int) - 3) ∧
      (if (j : Int) + 1 = (N : Int) then 0
        else if 2 * (j : Int) + 1 ≤ (N : Int) - 3 then 2 * (j : Int) + 1
        else if (N : Int) - 1 ≤ 2 * (j : Int) then 2 * ((N : Int) - 2 - (j : Int))
        else (N : Int) - 3) < (N : Int) - 2 := by
      split_ifs <;> omega
    have hedge : ∀ i : Nat, i < N - 2 →
        (hasEdge (triangleCell ((N : Int) - 2) (i : Int)) (j : Int)
            (((j + 1) % N : Nat) : Int) ↔
          (i : Int) = (if (j : Int) + 1 = (N : Int) then 0
            else if 2 * (j : Int) + 1 ≤ (N : Int) - 3 then 2 * (j : Int) + 1
            else if (N : Int) - 1 ≤ 2 * (j : Int) then 2 * ((N : Int) - 2 - (j : Int))
            else (N : Int) - 3)) := by
      intro i hi
      rw [← harith i hi, triangleCell_eq _ _ (by omega), succ_mod_cast N j hj]
      rfl
    generalize (if (j : Int) + 1 = (N : Int) then 0
        else if 2 * (j : Int) + 1 ≤ (N : Int) - 3 then 2 * (j : Int) + 1
        else if (N : Int) - 1 ≤ 2 * (j : Int) then 2 * ((N : Int) - 2 - (j : Int))
        else (N : Int) - 3) = f at hrange hedge
    have hf : (f.toNat : Int) = f := Int.toNat_of_nonneg hrange.1
    refine ⟨f.toNat, ⟨by omega, (hedge f.toNat (by omega)).2 hf⟩, ?_⟩
    rintro i ⟨hi, he⟩
    have := (hedge i hi).1 he
    omega
  · intro g poly textured ps extent hlen hne
    rw [RenderPolygon_tris]
    simp only [hlen]
    rw [if_pos]
    simp only [PolyData.numberOfConnectivityIds, ne_eq]
    omega

/-- Witness of C16: the pentagon, triangles `(4,0,3)`, `(3,0,1)`, `(3,1,2)`. -/
theorem C16_triangle_pattern_valid_witness :
    (3 ≤ 5) ∧ buildTris ((5 : Nat) - 2 : Int) = [(4, 0, 3), (3, 0, 1), (3, 1, 2)] ∧
    (∀ j : Nat, j < 5 →
      ∃! i : Nat, i < 5 - 2 ∧
        hasEdge (triangleCell ((5 : Nat) - 2 : Int) (i : Int)) (j : Int)
          (((j + 1) % 5 : Nat) : Int)) :=
  ⟨by decide, by decide, (C16_triangle_pattern_valid 5 (by decide)).2.2.2.1⟩

/-! ## Polygons without points -/

/-- C15 (as stated, refuted): the actor's cell array holds the two triangles of a
quad; `RenderPolygon` is given a point set with 0 points.  It issues no draw, but
it does not leave the polygon buffer as it was: `numTris` is `-2`, the size of the
cell array differs from `3 * numTris`, and the cell array is emptied before the
early return. -/
theorem C15_empty_polygon_clears_triangles :
    (RenderPolygon
        { dims := (0, 1), TextureSize := (10, 10), oob := 0, DataSpacing := (1, 1, 1),
          DataOrigin := (0, 0, 0), invDirection := fun c => c,
          makeTextureGeometry := fun _ => ([], []) }
        { points := [(0, 0, 0), (1, 0, 0), (1, 1, 0), (0, 1, 0)],
          tris := [(3, 0, 2), (2, 0, 1)], tcoords := [(0, 0), (1, 0), (1, 1), (0, 1)] }
        true (some []) (Extent.mk 0 9 0 9 5 5)).2 = false ∧
    (RenderPolygon
        { dims := (0, 1), TextureSize := (10, 10), oob := 0, DataSpacing := (1, 1, 1),
          DataOrigin := (0, 0, 0), invDirection := fun c => c,
          makeTextureGeometry := fun _ => ([], []) }
        { points := [(0, 0, 0), (1, 0, 0), (1, 1, 0), (0, 1, 0)],
          tris := [(3, 0, 2), (2, 0, 1)], tcoords := [(0, 0), (1, 0), (1, 1), (0, 1)] }
        true (some []) (Extent.mk 0 9 0 9 5 5)).1.tris = [] ∧
    (RenderPolygon
        { dims := (0, 1), TextureSize := (10, 10), oob := 0, DataSpacing := (1, 1, 1),
          DataOrigin := (0, 0, 0), invDirection := fun c => c,
          makeTextureGeometry := fun _ => ([], []) }
        { points := [(0, 0, 0), (1, 0, 0), (1, 1, 0), (0, 1, 0)],
          tris := [(3, 0, 2), (2, 0, 1)], tcoords := [(0, 0), (1, 0), (1, 1), (0, 1)] }
        true (some []) (Extent.mk 0 9 0 9 5 5)).1.tris ≠ [(3, 0, 2), (2, 0, 1)] :=
  ⟨rfl, rfl, by decide⟩

/-- C15 (amended): given a non-null point set with 0 points, `RenderPolygon` and
`RenderBackground` issue no draw call on the actor's mapper and raise no error;
`RenderBackground` leaves the actor's polygon buffer as it was, and
`RenderPolygon` leaves its points and texture coordinates as they were. -/
theorem C15_empty_polygon_no_draw (g : GeometryEnv) (poly : PolyData) (textured : Bool)
    (extent : Extent) (K : Type) [LinearOrderedField K] (sqrt : K → K) (dims : Nat × Nat)
    (coords12 : List K) (background : PolyBuffer K) :
    (RenderPolygon g poly textured (some []) extent).2 = false ∧
    (RenderPolygon g poly textured (some []) extent).1.points = poly.points ∧
    (RenderPolygon g poly textured (some []) extent).1.tcoords = poly.tcoords ∧
    RenderBackground sqrt dims coords12 background (some []) = (background, false) := by
  refine ⟨?_, ?_, ?_, rfl⟩
  · unfold RenderPolygon
    simp only [List.length_nil, ne_eq, not_true_eq_false, if_false]
  · unfold RenderPolygon
    simp only [List.length_nil, ne_eq, not_true_eq_false, if_false]
    split_ifs <;> rfl
  · unfold RenderPolygon
    simp only [List.length_nil, ne_eq, not_true_eq_false, if_false]
    split_ifs <;> rfl

/-! ## The miter join -/

/-- C19: the border offset of the general-polygon case of `RenderBackground` is a
miter join.  For all unit vectors `(dx0, dy0)` and `(dx1, dy1)` that are not
exactly opposite: the divisor selected by `|dx0 + dx1| > |dy0 + dy1|` is not
zero; the two formulas for `t` agree whenever both divisors are not zero; the
offset direction `(t*dx0 + dy0, t*dy0 - dx0)` has dot product exactly 1 with both
edge normals `(dy0, -dx0)` and `(dy1, -dx1)`; and so the offset added to the
vertex has dot product `borderThickness` with both normals, which is its
perpendicular distance from the lines of both adjacent edges. -/
theorem C19_border_offset_is_miter (K : Type) [LinearOrderedField K] (dx0 dy0 dx1 dy1 : K)
    (h0 : dx0 * dx0 + dy0 * dy0 = 1) (h1 : dx1 * dx1 + dy1 * dy1 = 1)
    (hopp : ¬ (dx1 = -dx0 ∧ dy1 = -dy0)) :
    (if |dx0 + dx1| > |dy0 + dy1| then dx0 + dx1 else dy0 + dy1) ≠ 0 ∧
    (dx0 + dx1 ≠ 0 → dy0 + dy1 ≠ 0 →
      (dy1 - dy0) / (dx0 + dx1) = (dx0 - dx1) / (dy0 + dy1)) ∧
    (miterT dx0 dy0 dx1 dy1 * dx0 + dy0) * dy0 +
      (miterT dx0 dy0 dx1 dy1 * dy0 - dx0) * (-dx0) = 1 ∧
    (miterT dx0 dy0 dx1 dy1 * dx0 + dy0) * dy1 +
      (miterT dx0 dy0 dx1 dy1 * dy0 - dx0) * (-dx1) = 1 ∧
    ((miterT dx0 dy0 dx1 dy1 * dx0 + dy0) * borderThickness K) * dy0 +
      ((miterT dx0 dy0 dx1 dy1 * dy0 - dx0) * borderThickness K) * (-dx0) =
        borderThickness K ∧
    ((miterT dx0 dy0 dx1 dy1 * dx0 + dy0) * borderThickness K) * dy1 +
      ((miterT dx0 dy0 dx1 dy1 * dy0 - dx0) * borderThickness K) * (-dx1) =
        borderThickness K := by
  have hsel : (if |dx0 + dx1| > |dy0 + dy1| then dx0 + dx1 else dy0 + dy1) ≠ 0 := by
    split_ifs with hc
    · intro hz
      rw [hz, abs_zero] at hc
      exact absurd hc (not_lt.2 (abs_nonneg _))
    · intro hz
      rw [hz, abs_zero, gt_iff_lt, not_lt] at hc
      have hx : dx0 + dx1 = 0 := abs_eq_zero.1 (le_antisymm hc (abs_nonneg _))
      exact hopp ⟨by linear_combination hx, by linear_combination hz⟩
  have hn0 : (miterT dx0 dy0 dx1 dy1 * dx0 + dy0) * dy0 +
      (miterT dx0 dy0 dx1 dy1 * dy0 - dx0) * (-dx0) = 1 := by
    linear_combination h0
  have hn1 : (miterT dx0 dy0 dx1 dy1 * dx0 + dy0) * dy1 +
      (miterT dx0 dy0 dx1 dy1 * dy0 - dx0) * (-dx1) = 1 := by
    unfold miterT
    split_ifs with hc
    · rw [if_pos hc] at hsel
      field_simp
      linear_combination dx0 * h1 + dx1 * h0
    · rw [if_neg hc] at hsel
      field_simp
      linear_combination dy1 * h0 + dy0 * h1
  refine ⟨hsel, ?_, hn0, hn1, ?_, ?_⟩
  · intro hx hy
    field_simp
    linear_combination h1 - h0
  · linear_combination borderThickness K * hn0
  · linear_combination borderThickness K * hn1

/-- Witness of C19: the edge directions `(3/5, 4/5)` and `(-4/5, 3/5)`, a left turn
by a right angle. -/
theorem C19_border_offset_is_miter_witness :
    ((3 / 5 : ℚ) * (3 / 5) + (4 / 5) * (4 / 5) = 1) ∧
    ((-4 / 5 : ℚ) * (-4 / 5) + (3 / 5) * (3 / 5) = 1) ∧
    ¬ ((-4 / 5 : ℚ) = -(3 / 5) ∧ (3 / 5 : ℚ) = -(4 / 5)) ∧
    (miterT (3 / 5 : ℚ) (4 / 5) (-4 / 5) (3 / 5) * (3 / 5) + 4 / 5) * (3 / 5) +
      (miterT (3 / 5 : ℚ) (4 / 5) (-4 / 5) (3 / 5) * (4 / 5) - 3 / 5) * (-(-4 / 5)) = 1 :=
  ⟨by norm_num, by norm_num, by norm_num,
    (C19_border_offset_is_miter ℚ (3 / 5) (4 / 5) (-4 / 5) (3 / 5)
      (by norm_num) (by norm_num) (by norm_num)).2.2.2.1⟩

/-! ## The default border -/

theorem length_setNumberOfPoints {K : Type} [Zero K] (n : Nat) (pts : List (K × K × K)) :
    (setNumberOfPoints n pts).length = n := by
  unfold setNumberOfPoints
  simp only [List.length_append, List.length_take, List.length_replicate]
  omega

theorem list_of_length_ten {α : Type} (l : List α) (h : l.length = 10) :
    ∃ a0 a1 a2 a3 a4 a5 a6 a7 a8 a9, l = [a0, a1, a2, a3, a4, a5, a6, a7, a8, a9] := by
  rcases l with _ | ⟨a0, _ | ⟨a1, _ | ⟨a2, _ | ⟨a3, _ | ⟨a4, _ | ⟨a5, _ | ⟨a6, _ | ⟨a7,
    _ | ⟨a8, _ | ⟨a9, _ | ⟨a10, l⟩⟩⟩⟩⟩⟩⟩⟩⟩⟩⟩ <;> simp at h
  exact ⟨a0, a1, a2, a3, a4, a5, a6, a7, a8, a9, rfl⟩

/-- The ten points of the default border: the four corners, the first corner
again, and the five offset points. -/
theorem RenderBackground_default_points {K : Type} [LinearOrderedField K] (sqrt : K → K)
    (xdim ydim : Nat) (hx : xdim < 3) (hy : ydim < 3) (hxy : xdim ≠ ydim)
    (p0 p1 p2 p3 : K × K × K) (poly : PolyBuffer K) :
    (RenderBackground sqrt (xdim, ydim) (quadCoords p0 p1 p2 p3) poly none).1.points =
      [p0, p1, p2, p3, p0,
        quadOffset xdim ydim (quadCenter p0 p1 p2 p3) p0,
        quadOffset xdim ydim (quadCenter p0 p1 p2 p3) p1,
        quadOffset xdim ydim (quadCenter p0 p1 p2 p3) p2,
        quadOffset xdim ydim (quadCenter p0 p1 p2 p3) p3,
        quadOffset xdim ydim (quadCenter p0 p1 p2 p3) p0] := by
  obtain ⟨a0, a1, a2, a3, a4, a5, a6, a7, a8, a9, hl⟩ :=
    list_of_length_ten _ (length_setNumberOfPoints 10 poly.points)
  unfold RenderBackground
  simp only [hl]
  interval_cases xdim <;> interval_cases ydim <;>
    first
    | exact absurd rfl hxy
    | simp only [List.foldl_cons, List.foldl_nil, backgroundQuadSide, arrayGet, quadCoords,
        List.cons_append, List.nil_append, Nat.reduceMul, Nat.reduceAdd, List.getD_cons_succ,
        List.getD_cons_zero, List.set_cons_succ, List.set_cons_zero, quadOffset, quadCenter,
        coordAt, Nat.reduceEqDiff, or_true, true_or, or_false, if_true, if_false,
        OfNat.ofNat_ne_zero, OfNat.zero_ne_ofNat, OfNat.ofNat_ne_one, OfNat.one_ne_ofNat,
        one_ne_zero, zero_ne_one, or_self, Prod.mk.eta]

theorem borderThickness_pos (K : Type) [LinearOrderedField K] : 0 < borderThickness K := by
  unfold borderThickness; norm_num

/-- Moving a coordinate by the border thickness away from the center increases
its squared distance from the center. -/
theorem offset_coord_farther {K : Type} [LinearOrderedField K] (c ctr : K) :
    (c + borderThickness K * (if c - ctr ≥ 0 then 1 else -1) - ctr) ^ 2 > (c - ctr) ^ 2 := by
  have hB := borderThickness_pos K
  split_ifs with h
  · nlinarith
  · rw [not_le] at h
    nlinarith

/-- What `quadOffset` does to the three coordinates, and to the distance. -/
theorem quadOffset_spec {K : Type} [LinearOrderedField K] (orientation : Int)
    (xdim ydim : Nat) (hd : DimensionIndices orientation xdim ydim) (center p : K × K × K) :
    coordAt (quadOffset xdim ydim center p) xdim =
      coordAt p xdim +
        borderThickness K * (if coordAt p xdim - coordAt center xdim ≥ 0 then 1 else -1) ∧
    coordAt (quadOffset xdim ydim center p) ydim =
      coordAt p ydim +
        borderThickness K * (if coordAt p ydim - coordAt center ydim ≥ 0 then 1 else -1) ∧
    coordAt (quadOffset xdim ydim center p) orientation.toNat = coordAt p orientation.toNat ∧
    distSq (quadOffset xdim ydim center p) center > distSq p center := by
  obtain ⟨ho, hx, hy, hxy, hxo, hyo⟩ := hd
  have h1 := offset_coord_farther p.1 center.1
  have h2 := offset_coord_farther p.2.1 center.2.1
  have h3 := offset_coord_farther p.2.2 center.2.2
  rcases ho with rfl | rfl | rfl <;> interval_cases xdim <;> interval_cases ydim <;>
    first
    | exact absurd rfl hxy
    | exact absurd rfl hxo
    | exact absurd rfl hyo
    | (refine ⟨?_, ?_, ?_, ?_⟩
       · simp [quadOffset, coordAt]
       · simp [quadOffset, coordAt]
       · simp [quadOffset, coordAt]
       · simp only [distSq, quadOffset, coordAt, Nat.reduceEqDiff, or_true, true_or, or_false,
           if_true, if_false, OfNat.ofNat_ne_zero, OfNat.zero_ne_ofNat, OfNat.ofNat_ne_one,
           OfNat.one_ne_ofNat, one_ne_zero, zero_ne_one, or_self]
         linarith)

/-- C12: in the default case of `RenderBackground`, for every four quad corners
and every orientation in {0,1,2}, each offset point (index `k + 5`, `k = 0..4`)
is its source point (index `k`, a quad corner, corner 0 again for `k = 4`) moved
by the border thickness `1e6` along each of the two in-plane axes, away from the
centroid of the four corners (towards larger values when level with it), with
its through-axis coordinate unchanged; it lies strictly farther from the
centroid than the source point, in exact arithmetic. -/
theorem C12_default_offset_farther (K : Type) [LinearOrderedField K] (sqrt : K → K)
    (orientation : Int) (xdim ydim : Nat) (hd : DimensionIndices orientation xdim ydim)
    (p0 p1 p2 p3 : K × K × K) (poly : PolyBuffer K) (k : Nat) (hk : k < 5) :
    ∃ p q : K × K × K,
      (RenderBackground sqrt (xdim, ydim) (quadCoords p0 p1 p2 p3) poly none).1.points[k]?
        = some p ∧
      (RenderBackground sqrt (xdim, ydim) (quadCoords p0 p1 p2 p3) poly none).1.points[k + 5]?
        = some q ∧
      [p0, p1, p2, p3, p0][k]? = some p ∧
      coordAt q xdim = coordAt p xdim + borderThickness K *
        (if coordAt p xdim - coordAt (quadCenter p0 p1 p2 p3) xdim ≥ 0 then 1 else -1) ∧
      coordAt q ydim = coordAt p ydim + borderThickness K *
        (if coordAt p ydim - coordAt (quadCenter p0 p1 p2 p3) ydim ≥ 0 then 1 else -1) ∧
      coordAt q orientation.toNat = coordAt p orientation.toNat ∧
      distSq q (quadCenter p0 p1 p2 p3) > distSq p (quadCenter p0 p1 p2 p3) := by
  rw [RenderBackground_default_points sqrt xdim ydim hd.2.1 hd.2.2.1 hd.2.2.2.1]
  interval_cases k
  · obtain ⟨h1, h2, h3, h4⟩ := quadOffset_spec orientation xdim ydim hd (quadCenter p0 p1 p2 p3) p0
    exact ⟨p0, _, rfl, rfl, rfl, h1, h2, h3, h4⟩
  · obtain ⟨h1, h2, h3, h4⟩ := quadOffset_spec orientation xdim ydim hd (quadCenter p0 p1 p2 p3) p1
    exact ⟨p1, _, rfl, rfl, rfl, h1, h2, h3, h4⟩
  · obtain ⟨h1, h2, h3, h4⟩ := quadOffset_spec orientation xdim ydim hd (quadCenter p0 p1 p2 p3) p2
    exact ⟨p2, _, rfl, rfl, rfl, h1, h2, h3, h4⟩
  · obtain ⟨h1, h2, h3, h4⟩ := quadOffset_spec orientation xdim ydim hd (quadCenter p0 p1 p2 p3) p3
    exact ⟨p3, _, rfl, rfl, rfl, h1, h2, h3, h4⟩
  · obtain ⟨h1, h2, h3, h4⟩ := quadOffset_spec orientation xdim ydim hd (quadCenter p0 p1 p2 p3) p0
    exact ⟨p0, _, rfl, rfl, rfl, h1, h2, h3, h4⟩

/-- Witness of C12: the corners of a 10 x 10 quad in the plane `z = 5`, third corner. -/
theorem C12_default_offset_farther_witness :
    DimensionIndices 2 0 1 ∧ 2 < 5 ∧
    ∃ p q : ℚ × ℚ × ℚ,
      (RenderBackground (fun x : ℚ => x) (0, 1)
        (quadCoords (0, 0, 5) (10, 0, 5) (10, 10, 5) (0, 10, 5))
        { points := [], tris := [], tcoords := [] } none).1.points[2]? = some p ∧
      (RenderBackground (fun x : ℚ => x) (0, 1)
        (quadCoords (0, 0, 5) (10, 0, 5) (10, 10, 5) (0, 10, 5))
        { points := [], tris := [], tcoords := [] } none).1.points[2 + 5]? = some q ∧
      [((0 : ℚ), (0 : ℚ), (5 : ℚ)), (10, 0, 5), (10, 10, 5), (0, 10, 5), (0, 0, 5)][2]?
        = some p ∧
      coordAt q 0 = coordAt p 0 + borderThickness ℚ *
        (if coordAt p 0 -
          coordAt (quadCenter ((0 : ℚ), (0 : ℚ), (5 : ℚ)) (10, 0, 5) (10, 10, 5) (0, 10, 5)) 0 ≥ 0
          then 1 else -1) ∧
      coordAt q 1 = coordAt p 1 + borderThickness ℚ *
        (if coordAt p 1 -
          coordAt (quadCenter ((0 : ℚ), (0 : ℚ), (5 : ℚ)) (10, 0, 5) (10, 10, 5) (0, 10, 5)) 1 ≥ 0
          then 1 else -1) ∧
      coordAt q (2 : Int).toNat = coordAt p (2 : Int).toNat ∧
      distSq q (quadCenter ((0 : ℚ), (0 : ℚ), (5 : ℚ)) (10, 0, 5) (10, 10, 5) (0, 10, 5)) >
        distSq p (quadCenter ((0 : ℚ), (0 : ℚ), (5 : ℚ)) (10, 0, 5) (10, 10, 5) (0, 10, 5)) :=
  ⟨by decide, by decide,
    C12_default_offset_farther ℚ (fun x : ℚ => x) 2 0 1 (by decide)
      (0, 0, 5) (10, 0, 5) (10, 10, 5) (0, 10, 5)
      { points := [], tris := [], tcoords := [] } 2 (by decide)⟩

/-! ## The border of a polygon -/

/-- What the loop of lines 537-566 has done after `k` passes. -/
theorem borderLoop_invariant {K : Type} [LinearOrderedField K] (sqrt : K → K)
    (ps : List (K × K × K)) (hN : ps.length ≠ 0) (polyPoints : List (K × K × K)) :
    ∀ k : Nat, k ≤ ps.length + 1 →
      ((List.range k).foldl (borderStep sqrt ps) (borderInit sqrt ps polyPoints)).coord =
        ringSource ps k ∧
      (((List.range k).foldl (borderStep sqrt ps) (borderInit sqrt ps polyPoints)).dx0,
        ((List.range k).foldl (borderStep sqrt ps) (borderInit sqrt ps polyPoints)).dy0) =
        edgeDir sqrt (polygonVertex ps (if k = 0 then ps.length - 1 else k - 1))
          (polygonVertex ps k) ∧
      ((List.range k).foldl (borderStep sqrt ps) (borderInit sqrt ps polyPoints)).pts.length =
        ps.length * 2 + 2 ∧
      ∀ i : Nat, i < k →
        ((List.range k).foldl (borderStep sqrt ps) (borderInit sqrt ps polyPoints)).pts[i * 2]? =
          some (ringSource ps i) ∧
        ((List.range k).foldl (borderStep sqrt ps)
          (borderInit sqrt ps polyPoints)).pts[i * 2 + 1]? = some (ringOffset sqrt ps i) := by
  intro k
  induction k with
  | zero =>
    intro _
    have hv0 : polygonVertex ps 0 = ps.getD 0 (0, 0, 0) := by
      unfold polygonVertex; rw [Nat.zero_mod]
    have hvl : polygonVertex ps (ps.length - 1) = ps.getD (ps.length - 1) (0, 0, 0) := by
      unfold polygonVertex; rw [Nat.mod_eq_of_lt (by omega)]
    refine ⟨?_, ?_, ?_, ?_⟩
    · simp only [List.range_zero, List.foldl_nil, borderInit, ringSource, hv0]
    · simp only [List.range_zero, List.foldl_nil, borderInit, edgeDir, if_true, hv0, hvl]
    · simp only [List.range_zero, List.foldl_nil, borderInit, length_setNumberOfPoints]
    · intro i hi; omega
  | succ k ih =>
    intro hk
    obtain ⟨hcoord, hdir, hlen, hpts⟩ := ih (by omega)
    rw [List.range_succ, List.foldl_append]
    simp only [List.foldl_cons, List.foldl_nil]
    generalize (List.range k).foldl (borderStep sqrt ps) (borderInit sqrt ps polyPoints) = st
      at hcoord hdir hlen hpts
    have hdx : st.dx0 = (edgeDir sqrt
        (polygonVertex ps (if k = 0 then ps.length - 1 else k - 1)) (polygonVertex ps k)).1 := by
      rw [← hdir]
    have hdy : st.dy0 = (edgeDir sqrt
        (polygonVertex ps (if k = 0 then ps.length - 1 else k - 1)) (polygonVertex ps k)).2 := by
      rw [← hdir]
    have hnext : ps.getD ((k + 1) % ps.length) (0, 0, 0) = polygonVertex ps (k + 1) := rfl
    refine ⟨?_, ?_, ?_, ?_⟩
    · simp only [borderStep, hnext, hcoord, ringSource]
    · simp only [borderStep, hnext, hcoord, ringSource, edgeDir, Nat.succ_ne_zero, if_false,
        Nat.add_sub_cancel]
    · simp only [borderStep, List.length_set, hlen]
    · intro i hi
      simp only [borderStep, hnext, List.getElem?_set, List.length_set, hlen]
      by_cases hik : i = k
      · subst hik
        rw [if_neg (by omega), if_pos rfl, if_pos (by omega), if_pos rfl, if_pos (by omega)]
        refine ⟨by rw [hcoord], ?_⟩
        simp only [ringOffset, hcoord, hdx, hdy, ringSource, edgeDir]
      · have hi' : i < k := by omega
        rw [if_neg (by omega), if_neg (by omega), if_neg (by omega), if_neg (by omega)]
        exact hpts i hi'

/-- The points and triangles `RenderBackground` leaves for a polygon of at least
one point. -/
theorem RenderBackground_polygon {K : Type} [LinearOrderedField K] (sqrt : K → K)
    (dims : Nat × Nat) (coords12 : List K) (poly : PolyBuffer K) (ps : List (K × K × K))
    (hN : ps.length ≠ 0) :
    (RenderBackground sqrt dims coords12 poly (some ps)).1.points.length = ps.length * 2 + 2 ∧
    (RenderBackground sqrt dims coords12 poly (some ps)).1.tris =
      backgroundPolygonTris ps.length ∧
    (RenderBackground sqrt dims coords12 poly (some ps)).2 = true ∧
    ∀ i : Nat, i ≤ ps.length →
      (RenderBackground sqrt dims coords12 poly (some ps)).1.points[i * 2]? =
        some (ringSource ps i) ∧
      (RenderBackground sqrt dims coords12 poly (some ps)).1.points[i * 2 + 1]? =
        some (ringOffset sqrt ps i) := by
  obtain ⟨_, _, hlen, hpts⟩ :=
    borderLoop_invariant sqrt ps hN poly.points (ps.length + 1) (le_refl _)
  unfold RenderBackground
  simp only [hN, ne_eq, not_false_eq_true, if_true]
  exact ⟨hlen, trivial, trivial, fun i hi => hpts i (by omega)⟩

theorem polygonVertex_length {K : Type} [Zero K] (ps : List (K × K × K)) :
    polygonVertex ps ps.length = polygonVertex ps 0 ∧
    polygonVertex ps (ps.length + 1) = polygonVertex ps 1 := by
  unfold polygonVertex
  rw [Nat.mod_self, Nat.zero_mod, Nat.add_mod_left]
  exact ⟨rfl, rfl⟩

theorem length_backgroundPolygonTris (n : Nat) : (backgroundPolygonTris n).length = 2 * n := by
  unfold backgroundPolygonTris
  induction n with
  | zero => rfl
  | succ n ih =>
    rw [List.range_succ, List.flatMap_append, List.length_append, ih]
    simp
    omega

theorem mem_backgroundPolygonTris (n : Nat) (t : Int × Int × Int)
    (h : t ∈ backgroundPolygonTris n) :
    (0 ≤ t.1 ∧ t.1 < 2 * (n : Int) + 2) ∧ (0 ≤ t.2.1 ∧ t.2.1 < 2 * (n : Int) + 2) ∧
    (0 ≤ t.2.2 ∧ t.2.2 < 2 * (n : Int) + 2) := by
  unfold backgroundPolygonTris at h
  simp only [List.mem_flatMap, List.mem_range, List.mem_cons, List.mem_singleton,
    List.not_mem_nil, or_false] at h
  obtain ⟨i, hi, rfl | rfl⟩ := h <;> simp only <;> omega

/-- C11 (as stated, refuted): for the triangle `(0,0,0)`, `(1,0,7)`, `(0,1,0)` the
point at index 2 of the border is `(1,0,0)`, not input vertex 1: the loop copies
only the x and y of the next vertex into `coord` (lines 562-563) and keeps the z
of vertex 0. -/
theorem C11_ring_point_keeps_z_of_vertex_0 :
    (RenderBackground (fun x : ℚ => x) (0, 1) []
        { points := [], tris := [], tcoords := [] }
        (some [(0, 0, 0), (1, 0, 7), (0, 1, 0)])).1.points[2]? = some (1, 0, 0) ∧
    (RenderBackground (fun x : ℚ => x) (0, 1) []
        { points := [], tris := [], tcoords := [] }
        (some [(0, 0, 0), (1, 0, 7), (0, 1, 0)])).1.points[2]? ≠
      [((0 : ℚ), (0 : ℚ), (0 : ℚ)), (1, 0, 7), (0, 1, 0)][1 % 3]? := by
  have h := ((RenderBackground_polygon (fun x : ℚ => x) (0, 1) []
    { points := [], tris := [], tcoords := [] }
    [(0, 0, 0), (1, 0, 7), (0, 1, 0)] (by decide)).2.2.2 1 (by decide)).1
  have hs : ringSource [((0 : ℚ), (0 : ℚ), (0 : ℚ)), (1, 0, 7), (0, 1, 0)] 1 = (1, 0, 0) := by
    simp [ringSource, polygonVertex]
  rw [hs] at h
  refine ⟨h, ?_⟩
  rw [h]
  simp [Prod.ext_iff]

theorem polygonVertex_mem {K : Type} [Zero K] (ps : List (K × K × K)) (hN : ps.length ≠ 0)
    (i : Nat) : polygonVertex ps i ∈ ps := by
  unfold polygonVertex
  have hlt : i % ps.length < ps.length := Nat.mod_lt _ (by omega)
  rw [List.getD_eq_getElem _ _ hlt]
  exact List.getElem_mem _

/-- C11 (amended): `RenderBackground` produces a closed double ring.  In the default
case it yields exactly 10 points and 8 triangles: points 0..3 are the quad
corners, point 4 duplicates point 0, points 5..9 are their offset counterparts
with point 9 equal to point 5, and every triangle index is below 10.  For a
supplied polygon of `N >= 1` points it yields exactly `2N+2` points and `2N`
triangles with every triangle index below `2N+2`; the point at index `2i` has the
x and y of input vertex `i mod N` and the z of input vertex 0 (it is input vertex
`i mod N` when all vertices have the same z); and the last pair `(2N, 2N+1)`
duplicates the first pair `(0, 1)`. -/
theorem C11_closed_double_ring (K : Type) [LinearOrderedField K] (sqrt : K → K)
    (orientation : Int) (xdim ydim : Nat) (hd : DimensionIndices orientation xdim ydim)
    (p0 p1 p2 p3 : K × K × K) (coords12 : List K) (poly : PolyBuffer K)
    (ps : List (K × K × K)) (hN : 1 ≤ ps.length) :
    ((RenderBackground sqrt (xdim, ydim) (quadCoords p0 p1 p2 p3) poly none).1.points.length
        = 10 ∧
      (RenderBackground sqrt (xdim, ydim) (quadCoords p0 p1 p2 p3) poly none).1.tris.length
        = 8 ∧
      (∀ t ∈ (RenderBackground sqrt (xdim, ydim) (quadCoords p0 p1 p2 p3) poly none).1.tris,
        (0 ≤ t.1 ∧ t.1 < 10) ∧ (0 ≤ t.2.1 ∧ t.2.1 < 10) ∧ (0 ≤ t.2.2 ∧ t.2.2 < 10)) ∧
      (RenderBackground sqrt (xdim, ydim) (quadCoords p0 p1 p2 p3) poly none).1.points.take 5
        = [p0, p1, p2, p3, p0] ∧
      (RenderBackground sqrt (xdim, ydim) (quadCoords p0 p1 p2 p3) poly none).1.points.drop 5
        = [p0, p1, p2, p3, p0].map (quadOffset xdim ydim (quadCenter p0 p1 p2 p3)) ∧
      (RenderBackground sqrt (xdim, ydim) (quadCoords p0 p1 p2 p3) poly none).1.points[9]? =
        (RenderBackground sqrt (xdim, ydim) (quadCoords p0 p1 p2 p3) poly none).1.points[5]?) ∧
    ((RenderBackground sqrt (xdim, ydim) coords12 poly (some ps)).1.points.length
        = 2 * ps.length + 2 ∧
      (RenderBackground sqrt (xdim, ydim) coords12 poly (some ps)).1.tris.length
        = 2 * ps.length ∧
      (∀ t ∈ (RenderBackground sqrt (xdim, ydim) coords12 poly (some ps)).1.tris,
        (0 ≤ t.1 ∧ t.1 < 2 * (ps.length : Int) + 2) ∧
        (0 ≤ t.2.1 ∧ t.2.1 < 2 * (ps.length : Int) + 2) ∧
        (0 ≤ t.2.2 ∧ t.2.2 < 2 * (ps.length : Int) + 2)) ∧
      (∀ i : Nat, i ≤ ps.length →
        (RenderBackground sqrt (xdim, ydim) coords12 poly (some ps)).1.points[2 * i]? =
          some ((polygonVertex ps i).1, (polygonVertex ps i).2.1, (polygonVertex ps 0).2.2)) ∧
      (∀ z : K, (∀ p ∈ ps, p.2.2 = z) → ∀ i : Nat, i ≤ ps.length →
        (RenderBackground sqrt (xdim, ydim) coords12 poly (some ps)).1.points[2 * i]? =
          some (polygonVertex ps i)) ∧
      (RenderBackground sqrt (xdim, ydim) coords12 poly (some ps)).1.points[2 * ps.length]? =
        (RenderBackground sqrt (xdim, ydim) coords12 poly (some ps)).1.points[0]? ∧
      (RenderBackground sqrt (xdim, ydim) coords12 poly (some ps)).1.points[2 * ps.length + 1]? =
        (RenderBackground sqrt (xdim, ydim) coords12 poly (some ps)).1.points[1]?) := by
  have hN' : ps.length ≠ 0 := by omega
  constructor
  · rw [RenderBackground_default_points sqrt xdim ydim hd.2.1 hd.2.2.1 hd.2.2.2.1]
    refine ⟨rfl, ?_, ?_, rfl, rfl, rfl⟩
    · unfold RenderBackground; rfl
    · unfold RenderBackground
      show ∀ t ∈ backgroundQuadTris, _
      decide
  · obtain ⟨hlen, htris, _, hpts⟩ :=
      RenderBackground_polygon sqrt (xdim, ydim) coords12 poly ps hN'
    have hsrc : ∀ i : Nat, ringSource ps i =
        ((polygonVertex ps i).1, (polygonVertex ps i).2.1, (polygonVertex ps 0).2.2) := by
      intro i
      unfold ringSource
      have h0 : polygonVertex ps 0 = ps.getD 0 (0, 0, 0) := by
        unfold polygonVertex; rw [Nat.zero_mod]
      rw [h0]
    have hpt : ∀ i : Nat, i ≤ ps.length →
        (RenderBackground sqrt (xdim, ydim) coords12 poly (some ps)).1.points[2 * i]? =
          some ((polygonVertex ps i).1, (polygonVertex ps i).2.1,
            (polygonVertex ps 0).2.2) := by
      intro i hi
      rw [Nat.mul_comm, (hpts i hi).1, hsrc]
    have hoff : ringOffset sqrt ps ps.length = ringOffset sqrt ps 0 := by
      simp only [ringOffset, ringSource, (polygonVertex_length ps).1,
        (polygonVertex_length ps).2, hN', if_false, if_true, Nat.add_sub_cancel, Nat.zero_add]
    refine ⟨by rw [hlen]; omega, by rw [htris, length_backgroundPolygonTris], ?_, hpt, ?_, ?_, ?_⟩
    · intro t ht
      rw [htris] at ht
      exact mem_backgroundPolygonTris _ t ht
    · intro z hz i hi
      rw [hpt i hi]
      have h1 := hz _ (polygonVertex_mem ps hN' i)
      have h2 := hz _ (polygonVertex_mem ps hN' 0)
      rw [h2, ← h1]
    · rw [hpt ps.length (le_refl _), show (0 : Nat) = 2 * 0 from rfl, hpt 0 (Nat.zero_le _),
        (polygonVertex_length ps).1]
    · have h1 := (hpts ps.length (le_refl _)).2
      have h2 := (hpts 0 (Nat.zero_le _)).2
      rw [Nat.mul_comm, h1, hoff, ← h2]

/-- Witness of C11 (amended): the default border of a 10 x 10 quad and the border of
a triangle in the plane `z = 0`. -/
theorem C11_closed_double_ring_witness :
    DimensionIndices 2 0 1 ∧
    1 ≤ [((0 : ℚ), (0 : ℚ), (0 : ℚ)), (4, 0, 0), (0, 3, 0)].length ∧
    (RenderBackground (fun x : ℚ => x) (0, 1)
        (quadCoords (0, 0, 5) (10, 0, 5) (10, 10, 5) (0, 10, 5))
        { points := [], tris := [], tcoords := [] } none).1.points.length = 10 ∧
    (RenderBackground (fun x : ℚ => x) (0, 1) []
        { points := [], tris := [], tcoords := [] }
        (some [(0, 0, 0), (4, 0, 0), (0, 3, 0)])).1.points.length =
      2 * [((0 : ℚ), (0 : ℚ), (0 : ℚ)), (4, 0, 0), (0, 3, 0)].length + 2 :=
  ⟨by decide, by decide,
    (C11_closed_double_ring ℚ (fun x : ℚ => x) 2 0 1 (by decide)
      (0, 0, 5) (10, 0, 5) (10, 10, 5) (0, 10, 5) []
      { points := [], tris := [], tcoords := [] }
      [(0, 0, 0), (4, 0, 0), (0, 3, 0)] (by decide)).1.1,
    (C11_closed_double_ring ℚ (fun x : ℚ => x) 2 0 1 (by decide)
      (0, 0, 5) (10, 0, 5) (10, 10, 5) (0, 10, 5) []
      { points := [], tris := [], tcoords := [] }
      [(0, 0, 0), (4, 0, 0), (0, 3, 0)] (by decide)).2.1⟩

/-! ## Offset vertices and the centroid -/

/-- A displacement of length at least `B` takes a point that is closer than `B / 2`
to a center strictly farther away from it. -/
theorem farther_core {K : Type} [LinearOrderedField K] (B d1 d2 w1 w2 wz : K) (hB : 0 < B)
    (hD : B ^ 2 ≤ d1 ^ 2 + d2 ^ 2) (hW : 4 * (w1 ^ 2 + w2 ^ 2 + wz ^ 2) < B ^ 2) :
    (w1 + d1) ^ 2 + (w2 + d2) ^ 2 + wz ^ 2 > w1 ^ 2 + w2 ^ 2 + wz ^ 2 := by
  have hcs : (d1 * w1 + d2 * w2) ^ 2 ≤ (d1 ^ 2 + d2 ^ 2) * (w1 ^ 2 + w2 ^ 2) := by
    nlinarith [sq_nonneg (d1 * w2 - d2 * w1)]
  have hDpos : 0 < d1 ^ 2 + d2 ^ 2 := lt_of_lt_of_le (by positivity) hD
  have hwz : 0 ≤ wz ^ 2 := sq_nonneg _
  have h4 : 4 * (d1 * w1 + d2 * w2) ^ 2 < (d1 ^ 2 + d2 ^ 2) ^ 2 := by
    have h1 : 4 * (w1 ^ 2 + w2 ^ 2) < d1 ^ 2 + d2 ^ 2 := by linarith
    have h2 : (d1 ^ 2 + d2 ^ 2) * (4 * (w1 ^ 2 + w2 ^ 2)) <
        (d1 ^ 2 + d2 ^ 2) * (d1 ^ 2 + d2 ^ 2) :=
      mul_lt_mul_of_pos_left h1 hDpos
    nlinarith
  have hkey : 0 < 2 * (d1 * w1 + d2 * w2) + (d1 ^ 2 + d2 ^ 2) := by
    by_contra hneg
    rw [not_lt] at hneg
    have h5 : d1 ^ 2 + d2 ^ 2 ≤ -(2 * (d1 * w1 + d2 * w2)) := by linarith
    have h6 := mul_self_le_mul_self (le_of_lt hDpos) h5
    nlinarith
  nlinarith

/-- Dividing an edge by an exact square root of its squared length gives a unit
vector. -/
theorem edgeDir_unit {K : Type} [LinearOrderedField K] (sqrt : K → K) (a b : K × K × K)
    (h0 : edgeLenSq a b ≠ 0)
    (hs : sqrt (edgeLenSq a b) * sqrt (edgeLenSq a b) = edgeLenSq a b) :
    (edgeDir sqrt a b).1 * (edgeDir sqrt a b).1 +
      (edgeDir sqrt a b).2 * (edgeDir sqrt a b).2 = 1 := by
  have hr : sqrt (edgeLenSq a b) ≠ 0 := by
    intro h; rw [h, mul_zero] at hs; exact h0 hs.symm
  unfold edgeLenSq at h0 hs hr
  simp only [edgeDir]
  field_simp
  linear_combination -hs

/-- The offset of a vertex is at least as long as the border is thick. -/
theorem miter_len {K : Type} [LinearOrderedField K] (B a b t : K) (hu : a * a + b * b = 1) :
    B ^ 2 ≤ ((t * a + b) * B) ^ 2 + ((t * b - a) * B) ^ 2 := by
  have h : ((t * a + b) * B) ^ 2 + ((t * b - a) * B) ^ 2 = B ^ 2 * (t ^ 2 + 1) := by
    linear_combination (B ^ 2 * (t ^ 2 + 1)) * hu
  rw [h]
  nlinarith [sq_nonneg t, sq_nonneg B, mul_nonneg (sq_nonneg B) (sq_nonneg t)]

/-- The offset vertex of a polygon vertex that is closer to a center than half the
border thickness lies farther from that center than the vertex. -/
theorem ringOffset_farther {K : Type} [LinearOrderedField K] (sqrt : K → K)
    (ps : List (K × K × K)) (i : Nat) (c : K × K × K)
    (h0 : edgeLenSq (polygonVertex ps (if i = 0 then ps.length - 1 else i - 1))
      (polygonVertex ps i) ≠ 0)
    (hs : sqrt (edgeLenSq (polygonVertex ps (if i = 0 then ps.length - 1 else i - 1))
        (polygonVertex ps i)) *
      sqrt (edgeLenSq (polygonVertex ps (if i = 0 then ps.length - 1 else i - 1))
        (polygonVertex ps i)) =
      edgeLenSq (polygonVertex ps (if i = 0 then ps.length - 1 else i - 1))
        (polygonVertex ps i))
    (hsize : 4 * distSq (ringSource ps i) c < borderThickness K ^ 2) :
    borderThickness K ^ 2 ≤ distSq (ringOffset sqrt ps i) (ringSource ps i) ∧
    distSq (ringOffset sqrt ps i) c > distSq (ringSource ps i) c := by
  have hu := edgeDir_unit sqrt _ _ h0 hs
  have hB := borderThickness_pos K
  simp only [ringOffset, distSq] at hsize ⊢
  generalize edgeDir sqrt (polygonVertex ps (if i = 0 then ps.length - 1 else i - 1))
    (polygonVertex ps i) = u0 at hu ⊢
  generalize edgeDir sqrt (polygonVertex ps i) (polygonVertex ps (i + 1)) = u1
  generalize miterT u0.1 u0.2 u1.1 u1.2 = t
  have hlen := miter_len (borderThickness K) u0.1 u0.2 t hu
  have hf := farther_core (borderThickness K) _ _ _ _ _ hB hlen hsize
  constructor
  · have e : ∀ x d : K, (x + d - x) ^ 2 = d ^ 2 := fun x d => by ring
    rw [e, e, sub_self]
    linarith
  · have e1 : ∀ x d y : K, x + d - y = x - y + d := fun x d y => by ring
    rw [e1, e1]
    exact hf

/-- C13 (as stated, refuted): a square of side `4e6` in the plane `z = 0`, vertices
`(0,0)`, `(0,4e6)`, `(4e6,4e6)`, `(4e6,0)` in this (clockwise) order, with `sqrt`
exact on its edges.  It has 4 vertices, no zero-length edge and no two
consecutive edges collinear.  The offset vertex of vertex 0 (index 1) is
`(1e6, 1e6, 0)`: it lies closer to the centroid `(2e6, 2e6, 0)` than its source
vertex `(0, 0, 0)` (index 0). -/
theorem C13_offset_vertex_closer_to_centroid :
    (∀ j : Nat, j < 4 →
      edgeLenSq (polygonVertex [((0 : ℚ), (0 : ℚ), (0 : ℚ)), (0, 4000000, 0),
          (4000000, 4000000, 0), (4000000, 0, 0)] j)
        (polygonVertex [((0 : ℚ), (0 : ℚ), (0 : ℚ)), (0, 4000000, 0),
          (4000000, 4000000, 0), (4000000, 0, 0)] (j + 1)) = 4000000 * 4000000 ∧
      edgeCross (polygonVertex [((0 : ℚ), (0 : ℚ), (0 : ℚ)), (0, 4000000, 0),
          (4000000, 4000000, 0), (4000000, 0, 0)] j)
        (polygonVertex [((0 : ℚ), (0 : ℚ), (0 : ℚ)), (0, 4000000, 0),
          (4000000, 4000000, 0), (4000000, 0, 0)] (j + 1))
        (polygonVertex [((0 : ℚ), (0 : ℚ), (0 : ℚ)), (0, 4000000, 0),
          (4000000, 4000000, 0), (4000000, 0, 0)] (j + 2)) ≠ 0) ∧
    (RenderBackground (fun x : ℚ => if x = 16000000000000 then 4000000 else 0) (0, 1) []
        { points := [], tris := [], tcoords := [] }
        (some [(0, 0, 0), (0, 4000000, 0), (4000000, 4000000, 0),
          (4000000, 0, 0)])).1.points[0]? = some (0, 0, 0) ∧
    (RenderBackground (fun x : ℚ => if x = 16000000000000 then 4000000 else 0) (0, 1) []
        { points := [], tris := [], tcoords := [] }
        (some [(0, 0, 0), (0, 4000000, 0), (4000000, 4000000, 0),
          (4000000, 0, 0)])).1.points[1]? = some (1000000, 1000000, 0) ∧
    polygonCentroid [((0 : ℚ), (0 : ℚ), (0 : ℚ)), (0, 4000000, 0), (4000000, 4000000, 0),
      (4000000, 0, 0)] = (2000000, 2000000, 0) ∧
    distSq ((1000000 : ℚ), (1000000 : ℚ), (0 : ℚ)) (2000000, 2000000, 0) <
      distSq ((0 : ℚ), (0 : ℚ), (0 : ℚ)) (2000000, 2000000, 0) := by
  have h := (RenderBackground_polygon
    (fun x : ℚ => if x = 16000000000000 then 4000000 else 0) (0, 1) []
    { points := [], tris := [], tcoords := [] }
    [(0, 0, 0), (0, 4000000, 0), (4000000, 4000000, 0), (4000000, 0, 0)]
    (by decide)).2.2.2 0 (by decide)
  refine ⟨?_, ?_, ?_, ?_, ?_⟩
  · intro j hj
    interval_cases j <;> norm_num [edgeLenSq, edgeCross, polygonVertex]
  · rw [h.1]
    norm_num [ringSource, polygonVertex]
  · rw [h.2]
    norm_num [ringOffset, ringSource, edgeDir, polygonVertex, miterT, borderThickness]
  · norm_num [polygonCentroid]
  · norm_num [distSq]

theorem polygonVertex_add_length {K : Type} [Zero K] (ps : List (K × K × K)) (k : Nat) :
    polygonVertex ps (k + ps.length) = polygonVertex ps k := by
  unfold polygonVertex
  rw [Nat.add_mod_right]

theorem polygonVertex_prev {K : Type} [Zero K] (ps : List (K × K × K)) (i : Nat) :
    polygonVertex ps (i + ps.length - 1) =
      polygonVertex ps (if i = 0 then ps.length - 1 else i - 1) := by
  by_cases h : i = 0
  · rw [if_pos h, h, Nat.zero_add]
  · rw [if_neg h, show i + ps.length - 1 = (i - 1) + ps.length by omega,
      polygonVertex_add_length]

/-- For two unit vectors that are not parallel, the divisor the comparison selects
is not zero and the miter direction has dot product 1 with both normals. -/
theorem miter_dot {K : Type} [LinearOrderedField K] (dx0 dy0 dx1 dy1 : K)
    (h0 : dx0 * dx0 + dy0 * dy0 = 1) (h1 : dx1 * dx1 + dy1 * dy1 = 1)
    (hx : dx0 * dy1 - dy0 * dx1 ≠ 0) :
    (if |dx0 + dx1| > |dy0 + dy1| then dx0 + dx1 else dy0 + dy1) ≠ 0 ∧
    (miterT dx0 dy0 dx1 dy1 * dx0 + dy0) * dy0 +
      (miterT dx0 dy0 dx1 dy1 * dy0 - dx0) * (-dx0) = 1 ∧
    (miterT dx0 dy0 dx1 dy1 * dx0 + dy0) * dy1 +
      (miterT dx0 dy0 dx1 dy1 * dy0 - dx0) * (-dx1) = 1 := by
  have hsel : (if |dx0 + dx1| > |dy0 + dy1| then dx0 + dx1 else dy0 + dy1) ≠ 0 := by
    split_ifs with hc
    · intro hz
      rw [hz, abs_zero] at hc
      exact absurd hc (not_lt.2 (abs_nonneg _))
    · intro hz
      rw [hz, abs_zero, gt_iff_lt, not_lt] at hc
      have hx0 : dx0 + dx1 = 0 := abs_eq_zero.1 (le_antisymm hc (abs_nonneg _))
      apply hx
      linear_combination dx0 * hz - dy0 * hx0
  refine ⟨hsel, by linear_combination h0, ?_⟩
  unfold miterT
  split_ifs with hc
  · rw [if_pos hc] at hsel
    field_simp
    linear_combination dx0 * h1 + dx1 * h0
  · rw [if_neg hc] at hsel
    field_simp
    linear_combination dy1 * h0 + dy0 * h1

/-- The directions of two consecutive edges that are not collinear are not parallel,
and neither edge is divided by zero. -/
theorem edgeDir_cross {K : Type} [LinearOrderedField K] (sqrt : K → K) (a b c : K × K × K)
    (h0 : edgeLenSq a b ≠ 0)
    (hs0 : sqrt (edgeLenSq a b) * sqrt (edgeLenSq a b) = edgeLenSq a b)
    (h1 : edgeLenSq b c ≠ 0)
    (hs1 : sqrt (edgeLenSq b c) * sqrt (edgeLenSq b c) = edgeLenSq b c)
    (hx : edgeCross a b c ≠ 0) :
    sqrt (edgeLenSq a b) ≠ 0 ∧ sqrt (edgeLenSq b c) ≠ 0 ∧
    (edgeDir sqrt a b).1 * (edgeDir sqrt b c).2 -
      (edgeDir sqrt a b).2 * (edgeDir sqrt b c).1 ≠ 0 := by
  have hr0 : sqrt (edgeLenSq a b) ≠ 0 := by
    intro h; rw [h, mul_zero] at hs0; exact h0 hs0.symm
  have hr1 : sqrt (edgeLenSq b c) ≠ 0 := by
    intro h; rw [h, mul_zero] at hs1; exact h1 hs1.symm
  refine ⟨hr0, hr1, ?_⟩
  unfold edgeLenSq at hr0 hr1
  unfold edgeCross at hx
  simp only [edgeDir]
  intro h
  apply hx
  field_simp at h
  linear_combination h

/-- C13 (amended): in the general-polygon case of `RenderBackground`, for every
non-degenerate supplied polygon (`N >= 3` vertices in a plane of constant z, no
zero-length edge, no two consecutive edges collinear; `sqrt` exact on the squared
edge lengths, as in exact real arithmetic) whose vertices all lie closer to the
polygon's centroid than half the border thickness (`4 * distance^2 < (1e6)^2`),
and for every `i <= N`: the pass that computes the offset vertex (index `2i+1`)
divides by no zero (neither by the length of the edge that arrives at vertex `i`
or of the edge that leaves it, nor by the divisor of `t`); the offset vertex is
the source vertex (index `2i`, input vertex `i mod N`) moved within the plane so
that its displacement has dot product exactly `1e6` with the unit normals
`(dy, -dx)` of both adjacent edges (the miter join); so it is moved by at least
the border thickness, and it lies strictly farther from the centroid than the
source vertex. -/
theorem C13_offset_farther_when_within_half_border (K : Type) [LinearOrderedField K]
    (sqrt : K → K) (dims : Nat × Nat) (coords12 : List K) (poly : PolyBuffer K)
    (ps : List (K × K × K)) (z : K) (hN : 3 ≤ ps.length) (hz : ∀ p ∈ ps, p.2.2 = z)
    (hedge : ∀ j : Nat, j < ps.length →
      edgeLenSq (polygonVertex ps j) (polygonVertex ps (j + 1)) ≠ 0 ∧
      sqrt (edgeLenSq (polygonVertex ps j) (polygonVertex ps (j + 1))) *
        sqrt (edgeLenSq (polygonVertex ps j) (polygonVertex ps (j + 1))) =
        edgeLenSq (polygonVertex ps j) (polygonVertex ps (j + 1)))
    (hcross : ∀ j : Nat, j < ps.length →
      edgeCross (polygonVertex ps j) (polygonVertex ps (j + 1)) (polygonVertex ps (j + 2)) ≠ 0)
    (hsize : ∀ j : Nat, j < ps.length →
      4 * distSq (polygonVertex ps j) (polygonCentroid ps) < borderThickness K ^ 2)
    (i : Nat) (hi : i ≤ ps.length) :
    ∃ s q : K × K × K,
      (RenderBackground sqrt dims coords12 poly (some ps)).1.points[2 * i]? = some s ∧
      (RenderBackground sqrt dims coords12 poly (some ps)).1.points[2 * i + 1]? = some q ∧
      s = polygonVertex ps i ∧
      sqrt (edgeLenSq (polygonVertex ps (i + ps.length - 1)) (polygonVertex ps i)) ≠ 0 ∧
      sqrt (edgeLenSq (polygonVertex ps i) (polygonVertex ps (i + 1))) ≠ 0 ∧
      (if |(edgeDir sqrt (polygonVertex ps (i + ps.length - 1)) (polygonVertex ps i)).1 +
            (edgeDir sqrt (polygonVertex ps i) (polygonVertex ps (i + 1))).1| >
          |(edgeDir sqrt (polygonVertex ps (i + ps.length - 1)) (polygonVertex ps i)).2 +
            (edgeDir sqrt (polygonVertex ps i) (polygonVertex ps (i + 1))).2|
        then (edgeDir sqrt (polygonVertex ps (i + ps.length - 1)) (polygonVertex ps i)).1 +
          (edgeDir sqrt (polygonVertex ps i) (polygonVertex ps (i + 1))).1
        else (edgeDir sqrt (polygonVertex ps (i + ps.length - 1)) (polygonVertex ps i)).2 +
          (edgeDir sqrt (polygonVertex ps i) (polygonVertex ps (i + 1))).2) ≠ 0 ∧
      (q.1 - s.1) * (edgeDir sqrt (polygonVertex ps (i + ps.length - 1)) (polygonVertex ps i)).2 +
        (q.2.1 - s.2.1) *
          (-(edgeDir sqrt (polygonVertex ps (i + ps.length - 1)) (polygonVertex ps i)).1) =
        borderThickness K ∧
      (q.1 - s.1) * (edgeDir sqrt (polygonVertex ps i) (polygonVertex ps (i + 1))).2 +
        (q.2.1 - s.2.1) * (-(edgeDir sqrt (polygonVertex ps i) (polygonVertex ps (i + 1))).1) =
        borderThickness K ∧
      q.2.2 = s.2.2 ∧
      borderThickness K ^ 2 ≤ distSq q s ∧
      distSq q (polygonCentroid ps) > distSq s (polygonCentroid ps) := by
  have hN' : ps.length ≠ 0 := by omega
  obtain ⟨_, _, _, hpts⟩ := RenderBackground_polygon sqrt dims coords12 poly ps hN'
  have hsrc : ringSource ps i = polygonVertex ps i := by
    unfold ringSource
    have h0 : ps.getD 0 (0, 0, 0) = polygonVertex ps 0 := by
      unfold polygonVertex; rw [Nat.zero_mod]
    rw [h0, hz _ (polygonVertex_mem ps hN' 0), ← hz _ (polygonVertex_mem ps hN' i)]
  have hmod : ∀ a k : Nat, polygonVertex ps (a + k) = polygonVertex ps (a % ps.length + k) := by
    intro a k
    unfold polygonVertex
    rw [Nat.mod_add_mod]
  have hmod0 : ∀ a : Nat, polygonVertex ps a = polygonVertex ps (a % ps.length) := by
    intro a
    unfold polygonVertex
    rw [Nat.mod_mod]
  have hedge' : ∀ j : Nat,
      edgeLenSq (polygonVertex ps j) (polygonVertex ps (j + 1)) ≠ 0 ∧
      sqrt (edgeLenSq (polygonVertex ps j) (polygonVertex ps (j + 1))) *
        sqrt (edgeLenSq (polygonVertex ps j) (polygonVertex ps (j + 1))) =
        edgeLenSq (polygonVertex ps j) (polygonVertex ps (j + 1)) := by
    intro j
    rw [hmod0 j, hmod j 1]
    exact hedge _ (Nat.mod_lt _ (by omega))
  have hcross' : ∀ j : Nat,
      edgeCross (polygonVertex ps j) (polygonVertex ps (j + 1)) (polygonVertex ps (j + 2)) ≠ 0 := by
    intro j
    rw [hmod0 j, hmod j 1, hmod j 2]
    exact hcross _ (Nat.mod_lt _ (by omega))
  have e1 : polygonVertex ps (i + ps.length - 1 + 1) = polygonVertex ps i := by
    rw [show i + ps.length - 1 + 1 = i + ps.length by omega, polygonVertex_add_length]
  have e2 : polygonVertex ps (i + ps.length - 1 + 2) = polygonVertex ps (i + 1) := by
    rw [show i + ps.length - 1 + 2 = (i + 1) + ps.length by omega, polygonVertex_add_length]
  have hA := hedge' (i + ps.length - 1)
  have hX := hcross' (i + ps.length - 1)
  rw [e1] at hA
  rw [e1, e2] at hX
  have hB := hedge' i
  obtain ⟨hr0, hr1, hnp⟩ := edgeDir_cross sqrt _ _ _ hA.1 hA.2 hB.1 hB.2 hX
  have hu0 := edgeDir_unit sqrt _ _ hA.1 hA.2
  have hu1 := edgeDir_unit sqrt _ _ hB.1 hB.2
  obtain ⟨hsel, hd0, hd1⟩ := miter_dot _ _ _ _ hu0 hu1 hnp
  have hsz : 4 * distSq (ringSource ps i) (polygonCentroid ps) < borderThickness K ^ 2 := by
    rw [hsrc, hmod0 i]
    exact hsize _ (Nat.mod_lt _ (by omega))
  have hA' := hA
  rw [polygonVertex_prev] at hA'
  obtain ⟨hlen, hfar⟩ := ringOffset_farther sqrt ps i (polygonCentroid ps) hA'.1 hA'.2 hsz
  have hq : ringOffset sqrt ps i =
      ((ringSource ps i).1 +
        (miterT (edgeDir sqrt (polygonVertex ps (i + ps.length - 1)) (polygonVertex ps i)).1
            (edgeDir sqrt (polygonVertex ps (i + ps.length - 1)) (polygonVertex ps i)).2
            (edgeDir sqrt (polygonVertex ps i) (polygonVertex ps (i + 1))).1
            (edgeDir sqrt (polygonVertex ps i) (polygonVertex ps (i + 1))).2 *
          (edgeDir sqrt (polygonVertex ps (i + ps.length - 1)) (polygonVertex ps i)).1 +
          (edgeDir sqrt (polygonVertex ps (i + ps.length - 1)) (polygonVertex ps i)).2) *
          borderThickness K,
        (ringSource ps i).2.1 +
        (miterT (edgeDir sqrt (polygonVertex ps (i + ps.length - 1)) (polygonVertex ps i)).1
            (edgeDir sqrt (polygonVertex ps (i + ps.length - 1)) (polygonVertex ps i)).2
            (edgeDir sqrt (polygonVertex ps i) (polygonVertex ps (i + 1))).1
            (edgeDir sqrt (polygonVertex ps i) (polygonVertex ps (i + 1))).2 *
          (edgeDir sqrt (polygonVertex ps (i + ps.length - 1)) (polygonVertex ps i)).2 -
          (edgeDir sqrt (polygonVertex ps (i + ps.length - 1)) (polygonVertex ps i)).1) *
          borderThickness K,
        (ringSource ps i).2.2) := by
    rw [polygonVertex_prev]
    rfl
  refine ⟨ringSource ps i, ringOffset sqrt ps i, ?_, ?_, hsrc, hr0, hr1, hsel, ?_, ?_, ?_,
    hlen, hfar⟩
  · rw [Nat.mul_comm]; exact (hpts i hi).1
  · rw [Nat.mul_comm]; exact (hpts i hi).2
  · rw [hq]
    simp only
    linear_combination borderThickness K * hd0
  · rw [hq]
    simp only
    linear_combination borderThickness K * hd1
  · rw [hq]

/-- Witness of C13 (amended): the triangle `(0,0)`, `(4,0)`, `(0,3)` in the plane
`z = 0`, whose edges have lengths 4, 5 and 3; second vertex.  The edge directions
are `(1, 0)` and `(-4/5, 3/5)`, `t = 3`, and the two dot products fix the offset
vertex: `(4 + 3e6, -1e6, 0)`. -/
theorem C13_offset_farther_when_within_half_border_witness :
    ∃ s q : ℚ × ℚ × ℚ,
      (RenderBackground
        (fun x : ℚ => if x = 16 then 4 else if x = 25 then 5 else if x = 9 then 3 else 0)
        (0, 1) [] { points := [], tris := [], tcoords := [] }
        (some [(0, 0, 0), (4, 0, 0), (0, 3, 0)])).1.points[2 * 1]? = some s ∧
      (RenderBackground
        (fun x : ℚ => if x = 16 then 4 else if x = 25 then 5 else if x = 9 then 3 else 0)
        (0, 1) [] { points := [], tris := [], tcoords := [] }
        (some [(0, 0, 0), (4, 0, 0), (0, 3, 0)])).1.points[2 * 1 + 1]? = some q ∧
      s = (4, 0, 0) ∧
      q = (3000004, -1000000, 0) ∧
      borderThickness ℚ ^ 2 ≤ distSq q s ∧
      distSq q (polygonCentroid [((0 : ℚ), (0 : ℚ), (0 : ℚ)), (4, 0, 0), (0, 3, 0)]) >
        distSq s (polygonCentroid [((0 : ℚ), (0 : ℚ), (0 : ℚ)), (4, 0, 0), (0, 3, 0)]) := by
  obtain ⟨s, q, h1, h2, h3, _, _, _, hd0, hd1, h4, h5, h6⟩ :=
    C13_offset_farther_when_within_half_border ℚ
      (fun x : ℚ => if x = 16 then 4 else if x = 25 then 5 else if x = 9 then 3 else 0)
      (0, 1) [] { points := [], tris := [], tcoords := [] }
      [(0, 0, 0), (4, 0, 0), (0, 3, 0)] 0 (by decide)
      (by simp)
      (by
        intro j hj
        have hj3 : j < 3 := hj
        interval_cases j <;> norm_num [edgeLenSq, polygonVertex])
      (by
        intro j hj
        have hj3 : j < 3 := hj
        interval_cases j <;> norm_num [edgeCross, polygonVertex])
      (by
        intro j hj
        have hj3 : j < 3 := hj
        interval_cases j <;>
          norm_num [distSq, polygonVertex, polygonCentroid, borderThickness])
      1 (by decide)
  have hs : s = (4, 0, 0) := by rw [h3]; simp [polygonVertex]
  subst hs
  norm_num [edgeDir, polygonVertex, borderThickness] at hd0 hd1 h4
  refine ⟨_, q, h1, h2, rfl, ?_, h5, h6⟩
  ext
  · show q.1 = 3000004
    linarith
  · show q.2.1 = -1000000
    linarith
  · show q.2.2 = 0
    exact h4

end vtkOpenGLImageSliceMapper

namespace vtkPlotSurface

/-! ## The surface of vtkPlotSurface -/

theorem set_at_length {α : Type} (pre post : List α) (x v : α) :
    (pre ++ x :: post).set pre.length v = pre ++ v :: post := by
  rw [List.set_append, if_neg (Nat.lt_irrefl _), Nat.sub_self, List.set_cons_zero]

theorem set_after {α : Type} (pre mid post : List α) (x v : α) (n : Nat)
    (hn : n = pre.length + mid.length) :
    (pre ++ (mid ++ x :: post)).set n v = pre ++ (mid ++ v :: post) := by
  subst hn
  rw [← List.append_assoc, ← List.length_append, set_at_length, List.append_assoc]

theorem getD_at_length {α : Type} (pre post : List α) (v d : α) :
    (pre ++ v :: post).getD pre.length d = v := by
  rw [List.getD_eq_getElem?_getD, List.getElem?_append_right (le_refl _), Nat.sub_self,
    List.getElem?_cons_zero]
  rfl

/-- One vertex: three floats are written where `pos` points, `pos` moves on by
three, and the color of the value is appended. -/
theorem InsertSurfaceVertex_eq (s : PlotSurface) (mapValue : ℚ → Nat × Nat × Nat)
    (pre post : List ℚ) (a b c : ℚ) (cols : List (Nat × Nat × Nat)) (value : ℚ) (i j : Int) :
    InsertSurfaceVertex s mapValue
        { data := pre ++ a :: b :: c :: post, pos := pre.length, colors := cols } value i j =
      { data := (pre ++ [ColumnToX s j, RowToY s i, value]) ++ post,
        pos := (pre ++ [ColumnToX s j, RowToY s i, value]).length,
        colors := cols ++ [mapValue value] } := by
  unfold InsertSurfaceVertex
  have h1 : (pre ++ a :: b :: c :: post).set pre.length (ColumnToX s j) =
      pre ++ ColumnToX s j :: b :: c :: post := set_at_length _ _ _ _
  have h2 : (pre ++ ColumnToX s j :: b :: c :: post).set (pre.length + 1) (RowToY s i) =
      pre ++ ColumnToX s j :: RowToY s i :: c :: post :=
    set_after pre [ColumnToX s j] (c :: post) b (RowToY s i) _ rfl
  have h3 : (pre ++ ColumnToX s j :: RowToY s i :: c :: post).set (pre.length + 1 + 1) value =
      pre ++ ColumnToX s j :: RowToY s i :: value :: post :=
    set_after pre [ColumnToX s j, RowToY s i] post c value _ rfl
  have h4 : (pre ++ ColumnToX s j :: RowToY s i :: value :: post).getD
      (pre.length + 1 + 1 + 1 - 1) 0 = value := by
    have e : pre ++ ColumnToX s j :: RowToY s i :: value :: post =
        (pre ++ [ColumnToX s j, RowToY s i]) ++ value :: post := by simp
    have e2 : pre.length + 1 + 1 + 1 - 1 = (pre ++ [ColumnToX s j, RowToY s i]).length := by
      simp
    rw [e, e2]
    exact getD_at_length _ _ _ _
  simp only [h1, h2, h3, h4]
  simp

theorem list_split_three {α : Type} (l : List α) (h : 3 ≤ l.length) :
    ∃ a b c, l = a :: b :: c :: l.drop 3 := by
  rcases l with _ | ⟨a, _ | ⟨b, _ | ⟨c, post⟩⟩⟩ <;> simp at h
  exact ⟨a, b, c, rfl⟩

/-- One vertex, for any array with room for three more floats after `pre`. -/
theorem InsertSurfaceVertex_append (s : PlotSurface) (mapValue : ℚ → Nat × Nat × Nat)
    (pre rest : List ℚ) (cols : List (Nat × Nat × Nat)) (value : ℚ) (i j : Int)
    (h : 3 ≤ rest.length) :
    InsertSurfaceVertex s mapValue
        { data := pre ++ rest, pos := pre.length, colors := cols } value i j =
      { data := (pre ++ [ColumnToX s j, RowToY s i, value]) ++ rest.drop 3,
        pos := (pre ++ [ColumnToX s j, RowToY s i, value]).length,
        colors := cols ++ [mapValue value] } := by
  obtain ⟨a, b, c, h1⟩ := list_split_three rest h
  generalize rest.drop 3 = post at h1
  rw [h1, InsertSurfaceVertex_eq]

/-- One cell: eighteen floats and six colors. -/
theorem surfaceCell_append (s : PlotSurface) (table : Int → Int → ℚ)
    (mapValue : ℚ → Nat × Nat × Nat) (i : Int) (j : Nat)
    (pre rest : List ℚ) (cols : List (Nat × Nat × Nat)) (h : 18 ≤ rest.length) :
    surfaceCell s table mapValue i
        { data := pre ++ rest, pos := pre.length, colors := cols } j =
      { data := (pre ++ expectedCellFloats s table i j) ++ rest.drop 18,
        pos := (pre ++ expectedCellFloats s table i j).length,
        colors := cols ++ expectedCellColors table mapValue i j } := by
  unfold surfaceCell
  simp only []
  rw [InsertSurfaceVertex_append _ _ _ _ _ _ _ _ (by omega),
    InsertSurfaceVertex_append _ _ _ _ _ _ _ _ (by rw [List.length_drop]; omega),
    InsertSurfaceVertex_append _ _ _ _ _ _ _ _ (by simp only [List.length_drop]; omega),
    InsertSurfaceVertex_append _ _ _ _ _ _ _ _ (by simp only [List.length_drop]; omega),
    InsertSurfaceVertex_append _ _ _ _ _ _ _ _ (by simp only [List.length_drop]; omega),
    InsertSurfaceVertex_append _ _ _ _ _ _ _ _ (by simp only [List.length_drop]; omega)]
  simp [expectedCellFloats, expectedCellColors, expectedCorners, expectedVertex]

theorem expectedCellFloats_length (s : PlotSurface) (table : Int → Int → ℚ) (i j : Int) :
    (expectedCellFloats s table i j).length = 18 := rfl

theorem expectedCellColors_length (table : Int → Int → ℚ) (mapValue : ℚ → Nat × Nat × Nat)
    (i j : Int) : (expectedCellColors table mapValue i j).length = 6 := rfl

/-- One row of cells: the inner loop of `GenerateSurface`. -/
theorem surfaceRow_append (s : PlotSurface) (table : Int → Int → ℚ)
    (mapValue : ℚ → Nat × Nat × Nat) (i : Int) :
    ∀ (n : Nat) (pre rest : List ℚ) (cols : List (Nat × Nat × Nat)), 18 * n ≤ rest.length →
      (List.range n).foldl (surfaceCell s table mapValue i)
          { data := pre ++ rest, pos := pre.length, colors := cols } =
        { data := (pre ++ (List.range n).flatMap (fun (j : Nat) =>
              expectedCellFloats s table i (j : Int))) ++ rest.drop (18 * n),
          pos := (pre ++ (List.range n).flatMap (fun (j : Nat) =>
              expectedCellFloats s table i (j : Int))).length,
          colors := cols ++ (List.range n).flatMap (fun (j : Nat) =>
              expectedCellColors table mapValue i (j : Int)) } := by
  intro n
  induction n with
  | zero => intro pre rest cols _; simp
  | succ n ih =>
    intro pre rest cols h
    rw [List.range_succ, List.foldl_append, ih pre rest cols (by omega)]
    simp only [List.foldl_cons, List.foldl_nil]
    rw [surfaceCell_append _ _ _ _ _ _ _ _ (by rw [List.length_drop]; omega)]
    simp only [List.flatMap_append, List.flatMap_cons, List.flatMap_nil, List.append_nil,
      List.append_assoc, List.drop_drop]
    rw [show 18 * n + 18 = 18 * (n + 1) by ring]

theorem flatMap_length_const {α : Type} (f : Nat → List α) (L : Nat)
    (hf : ∀ x, (f x).length = L) (n : Nat) : ((List.range n).flatMap f).length = n * L := by
  induction n with
  | zero => simp
  | succ n ih =>
    rw [List.range_succ, List.flatMap_append, List.length_append, ih]
    simp only [List.flatMap_cons, List.flatMap_nil, List.append_nil, hf]
    ring

/-- All rows: the outer loop of `GenerateSurface`. -/
theorem surfaceGrid_append (s : PlotSurface) (table : Int → Int → ℚ)
    (mapValue : ℚ → Nat × Nat × Nat) (m : Nat) :
    ∀ (n : Nat) (pre rest : List ℚ) (cols : List (Nat × Nat × Nat)),
      18 * (n * m) ≤ rest.length →
      (List.range n).foldl
          (fun (st : SurfaceState) (i : Nat) =>
            (List.range m).foldl (surfaceCell s table mapValue (i : Int)) st)
          { data := pre ++ rest, pos := pre.length, colors := cols } =
        { data := (pre ++ expectedSurface s table n m) ++ rest.drop (18 * (n * m)),
          pos := (pre ++ expectedSurface s table n m).length,
          colors := cols ++ expectedColors table mapValue n m } := by
  intro n
  induction n with
  | zero => intro pre rest cols _; simp [expectedSurface, expectedColors]
  | succ n ih =>
    intro pre rest cols h
    have hnm : 18 * (n * m) + 18 * m ≤ rest.length := by
      have : 18 * ((n + 1) * m) = 18 * (n * m) + 18 * m := by ring
      omega
    rw [List.range_succ, List.foldl_append, ih pre rest cols (by omega)]
    simp only [List.foldl_cons, List.foldl_nil]
    rw [surfaceRow_append _ _ _ _ _ _ _ _ (by rw [List.length_drop]; omega)]
    simp only [expectedSurface, expectedColors, List.flatMap_append, List.flatMap_cons,
      List.flatMap_nil, List.append_nil, List.append_assoc, List.drop_drop]
    rw [show 18 * (n * m) + 18 * m = 18 * ((n + 1) * m) by ring]
    simp only [List.range_succ, List.flatMap_append, List.flatMap_cons, List.flatMap_nil,
      List.append_nil, List.append_assoc]

theorem expectedSurface_length (s : PlotSurface) (table : Int → Int → ℚ) (n m : Nat) :
    (expectedSurface s table n m).length = n * (m * 18) := by
  unfold expectedSurface
  exact flatMap_length_const _ _
    (fun i => flatMap_length_const _ 18 (fun j => expectedCellFloats_length s table _ _) m) n

theorem expectedColors_length (table : Int → Int → ℚ) (mapValue : ℚ → Nat × Nat × Nat)
    (n m : Nat) : (expectedColors table mapValue n m).length = n * (m * 6) := by
  unfold expectedColors
  exact flatMap_length_const _ _
    (fun i => flatMap_length_const _ 6
      (fun j => expectedCellColors_length table mapValue _ _) m) n

theorem flatMap_block_get {α : Type} (f : Nat → List α) (L : Nat)
    (hf : ∀ x, (f x).length = L) :
    ∀ n a b : Nat, a < n → b < L → ((List.range n).flatMap f)[a * L + b]? = (f a)[b]? := by
  intro n
  induction n with
  | zero => intro a b ha; omega
  | succ n ih =>
    intro a b ha hb
    rw [List.range_succ, List.flatMap_append]
    have hlen := flatMap_length_const f L hf n
    by_cases han : a < n
    · have hlt : a * L + b < ((List.range n).flatMap f).length := by
        rw [hlen]
        have : (a + 1) * L ≤ n * L := Nat.mul_le_mul_right L han
        have : (a + 1) * L = a * L + L := by ring
        omega
      rw [List.getElem?_append_left hlt]
      exact ih a b han hb
    · have hEq : a = n := by omega
      subst hEq
      rw [List.getElem?_append_right (by rw [hlen]; omega), hlen]
      simp

/-- The floats of the vertex number `k` of cell `(i, j)` within the expected array. -/
theorem expectedSurface_get (s : PlotSurface) (table : Int → Int → ℚ) (n m i j r : Nat)
    (hi : i < n) (hj : j < m) (hr : r < 18) :
    (expectedSurface s table n m)[(i * m + j) * 18 + r]? =
      (expectedCellFloats s table (i : Int) (j : Int))[r]? := by
  unfold expectedSurface
  have h1 := flatMap_block_get
    (fun (i : Nat) => (List.range m).flatMap (fun (j : Nat) =>
      expectedCellFloats s table (i : Int) (j : Int))) (m * 18)
    (fun i => flatMap_length_const _ 18 (fun j => expectedCellFloats_length s table _ _) m)
    n i (j * 18 + r) hi (by
      have : (j + 1) * 18 ≤ m * 18 := Nat.mul_le_mul_right 18 hj
      omega)
  have h2 := flatMap_block_get
    (fun (j : Nat) => expectedCellFloats s table (i : Int) (j : Int)) 18
    (fun j => expectedCellFloats_length s table _ _) m j r hj hr
  rw [show (i * m + j) * 18 + r = i * (m * 18) + (j * 18 + r) by ring, h1]
  exact h2

theorem expectedColors_get (table : Int → Int → ℚ) (mapValue : ℚ → Nat × Nat × Nat)
    (n m i j k : Nat) (hi : i < n) (hj : j < m) (hk : k < 6) :
    (expectedColors table mapValue n m)[(i * m + j) * 6 + k]? =
      (expectedCellColors table mapValue (i : Int) (j : Int))[k]? := by
  unfold expectedColors
  have h1 := flatMap_block_get
    (fun (i : Nat) => (List.range m).flatMap (fun (j : Nat) =>
      expectedCellColors table mapValue (i : Int) (j : Int))) (m * 6)
    (fun i => flatMap_length_const _ 6
      (fun j => expectedCellColors_length table mapValue _ _) m)
    n i (j * 6 + k) hi (by
      have : (j + 1) * 6 ≤ m * 6 := Nat.mul_le_mul_right 6 hj
      omega)
  have h2 := flatMap_block_get
    (fun (j : Nat) => expectedCellColors table mapValue (i : Int) (j : Int)) 6
    (fun j => expectedCellColors_length table mapValue _ _) m j k hj hk
  rw [show (i * m + j) * 6 + k = i * (m * 6) + (j * 6 + k) by ring, h1]
  exact h2

/-- What `GenerateSurface` leaves in `Surface` and `Colors`, when the number of
vertices is six times the number of cells. -/
theorem GenerateSurface_eq (s : PlotSurface) (table : Int → Int → ℚ)
    (mapValue : ℚ → Nat × Nat × Nat)
    (h : s.NumberOfVertices.toNat =
      (s.NumberOfRows - 1).toNat * (s.NumberOfColumns - 1).toNat * 6) :
    (GenerateSurface s table mapValue).Surface =
      expectedSurface s table (s.NumberOfRows - 1).toNat (s.NumberOfColumns - 1).toNat ∧
    (GenerateSurface s table mapValue).Colors =
      expectedColors table mapValue (s.NumberOfRows - 1).toNat (s.NumberOfColumns - 1).toNat := by
  have hlen : (resizeFloats (3 * s.NumberOfVertices.toNat) s.Surface).length =
      3 * s.NumberOfVertices.toNat := by
    unfold resizeFloats
    simp only [List.length_append, List.length_take, List.length_replicate]
    omega
  have hle : 18 * ((s.NumberOfRows - 1).toNat * (s.NumberOfColumns - 1).toNat) ≤
      (resizeFloats (3 * s.NumberOfVertices.toNat) s.Surface).length := by
    rw [hlen, h]; omega
  have hg := surfaceGrid_append s table mapValue (s.NumberOfColumns - 1).toNat
    (s.NumberOfRows - 1).toNat [] (resizeFloats (3 * s.NumberOfVertices.toNat) s.Surface) [] hle
  have hdrop : (resizeFloats (3 * s.NumberOfVertices.toNat) s.Surface).drop
      (18 * ((s.NumberOfRows - 1).toNat * (s.NumberOfColumns - 1).toNat)) = [] := by
    apply List.drop_eq_nil_of_le
    rw [hlen, h]; omega
  simp only [List.nil_append, List.length_nil, hdrop, List.append_nil] at hg
  unfold GenerateSurface
  simp only [hg]
  trivial

theorem SetInputData_eq (s : PlotSurface) (table : Int → Int → ℚ)
    (mapValue : ℚ → Nat × Nat × Nat) (R C : Nat) (hR : 1 ≤ R) (hC : 1 ≤ C) :
    (SetInputData s R C table mapValue).NumberOfVertices = (((R - 1) * (C - 1) * 6 : Nat) : Int) ∧
    (SetInputData s R C table mapValue).Surface =
      expectedSurface (SetInputData s R C table mapValue) table (R - 1) (C - 1) ∧
    (SetInputData s R C table mapValue).Colors = expectedColors table mapValue (R - 1) (C - 1) := by
  have hRi : ((R : Int) - 1).toNat = R - 1 := by omega
  have hCi : ((C : Int) - 1).toNat = C - 1 := by omega
  have hV : (((R : Int) - 1) * ((C : Int) - 1) * 6).toNat = (R - 1) * (C - 1) * 6 := by
    have h1 : (R : Int) - 1 = ((R - 1 : Nat) : Int) := by omega
    have h2 : (C : Int) - 1 = ((C - 1 : Nat) : Int) := by omega
    rw [h1, h2]
    have : (((R - 1 : Nat) : Int) * ((C - 1 : Nat) : Int) * 6) =
        (((R - 1) * (C - 1) * 6 : Nat) : Int) := by push_cast; ring
    rw [this, Int.toNat_ofNat]
  have hNV : (((R : Int) - 1) * ((C : Int) - 1) * 6) = (((R - 1) * (C - 1) * 6 : Nat) : Int) := by
    have h1 : (R : Int) - 1 = ((R - 1 : Nat) : Int) := by omega
    have h2 : (C : Int) - 1 = ((C - 1 : Nat) : Int) := by omega
    rw [h1, h2]; push_cast; ring
  refine ⟨?_, ?_, ?_⟩
  · unfold SetInputData
    dsimp only
    split_ifs <;> exact hNV
  · have key : ∀ s0 : PlotSurface, s0.NumberOfRows = R → s0.NumberOfColumns = C →
        s0.NumberOfVertices = ((R : Int) - 1) * ((C : Int) - 1) * 6 →
        (GenerateSurface s0 table mapValue).Surface =
          expectedSurface (GenerateSurface s0 table mapValue) table (R - 1) (C - 1) := by
      intro s0 h1 h2 h3
      have := (GenerateSurface_eq s0 table mapValue (by rw [h1, h2, h3, hRi, hCi, hV])).1
      rw [h1, h2, hRi, hCi] at this
      rw [this]
      rfl
    unfold SetInputData
    dsimp only
    apply key <;> (split_ifs <;> rfl)
  · have key : ∀ s0 : PlotSurface, s0.NumberOfRows = R → s0.NumberOfColumns = C →
        s0.NumberOfVertices = ((R : Int) - 1) * ((C : Int) - 1) * 6 →
        (GenerateSurface s0 table mapValue).Colors =
          expectedColors table mapValue (R - 1) (C - 1) := by
      intro s0 h1 h2 h3
      have := (GenerateSurface_eq s0 table mapValue (by rw [h1, h2, h3, hRi, hCi, hV])).2
      rw [h1, h2, hRi, hCi] at this
      exact this
    unfold SetInputData
    dsimp only
    apply key <;> (split_ifs <;> rfl)

theorem expectedCell_get (s : PlotSurface) (table : Int → Int → ℚ)
    (mapValue : ℚ → Nat × Nat × Nat) (i j : Int) (k : Nat) (hk : k < 6) (rc : Int × Int)
    (hrc : (expectedCorners i j)[k]? = some rc) :
    (expectedCellFloats s table i j)[3 * k]? = some (ColumnToX s rc.2) ∧
    (expectedCellFloats s table i j)[3 * k + 1]? = some (RowToY s rc.1) ∧
    (expectedCellFloats s table i j)[3 * k + 2]? = some (table rc.1 rc.2) ∧
    (expectedCellColors table mapValue i j)[k]? = some (mapValue (table rc.1 rc.2)) := by
  interval_cases k <;>
    (simp [expectedCorners] at hrc
     subst hrc
     simp [expectedCellFloats, expectedCellColors, expectedCorners, expectedVertex])

/-- C20: for a table with `R ≥ 1` rows and `C ≥ 1` columns, `SetInputData` leaves
`(R-1)*(C-1)*6` vertices (three floats each) and as many color tuples; vertex number
`k` of cell `(i, j)`, the cells taken in row-major order, is the grid position
`expectedCorners i j` gives at `k`: its x is `ColumnToX` of the column, its y is
`RowToY` of the row, its z is the table value there, and its color is the lookup of
that value. -/
theorem C20_surface_vertices_row_major (s : PlotSurface) (table : Int → Int → ℚ)
    (mapValue : ℚ → Nat × Nat × Nat) (R C : Nat) (hR : 1 ≤ R) (hC : 1 ≤ C) :
    (SetInputData s R C table mapValue).NumberOfVertices = (((R - 1) * (C - 1) * 6 : Nat) : Int) ∧
    (SetInputData s R C table mapValue).Surface.length = 3 * ((R - 1) * (C - 1) * 6) ∧
    (SetInputData s R C table mapValue).Colors.length = (R - 1) * (C - 1) * 6 ∧
    ∀ i j k : Nat, i < R - 1 → j < C - 1 → k < 6 →
      ∀ rc : Int × Int, (expectedCorners (i : Int) (j : Int))[k]? = some rc →
        (SetInputData s R C table mapValue).Surface[3 * ((i * (C - 1) + j) * 6 + k)]? =
          some (ColumnToX (SetInputData s R C table mapValue) rc.2) ∧
        (SetInputData s R C table mapValue).Surface[3 * ((i * (C - 1) + j) * 6 + k) + 1]? =
          some (RowToY (SetInputData s R C table mapValue) rc.1) ∧
        (SetInputData s R C table mapValue).Surface[3 * ((i * (C - 1) + j) * 6 + k) + 2]? =
          some (table rc.1 rc.2) ∧
        (SetInputData s R C table mapValue).Colors[(i * (C - 1) + j) * 6 + k]? =
          some (mapValue (table rc.1 rc.2)) := by
  obtain ⟨hNV, hS, hCol⟩ := SetInputData_eq s table mapValue R C hR hC
  refine ⟨hNV, ?_, ?_, ?_⟩
  · rw [hS, expectedSurface_length]; ring
  · rw [hCol, expectedColors_length]; ring
  · intro i j k hi hj hk rc hrc
    obtain ⟨e0, e1, e2, e3⟩ :=
      expectedCell_get (SetInputData s R C table mapValue) table mapValue i j k hk rc hrc
    have g0 := expectedSurface_get (SetInputData s R C table mapValue) table
      (R - 1) (C - 1) i j (3 * k) hi hj (by omega)
    have g1 := expectedSurface_get (SetInputData s R C table mapValue) table
      (R - 1) (C - 1) i j (3 * k + 1) hi hj (by omega)
    have g2 := expectedSurface_get (SetInputData s R C table mapValue) table
      (R - 1) (C - 1) i j (3 * k + 2) hi hj (by omega)
    have g3 := expectedColors_get table mapValue (R - 1) (C - 1) i j k hi hj hk
    have a0 : 3 * ((i * (C - 1) + j) * 6 + k) = (i * (C - 1) + j) * 18 + 3 * k := by ring
    have a1 : 3 * ((i * (C - 1) + j) * 6 + k) + 1 = (i * (C - 1) + j) * 18 + (3 * k + 1) := by
      ring
    have a2 : 3 * ((i * (C - 1) + j) * 6 + k) + 2 = (i * (C - 1) + j) * 18 + (3 * k + 2) := by
      ring
    refine ⟨?_, ?_, ?_, ?_⟩
    · rw [hS, a0, g0, e0]
    · rw [hS, a1, g1, e1]
    · rw [hS, a2, g2, e2]
    · rw [hCol, g3, e3]

/-- Witness of C20: a table of 2 rows and 2 columns with the values `10 * row + column`,
on a plot whose ranges are not set: one cell, six vertices. -/
theorem C20_surface_vertices_row_major_witness :
    (1 ≤ 2) ∧
    (SetInputData
      { NumberOfRows := 0, NumberOfColumns := 0, NumberOfVertices := 0, ColorComponents := 0,
        XMinimum := 0, XMaximum := 0, YMinimum := 0, YMaximum := 0, Surface := [], Colors := [] }
      (2 : Nat) (2 : Nat) (fun r c => 10 * (r : ℚ) + (c : ℚ))
      (fun v => if v < 5 then (0, 0, 255) else (255, 0, 0))).Surface =
      [0, 0, 0, 1 / 2, 0, 1, 1 / 2, 1 / 2, 11, 0, 0, 0, 1 / 2, 1 / 2, 11, 0, 1 / 2, 10] ∧
    (SetInputData
      { NumberOfRows := 0, NumberOfColumns := 0, NumberOfVertices := 0, ColorComponents := 0,
        XMinimum := 0, XMaximum := 0, YMinimum := 0, YMaximum := 0, Surface := [], Colors := [] }
      (2 : Nat) (2 : Nat) (fun r c => 10 * (r : ℚ) + (c : ℚ))
      (fun v => if v < 5 then (0, 0, 255) else (255, 0, 0))).Colors.length = (2 - 1) * (2 - 1) * 6 :=
  ⟨by decide,
    by norm_num [SetInputData, GenerateSurface, resizeFloats, surfaceCell, InsertSurfaceVertex,
      ColumnToX, RowToY, List.range_succ, show Int.toNat 6 = 6 from rfl, List.replicate],
    (C20_surface_vertices_row_major _ _ _ 2 2 (by decide) (by decide)).2.2.1⟩

end vtkPlotSurface
